import Mathlib

/-!
# Field arithmetic for GF(2^255 - 19) on ten 32-bit limbs

A shallow embedding of `curve25519_32.h` (the 32-bit fiat-crypto Curve25519 field
implementation) and a verification of its documented contracts.

Machine integers are natural numbers (integers for the signed intermediates of the
borrow and select primitives); every C operation that can wrap or truncate carries
its reduction explicitly.  Each `let x<n>` below is the statement `x<n> = ...;` of
the C function of the same name.
-/

namespace Fiat25519

set_option linter.unusedVariables false

/-! ## Machine arithmetic -/

/-- Conversion to `uint8_t`. -/
def u8 (n : Nat) : Nat := n % 2 ^ 8

/-- Conversion to `fiat_25519_uint1`, which the header declares as `unsigned char`. -/
def uint1 (n : Nat) : Nat := n % 2 ^ 8

/-- Conversion to `uint32_t`. -/
def u32 (n : Nat) : Nat := n % 2 ^ 32

/-- Addition of two `uint32_t` values. -/
def add32 (a b : Nat) : Nat := (a + b) % 2 ^ 32

/-- Subtraction of two `uint32_t` values. -/
def sub32 (a b : Nat) : Nat := (((a : Int) - (b : Int)) % 2 ^ 32).toNat

/-- Multiplication of two `uint32_t` values. -/
def mul32 (a b : Nat) : Nat := (a * b) % 2 ^ 32

/-- Left shift of a `uint32_t` value. -/
def shl32 (a k : Nat) : Nat := (a <<< k) % 2 ^ 32

/-- Bitwise complement of a `uint32_t` value. -/
def not32 (a : Nat) : Nat := 0xffffffff - a % 2 ^ 32

/-- Addition of two `uint64_t` values. -/
def add64 (a b : Nat) : Nat := (a + b) % 2 ^ 64

/-- Multiplication of two `uint64_t` values. -/
def mul64 (a b : Nat) : Nat := (a * b) % 2 ^ 64

/-- Conversion to `int32_t` (two's complement, as the header requires). -/
def int32 (z : Int) : Int := (z + 2 ^ 31) % 2 ^ 32 - 2 ^ 31

/-- Conversion to `fiat_25519_int1`, which the header declares as `signed char`. -/
def int1 (z : Int) : Int := (z + 2 ^ 7) % 2 ^ 8 - 2 ^ 7

/-- Conversion of a signed value to `uint32_t`. -/
def u32_of_int (z : Int) : Nat := (z % 2 ^ 32).toNat

/-- Conversion of a signed value to `fiat_25519_uint1` (`unsigned char`). -/
def uint1_of_int (z : Int) : Nat := (z % 2 ^ 8).toNat

/-! ## Data model -/

/-- An array `uint32_t[10]`: limb `i` has weight `2^⌈25.5 i⌉`. -/
structure Limbs where
  v0 : Nat
  v1 : Nat
  v2 : Nat
  v3 : Nat
  v4 : Nat
  v5 : Nat
  v6 : Nat
  v7 : Nat
  v8 : Nat
  v9 : Nat
deriving DecidableEq, Repr

/-- The type `fiat_25519_loose_field_element` (`uint32_t[10]`). -/
abbrev fiat_25519_loose_field_element := Limbs

/-- The type `fiat_25519_tight_field_element` (`uint32_t[10]`). -/
abbrev fiat_25519_tight_field_element := Limbs

/-- An array `uint8_t[32]`. -/
structure Bytes32 where
  b0 : Nat
  b1 : Nat
  b2 : Nat
  b3 : Nat
  b4 : Nat
  b5 : Nat
  b6 : Nat
  b7 : Nat
  b8 : Nat
  b9 : Nat
  b10 : Nat
  b11 : Nat
  b12 : Nat
  b13 : Nat
  b14 : Nat
  b15 : Nat
  b16 : Nat
  b17 : Nat
  b18 : Nat
  b19 : Nat
  b20 : Nat
  b21 : Nat
  b22 : Nat
  b23 : Nat
  b24 : Nat
  b25 : Nat
  b26 : Nat
  b27 : Nat
  b28 : Nat
  b29 : Nat
  b30 : Nat
  b31 : Nat
deriving DecidableEq, Repr

/-- The bytes of an array in index order. -/
def Bytes32.toList (b : Bytes32) : List Nat :=
  [b.b0, b.b1, b.b2, b.b3, b.b4, b.b5, b.b6, b.b7, b.b8, b.b9, b.b10, b.b11, b.b12, b.b13,
   b.b14, b.b15, b.b16, b.b17, b.b18, b.b19, b.b20, b.b21, b.b22, b.b23, b.b24, b.b25,
   b.b26, b.b27, b.b28, b.b29, b.b30, b.b31]

/-- Every element of the array is a byte. -/
def IsBytes (b : Bytes32) : Prop := ∀ x ∈ b.toList, x < 256

instance (b : Bytes32) : Decidable (IsBytes b) := by
  unfold IsBytes; infer_instance

/-- The little-endian integer held by a byte array. -/
def bytes_eval (b : Bytes32) : Nat :=
  b.b0 + b.b1 * 2 ^ 8 + b.b2 * 2 ^ 16 + b.b3 * 2 ^ 24 + b.b4 * 2 ^ 32 + b.b5 * 2 ^ 40 +
  b.b6 * 2 ^ 48 + b.b7 * 2 ^ 56 + b.b8 * 2 ^ 64 + b.b9 * 2 ^ 72 + b.b10 * 2 ^ 80 +
  b.b11 * 2 ^ 88 + b.b12 * 2 ^ 96 + b.b13 * 2 ^ 104 + b.b14 * 2 ^ 112 + b.b15 * 2 ^ 120 +
  b.b16 * 2 ^ 128 + b.b17 * 2 ^ 136 + b.b18 * 2 ^ 144 + b.b19 * 2 ^ 152 + b.b20 * 2 ^ 160 +
  b.b21 * 2 ^ 168 + b.b22 * 2 ^ 176 + b.b23 * 2 ^ 184 + b.b24 * 2 ^ 192 + b.b25 * 2 ^ 200 +
  b.b26 * 2 ^ 208 + b.b27 * 2 ^ 216 + b.b28 * 2 ^ 224 + b.b29 * 2 ^ 232 + b.b30 * 2 ^ 240 +
  b.b31 * 2 ^ 248

/-- The prime `m = 2^255 - 19` of the header's postconditions. -/
def p : Nat := 2 ^ 255 - 19

/-- The integer a limb array stands for: `Σ x[i] * 2^⌈25.5 i⌉`. -/
def eval (x : Limbs) : Nat :=
  x.v0 + x.v1 * 2 ^ 26 + x.v2 * 2 ^ 51 + x.v3 * 2 ^ 77 + x.v4 * 2 ^ 102 + x.v5 * 2 ^ 128 +
  x.v6 * 2 ^ 153 + x.v7 * 2 ^ 179 + x.v8 * 2 ^ 204 + x.v9 * 2 ^ 230

/-- The bounds of `fiat_25519_loose_field_element`:
`[0x0 ~> 0xc000000]` at even and `[0x0 ~> 0x6000000]` at odd indices. -/
def Loose (x : Limbs) : Prop :=
  x.v0 ≤ 0xc000000 ∧ x.v1 ≤ 0x6000000 ∧ x.v2 ≤ 0xc000000 ∧ x.v3 ≤ 0x6000000 ∧
  x.v4 ≤ 0xc000000 ∧ x.v5 ≤ 0x6000000 ∧ x.v6 ≤ 0xc000000 ∧ x.v7 ≤ 0x6000000 ∧
  x.v8 ≤ 0xc000000 ∧ x.v9 ≤ 0x6000000

/-- The bounds of `fiat_25519_tight_field_element`:
`[0x0 ~> 0x4000000]` at even and `[0x0 ~> 0x2000000]` at odd indices. -/
def Tight (x : Limbs) : Prop :=
  x.v0 ≤ 0x4000000 ∧ x.v1 ≤ 0x2000000 ∧ x.v2 ≤ 0x4000000 ∧ x.v3 ≤ 0x2000000 ∧
  x.v4 ≤ 0x4000000 ∧ x.v5 ≤ 0x2000000 ∧ x.v6 ≤ 0x4000000 ∧ x.v7 ≤ 0x2000000 ∧
  x.v8 ≤ 0x4000000 ∧ x.v9 ≤ 0x2000000

instance (x : Limbs) : Decidable (Loose x) := by
  unfold Loose; infer_instance

instance (x : Limbs) : Decidable (Tight x) := by
  unfold Tight; infer_instance

/-! ## Primitives -/

/-- The function `fiat_25519_value_barrier_u32`: the identity, behind an empty `asm`. -/
def fiat_25519_value_barrier_u32 (a : Nat) : Nat := a

/-- The function `fiat_25519_addcarryx_u26`, returning `(out1, out2)`. -/
def fiat_25519_addcarryx_u26 (arg1 arg2 arg3 : Nat) : Nat × Nat :=
  let x1 := add32 (add32 arg1 arg2) arg3
  let x2 := x1 &&& 0x3ffffff
  let x3 := uint1 (x1 >>> 26)
  (x2, x3)

/-- The function `fiat_25519_subborrowx_u26`, returning `(out1, out2)`.  The difference
`arg2 - arg1` is taken in `uint32_t`, both operands of the outer subtraction are converted
to `int32_t`, and the shift of the signed `x1` is arithmetic.  A signed overflow of the outer
subtraction is modelled as wrap-around; none occurs within the documented input bounds. -/
def fiat_25519_subborrowx_u26 (arg1 arg2 arg3 : Nat) : Nat × Nat :=
  let x1 : Int := int32 (int32 (sub32 arg2 arg1) - int32 arg3)
  let x2 : Int := int1 (Int.shiftRight x1 26)
  let x3 := u32_of_int x1 &&& 0x3ffffff
  (x3, uint1_of_int (0x0 - x2))

/-- The function `fiat_25519_addcarryx_u25`, returning `(out1, out2)`. -/
def fiat_25519_addcarryx_u25 (arg1 arg2 arg3 : Nat) : Nat × Nat :=
  let x1 := add32 (add32 arg1 arg2) arg3
  let x2 := x1 &&& 0x1ffffff
  let x3 := uint1 (x1 >>> 25)
  (x2, x3)

/-- The function `fiat_25519_subborrowx_u25`, returning `(out1, out2)`; see
`fiat_25519_subborrowx_u26` for the treatment of the signed intermediates. -/
def fiat_25519_subborrowx_u25 (arg1 arg2 arg3 : Nat) : Nat × Nat :=
  let x1 : Int := int32 (int32 (sub32 arg2 arg1) - int32 arg3)
  let x2 : Int := int1 (Int.shiftRight x1 25)
  let x3 := u32_of_int x1 &&& 0x1ffffff
  (x3, uint1_of_int (0x0 - x2))

/-- The function `fiat_25519_cmovznz_u32`: `x1` is `!(!arg1)`, `x2` the mask `0` or
`0xffffffff` obtained by negating `x1` in `fiat_25519_int1` and widening to `uint32_t`. -/
def fiat_25519_cmovznz_u32 (arg1 arg2 arg3 : Nat) : Nat :=
  let x1 := if arg1 = 0 then 0 else 1
  let x2 := u32_of_int (int1 (0x0 - (x1 : Int))) &&& 0xffffffff
  let x3 := (fiat_25519_value_barrier_u32 x2 &&& arg3) |||
    (fiat_25519_value_barrier_u32 (not32 x2) &&& arg2)
  x3

/-! ## Field operations -/

/-- The function `fiat_25519_carry_mul`. -/
def fiat_25519_carry_mul (arg1 arg2 : fiat_25519_loose_field_element) :
    fiat_25519_tight_field_element :=
  let x1 := mul64 arg1.v9 (mul32 arg2.v9 0x26)
  let x2 := mul64 arg1.v9 (mul32 arg2.v8 0x13)
  let x3 := mul64 arg1.v9 (mul32 arg2.v7 0x26)
  let x4 := mul64 arg1.v9 (mul32 arg2.v6 0x13)
  let x5 := mul64 arg1.v9 (mul32 arg2.v5 0x26)
  let x6 := mul64 arg1.v9 (mul32 arg2.v4 0x13)
  let x7 := mul64 arg1.v9 (mul32 arg2.v3 0x26)
  let x8 := mul64 arg1.v9 (mul32 arg2.v2 0x13)
  let x9 := mul64 arg1.v9 (mul32 arg2.v1 0x26)
  let x10 := mul64 arg1.v8 (mul32 arg2.v9 0x13)
  let x11 := mul64 arg1.v8 (mul32 arg2.v8 0x13)
  let x12 := mul64 arg1.v8 (mul32 arg2.v7 0x13)
  let x13 := mul64 arg1.v8 (mul32 arg2.v6 0x13)
  let x14 := mul64 arg1.v8 (mul32 arg2.v5 0x13)
  let x15 := mul64 arg1.v8 (mul32 arg2.v4 0x13)
  let x16 := mul64 arg1.v8 (mul32 arg2.v3 0x13)
  let x17 := mul64 arg1.v8 (mul32 arg2.v2 0x13)
  let x18 := mul64 arg1.v7 (mul32 arg2.v9 0x26)
  let x19 := mul64 arg1.v7 (mul32 arg2.v8 0x13)
  let x20 := mul64 arg1.v7 (mul32 arg2.v7 0x26)
  let x21 := mul64 arg1.v7 (mul32 arg2.v6 0x13)
  let x22 := mul64 arg1.v7 (mul32 arg2.v5 0x26)
  let x23 := mul64 arg1.v7 (mul32 arg2.v4 0x13)
  let x24 := mul64 arg1.v7 (mul32 arg2.v3 0x26)
  let x25 := mul64 arg1.v6 (mul32 arg2.v9 0x13)
  let x26 := mul64 arg1.v6 (mul32 arg2.v8 0x13)
  let x27 := mul64 arg1.v6 (mul32 arg2.v7 0x13)
  let x28 := mul64 arg1.v6 (mul32 arg2.v6 0x13)
  let x29 := mul64 arg1.v6 (mul32 arg2.v5 0x13)
  let x30 := mul64 arg1.v6 (mul32 arg2.v4 0x13)
  let x31 := mul64 arg1.v5 (mul32 arg2.v9 0x26)
  let x32 := mul64 arg1.v5 (mul32 arg2.v8 0x13)
  let x33 := mul64 arg1.v5 (mul32 arg2.v7 0x26)
  let x34 := mul64 arg1.v5 (mul32 arg2.v6 0x13)
  let x35 := mul64 arg1.v5 (mul32 arg2.v5 0x26)
  let x36 := mul64 arg1.v4 (mul32 arg2.v9 0x13)
  let x37 := mul64 arg1.v4 (mul32 arg2.v8 0x13)
  let x38 := mul64 arg1.v4 (mul32 arg2.v7 0x13)
  let x39 := mul64 arg1.v4 (mul32 arg2.v6 0x13)
  let x40 := mul64 arg1.v3 (mul32 arg2.v9 0x26)
  let x41 := mul64 arg1.v3 (mul32 arg2.v8 0x13)
  let x42 := mul64 arg1.v3 (mul32 arg2.v7 0x26)
  let x43 := mul64 arg1.v2 (mul32 arg2.v9 0x13)
  let x44 := mul64 arg1.v2 (mul32 arg2.v8 0x13)
  let x45 := mul64 arg1.v1 (mul32 arg2.v9 0x26)
  let x46 := mul64 arg1.v9 arg2.v0
  let x47 := mul64 arg1.v8 arg2.v1
  let x48 := mul64 arg1.v8 arg2.v0
  let x49 := mul64 arg1.v7 arg2.v2
  let x50 := mul64 arg1.v7 (mul32 arg2.v1 0x2)
  let x51 := mul64 arg1.v7 arg2.v0
  let x52 := mul64 arg1.v6 arg2.v3
  let x53 := mul64 arg1.v6 arg2.v2
  let x54 := mul64 arg1.v6 arg2.v1
  let x55 := mul64 arg1.v6 arg2.v0
  let x56 := mul64 arg1.v5 arg2.v4
  let x57 := mul64 arg1.v5 (mul32 arg2.v3 0x2)
  let x58 := mul64 arg1.v5 arg2.v2
  let x59 := mul64 arg1.v5 (mul32 arg2.v1 0x2)
  let x60 := mul64 arg1.v5 arg2.v0
  let x61 := mul64 arg1.v4 arg2.v5
  let x62 := mul64 arg1.v4 arg2.v4
  let x63 := mul64 arg1.v4 arg2.v3
  let x64 := mul64 arg1.v4 arg2.v2
  let x65 := mul64 arg1.v4 arg2.v1
  let x66 := mul64 arg1.v4 arg2.v0
  let x67 := mul64 arg1.v3 arg2.v6
  let x68 := mul64 arg1.v3 (mul32 arg2.v5 0x2)
  let x69 := mul64 arg1.v3 arg2.v4
  let x70 := mul64 arg1.v3 (mul32 arg2.v3 0x2)
  let x71 := mul64 arg1.v3 arg2.v2
  let x72 := mul64 arg1.v3 (mul32 arg2.v1 0x2)
  let x73 := mul64 arg1.v3 arg2.v0
  let x74 := mul64 arg1.v2 arg2.v7
  let x75 := mul64 arg1.v2 arg2.v6
  let x76 := mul64 arg1.v2 arg2.v5
  let x77 := mul64 arg1.v2 arg2.v4
  let x78 := mul64 arg1.v2 arg2.v3
  let x79 := mul64 arg1.v2 arg2.v2
  let x80 := mul64 arg1.v2 arg2.v1
  let x81 := mul64 arg1.v2 arg2.v0
  let x82 := mul64 arg1.v1 arg2.v8
  let x83 := mul64 arg1.v1 (mul32 arg2.v7 0x2)
  let x84 := mul64 arg1.v1 arg2.v6
  let x85 := mul64 arg1.v1 (mul32 arg2.v5 0x2)
  let x86 := mul64 arg1.v1 arg2.v4
  let x87 := mul64 arg1.v1 (mul32 arg2.v3 0x2)
  let x88 := mul64 arg1.v1 arg2.v2
  let x89 := mul64 arg1.v1 (mul32 arg2.v1 0x2)
  let x90 := mul64 arg1.v1 arg2.v0
  let x91 := mul64 arg1.v0 arg2.v9
  let x92 := mul64 arg1.v0 arg2.v8
  let x93 := mul64 arg1.v0 arg2.v7
  let x94 := mul64 arg1.v0 arg2.v6
  let x95 := mul64 arg1.v0 arg2.v5
  let x96 := mul64 arg1.v0 arg2.v4
  let x97 := mul64 arg1.v0 arg2.v3
  let x98 := mul64 arg1.v0 arg2.v2
  let x99 := mul64 arg1.v0 arg2.v1
  let x100 := mul64 arg1.v0 arg2.v0
  let x101 := add64 x100 (add64 x45 (add64 x44 (add64 x42 (add64 x39 (add64 x35 (add64 x30 (add64
    x24 (add64 x17 x9))))))))
  let x102 := x101 >>> 26
  let x103 := u32 (x101 &&& 0x3ffffff)
  let x104 := add64 x91 (add64 x82 (add64 x74 (add64 x67 (add64 x61 (add64 x56 (add64 x52 (add64
    x49 (add64 x47 x46))))))))
  let x105 := add64 x92 (add64 x83 (add64 x75 (add64 x68 (add64 x62 (add64 x57 (add64 x53 (add64
    x50 (add64 x48 x1))))))))
  let x106 := add64 x93 (add64 x84 (add64 x76 (add64 x69 (add64 x63 (add64 x58 (add64 x54 (add64
    x51 (add64 x10 x2))))))))
  let x107 := add64 x94 (add64 x85 (add64 x77 (add64 x70 (add64 x64 (add64 x59 (add64 x55 (add64
    x18 (add64 x11 x3))))))))
  let x108 := add64 x95 (add64 x86 (add64 x78 (add64 x71 (add64 x65 (add64 x60 (add64 x25 (add64
    x19 (add64 x12 x4))))))))
  let x109 := add64 x96 (add64 x87 (add64 x79 (add64 x72 (add64 x66 (add64 x31 (add64 x26 (add64
    x20 (add64 x13 x5))))))))
  let x110 := add64 x97 (add64 x88 (add64 x80 (add64 x73 (add64 x36 (add64 x32 (add64 x27 (add64
    x21 (add64 x14 x6))))))))
  let x111 := add64 x98 (add64 x89 (add64 x81 (add64 x40 (add64 x37 (add64 x33 (add64 x28 (add64
    x22 (add64 x15 x7))))))))
  let x112 := add64 x99 (add64 x90 (add64 x43 (add64 x41 (add64 x38 (add64 x34 (add64 x29 (add64
    x23 (add64 x16 x8))))))))
  let x113 := add64 x102 x112
  let x114 := x113 >>> 25
  let x115 := u32 (x113 &&& 0x1ffffff)
  let x116 := add64 x114 x111
  let x117 := x116 >>> 26
  let x118 := u32 (x116 &&& 0x3ffffff)
  let x119 := add64 x117 x110
  let x120 := x119 >>> 25
  let x121 := u32 (x119 &&& 0x1ffffff)
  let x122 := add64 x120 x109
  let x123 := x122 >>> 26
  let x124 := u32 (x122 &&& 0x3ffffff)
  let x125 := add64 x123 x108
  let x126 := x125 >>> 25
  let x127 := u32 (x125 &&& 0x1ffffff)
  let x128 := add64 x126 x107
  let x129 := x128 >>> 26
  let x130 := u32 (x128 &&& 0x3ffffff)
  let x131 := add64 x129 x106
  let x132 := x131 >>> 25
  let x133 := u32 (x131 &&& 0x1ffffff)
  let x134 := add64 x132 x105
  let x135 := x134 >>> 26
  let x136 := u32 (x134 &&& 0x3ffffff)
  let x137 := add64 x135 x104
  let x138 := x137 >>> 25
  let x139 := u32 (x137 &&& 0x1ffffff)
  let x140 := mul64 x138 0x13
  let x141 := add64 x103 x140
  let x142 := u32 (x141 >>> 26)
  let x143 := u32 (x141 &&& 0x3ffffff)
  let x144 := add32 x142 x115
  let x145 := uint1 (x144 >>> 25)
  let x146 := x144 &&& 0x1ffffff
  let x147 := add32 x145 x118
  ⟨x143, x146, x147, x121, x124, x127, x130, x133, x136, x139⟩

/-- The function `fiat_25519_carry_square`. -/
def fiat_25519_carry_square (arg1 : fiat_25519_loose_field_element) :
    fiat_25519_tight_field_element :=
  let x1 := mul32 arg1.v9 0x13
  let x2 := mul32 x1 0x2
  let x3 := mul32 arg1.v9 0x2
  let x4 := mul32 arg1.v8 0x13
  let x5 := mul64 x4 0x2
  let x6 := mul32 arg1.v8 0x2
  let x7 := mul32 arg1.v7 0x13
  let x8 := mul32 x7 0x2
  let x9 := mul32 arg1.v7 0x2
  let x10 := mul32 arg1.v6 0x13
  let x11 := mul64 x10 0x2
  let x12 := mul32 arg1.v6 0x2
  let x13 := mul32 arg1.v5 0x13
  let x14 := mul32 arg1.v5 0x2
  let x15 := mul32 arg1.v4 0x2
  let x16 := mul32 arg1.v3 0x2
  let x17 := mul32 arg1.v2 0x2
  let x18 := mul32 arg1.v1 0x2
  let x19 := mul64 arg1.v9 (mul32 x1 0x2)
  let x20 := mul64 arg1.v8 x2
  let x21 := mul64 arg1.v8 x4
  let x22 := mul64 arg1.v7 (mul64 x2 0x2)
  let x23 := mul64 arg1.v7 x5
  let x24 := mul64 arg1.v7 (mul32 x7 0x2)
  let x25 := mul64 arg1.v6 x2
  let x26 := mul64 arg1.v6 x5
  let x27 := mul64 arg1.v6 x8
  let x28 := mul64 arg1.v6 x10
  let x29 := mul64 arg1.v5 (mul64 x2 0x2)
  let x30 := mul64 arg1.v5 x5
  let x31 := mul64 arg1.v5 (mul64 x8 0x2)
  let x32 := mul64 arg1.v5 x11
  let x33 := mul64 arg1.v5 (mul32 x13 0x2)
  let x34 := mul64 arg1.v4 x2
  let x35 := mul64 arg1.v4 x5
  let x36 := mul64 arg1.v4 x8
  let x37 := mul64 arg1.v4 x11
  let x38 := mul64 arg1.v4 x14
  let x39 := mul64 arg1.v4 arg1.v4
  let x40 := mul64 arg1.v3 (mul64 x2 0x2)
  let x41 := mul64 arg1.v3 x5
  let x42 := mul64 arg1.v3 (mul64 x8 0x2)
  let x43 := mul64 arg1.v3 x12
  let x44 := mul64 arg1.v3 (mul32 x14 0x2)
  let x45 := mul64 arg1.v3 x15
  let x46 := mul64 arg1.v3 (mul32 arg1.v3 0x2)
  let x47 := mul64 arg1.v2 x2
  let x48 := mul64 arg1.v2 x5
  let x49 := mul64 arg1.v2 x9
  let x50 := mul64 arg1.v2 x12
  let x51 := mul64 arg1.v2 x14
  let x52 := mul64 arg1.v2 x15
  let x53 := mul64 arg1.v2 x16
  let x54 := mul64 arg1.v2 arg1.v2
  let x55 := mul64 arg1.v1 (mul64 x2 0x2)
  let x56 := mul64 arg1.v1 x6
  let x57 := mul64 arg1.v1 (mul32 x9 0x2)
  let x58 := mul64 arg1.v1 x12
  let x59 := mul64 arg1.v1 (mul32 x14 0x2)
  let x60 := mul64 arg1.v1 x15
  let x61 := mul64 arg1.v1 (mul32 x16 0x2)
  let x62 := mul64 arg1.v1 x17
  let x63 := mul64 arg1.v1 (mul32 arg1.v1 0x2)
  let x64 := mul64 arg1.v0 x3
  let x65 := mul64 arg1.v0 x6
  let x66 := mul64 arg1.v0 x9
  let x67 := mul64 arg1.v0 x12
  let x68 := mul64 arg1.v0 x14
  let x69 := mul64 arg1.v0 x15
  let x70 := mul64 arg1.v0 x16
  let x71 := mul64 arg1.v0 x17
  let x72 := mul64 arg1.v0 x18
  let x73 := mul64 arg1.v0 arg1.v0
  let x74 := add64 x73 (add64 x55 (add64 x48 (add64 x42 (add64 x37 x33))))
  let x75 := x74 >>> 26
  let x76 := u32 (x74 &&& 0x3ffffff)
  let x77 := add64 x64 (add64 x56 (add64 x49 (add64 x43 x38)))
  let x78 := add64 x65 (add64 x57 (add64 x50 (add64 x44 (add64 x39 x19))))
  let x79 := add64 x66 (add64 x58 (add64 x51 (add64 x45 x20)))
  let x80 := add64 x67 (add64 x59 (add64 x52 (add64 x46 (add64 x22 x21))))
  let x81 := add64 x68 (add64 x60 (add64 x53 (add64 x25 x23)))
  let x82 := add64 x69 (add64 x61 (add64 x54 (add64 x29 (add64 x26 x24))))
  let x83 := add64 x70 (add64 x62 (add64 x34 (add64 x30 x27)))
  let x84 := add64 x71 (add64 x63 (add64 x40 (add64 x35 (add64 x31 x28))))
  let x85 := add64 x72 (add64 x47 (add64 x41 (add64 x36 x32)))
  let x86 := add64 x75 x85
  let x87 := x86 >>> 25
  let x88 := u32 (x86 &&& 0x1ffffff)
  let x89 := add64 x87 x84
  let x90 := x89 >>> 26
  let x91 := u32 (x89 &&& 0x3ffffff)
  let x92 := add64 x90 x83
  let x93 := x92 >>> 25
  let x94 := u32 (x92 &&& 0x1ffffff)
  let x95 := add64 x93 x82
  let x96 := x95 >>> 26
  let x97 := u32 (x95 &&& 0x3ffffff)
  let x98 := add64 x96 x81
  let x99 := x98 >>> 25
  let x100 := u32 (x98 &&& 0x1ffffff)
  let x101 := add64 x99 x80
  let x102 := x101 >>> 26
  let x103 := u32 (x101 &&& 0x3ffffff)
  let x104 := add64 x102 x79
  let x105 := x104 >>> 25
  let x106 := u32 (x104 &&& 0x1ffffff)
  let x107 := add64 x105 x78
  let x108 := x107 >>> 26
  let x109 := u32 (x107 &&& 0x3ffffff)
  let x110 := add64 x108 x77
  let x111 := x110 >>> 25
  let x112 := u32 (x110 &&& 0x1ffffff)
  let x113 := mul64 x111 0x13
  let x114 := add64 x76 x113
  let x115 := u32 (x114 >>> 26)
  let x116 := u32 (x114 &&& 0x3ffffff)
  let x117 := add32 x115 x88
  let x118 := uint1 (x117 >>> 25)
  let x119 := x117 &&& 0x1ffffff
  let x120 := add32 x118 x91
  ⟨x116, x119, x120, x94, x97, x100, x103, x106, x109, x112⟩

/-- The function `fiat_25519_carry`. -/
def fiat_25519_carry (arg1 : fiat_25519_loose_field_element) : fiat_25519_tight_field_element :=
  let x1 := arg1.v0
  let x2 := add32 (x1 >>> 26) arg1.v1
  let x3 := add32 (x2 >>> 25) arg1.v2
  let x4 := add32 (x3 >>> 26) arg1.v3
  let x5 := add32 (x4 >>> 25) arg1.v4
  let x6 := add32 (x5 >>> 26) arg1.v5
  let x7 := add32 (x6 >>> 25) arg1.v6
  let x8 := add32 (x7 >>> 26) arg1.v7
  let x9 := add32 (x8 >>> 25) arg1.v8
  let x10 := add32 (x9 >>> 26) arg1.v9
  let x11 := add32 (x1 &&& 0x3ffffff) (mul32 (x10 >>> 25) 0x13)
  let x12 := add32 (uint1 (x11 >>> 26)) (x2 &&& 0x1ffffff)
  let x13 := x11 &&& 0x3ffffff
  let x14 := x12 &&& 0x1ffffff
  let x15 := add32 (uint1 (x12 >>> 25)) (x3 &&& 0x3ffffff)
  let x16 := x4 &&& 0x1ffffff
  let x17 := x5 &&& 0x3ffffff
  let x18 := x6 &&& 0x1ffffff
  let x19 := x7 &&& 0x3ffffff
  let x20 := x8 &&& 0x1ffffff
  let x21 := x9 &&& 0x3ffffff
  let x22 := x10 &&& 0x1ffffff
  ⟨x13, x14, x15, x16, x17, x18, x19, x20, x21, x22⟩

/-- The function `fiat_25519_add`. -/
def fiat_25519_add (arg1 arg2 : fiat_25519_tight_field_element) : fiat_25519_loose_field_element :=
  let x1 := add32 arg1.v0 arg2.v0
  let x2 := add32 arg1.v1 arg2.v1
  let x3 := add32 arg1.v2 arg2.v2
  let x4 := add32 arg1.v3 arg2.v3
  let x5 := add32 arg1.v4 arg2.v4
  let x6 := add32 arg1.v5 arg2.v5
  let x7 := add32 arg1.v6 arg2.v6
  let x8 := add32 arg1.v7 arg2.v7
  let x9 := add32 arg1.v8 arg2.v8
  let x10 := add32 arg1.v9 arg2.v9
  ⟨x1, x2, x3, x4, x5, x6, x7, x8, x9, x10⟩

/-- The function `fiat_25519_sub`. -/
def fiat_25519_sub (arg1 arg2 : fiat_25519_tight_field_element) : fiat_25519_loose_field_element :=
  let x1 := sub32 (add32 0x7ffffda arg1.v0) arg2.v0
  let x2 := sub32 (add32 0x3fffffe arg1.v1) arg2.v1
  let x3 := sub32 (add32 0x7fffffe arg1.v2) arg2.v2
  let x4 := sub32 (add32 0x3fffffe arg1.v3) arg2.v3
  let x5 := sub32 (add32 0x7fffffe arg1.v4) arg2.v4
  let x6 := sub32 (add32 0x3fffffe arg1.v5) arg2.v5
  let x7 := sub32 (add32 0x7fffffe arg1.v6) arg2.v6
  let x8 := sub32 (add32 0x3fffffe arg1.v7) arg2.v7
  let x9 := sub32 (add32 0x7fffffe arg1.v8) arg2.v8
  let x10 := sub32 (add32 0x3fffffe arg1.v9) arg2.v9
  ⟨x1, x2, x3, x4, x5, x6, x7, x8, x9, x10⟩

/-- The function `fiat_25519_opp`. -/
def fiat_25519_opp (arg1 : fiat_25519_tight_field_element) : fiat_25519_loose_field_element :=
  let x1 := sub32 0x7ffffda arg1.v0
  let x2 := sub32 0x3fffffe arg1.v1
  let x3 := sub32 0x7fffffe arg1.v2
  let x4 := sub32 0x3fffffe arg1.v3
  let x5 := sub32 0x7fffffe arg1.v4
  let x6 := sub32 0x3fffffe arg1.v5
  let x7 := sub32 0x7fffffe arg1.v6
  let x8 := sub32 0x3fffffe arg1.v7
  let x9 := sub32 0x7fffffe arg1.v8
  let x10 := sub32 0x3fffffe arg1.v9
  ⟨x1, x2, x3, x4, x5, x6, x7, x8, x9, x10⟩

/-- The function `fiat_25519_selectznz`. -/
def fiat_25519_selectznz (arg1 : Nat) (arg2 arg3 : Limbs) : Limbs :=
  let x1 := fiat_25519_cmovznz_u32 arg1 arg2.v0 arg3.v0
  let x2 := fiat_25519_cmovznz_u32 arg1 arg2.v1 arg3.v1
  let x3 := fiat_25519_cmovznz_u32 arg1 arg2.v2 arg3.v2
  let x4 := fiat_25519_cmovznz_u32 arg1 arg2.v3 arg3.v3
  let x5 := fiat_25519_cmovznz_u32 arg1 arg2.v4 arg3.v4
  let x6 := fiat_25519_cmovznz_u32 arg1 arg2.v5 arg3.v5
  let x7 := fiat_25519_cmovznz_u32 arg1 arg2.v6 arg3.v6
  let x8 := fiat_25519_cmovznz_u32 arg1 arg2.v7 arg3.v7
  let x9 := fiat_25519_cmovznz_u32 arg1 arg2.v8 arg3.v8
  let x10 := fiat_25519_cmovznz_u32 arg1 arg2.v9 arg3.v9
  ⟨x1, x2, x3, x4, x5, x6, x7, x8, x9, x10⟩

/-- The function `fiat_25519_to_bytes`. -/
def fiat_25519_to_bytes (arg1 : fiat_25519_tight_field_element) : Bytes32 :=
  let r1 := fiat_25519_subborrowx_u26 0x0 arg1.v0 0x3ffffed
  let x1 := r1.1
  let x2 := r1.2
  let r3 := fiat_25519_subborrowx_u25 x2 arg1.v1 0x1ffffff
  let x3 := r3.1
  let x4 := r3.2
  let r5 := fiat_25519_subborrowx_u26 x4 arg1.v2 0x3ffffff
  let x5 := r5.1
  let x6 := r5.2
  let r7 := fiat_25519_subborrowx_u25 x6 arg1.v3 0x1ffffff
  let x7 := r7.1
  let x8 := r7.2
  let r9 := fiat_25519_subborrowx_u26 x8 arg1.v4 0x3ffffff
  let x9 := r9.1
  let x10 := r9.2
  let r11 := fiat_25519_subborrowx_u25 x10 arg1.v5 0x1ffffff
  let x11 := r11.1
  let x12 := r11.2
  let r13 := fiat_25519_subborrowx_u26 x12 arg1.v6 0x3ffffff
  let x13 := r13.1
  let x14 := r13.2
  let r15 := fiat_25519_subborrowx_u25 x14 arg1.v7 0x1ffffff
  let x15 := r15.1
  let x16 := r15.2
  let r17 := fiat_25519_subborrowx_u26 x16 arg1.v8 0x3ffffff
  let x17 := r17.1
  let x18 := r17.2
  let r19 := fiat_25519_subborrowx_u25 x18 arg1.v9 0x1ffffff
  let x19 := r19.1
  let x20 := r19.2
  let x21 := fiat_25519_cmovznz_u32 x20 0x0 0xffffffff
  let r22 := fiat_25519_addcarryx_u26 0x0 x1 (x21 &&& 0x3ffffed)
  let x22 := r22.1
  let x23 := r22.2
  let r24 := fiat_25519_addcarryx_u25 x23 x3 (x21 &&& 0x1ffffff)
  let x24 := r24.1
  let x25 := r24.2
  let r26 := fiat_25519_addcarryx_u26 x25 x5 (x21 &&& 0x3ffffff)
  let x26 := r26.1
  let x27 := r26.2
  let r28 := fiat_25519_addcarryx_u25 x27 x7 (x21 &&& 0x1ffffff)
  let x28 := r28.1
  let x29 := r28.2
  let r30 := fiat_25519_addcarryx_u26 x29 x9 (x21 &&& 0x3ffffff)
  let x30 := r30.1
  let x31 := r30.2
  let r32 := fiat_25519_addcarryx_u25 x31 x11 (x21 &&& 0x1ffffff)
  let x32 := r32.1
  let x33 := r32.2
  let r34 := fiat_25519_addcarryx_u26 x33 x13 (x21 &&& 0x3ffffff)
  let x34 := r34.1
  let x35 := r34.2
  let r36 := fiat_25519_addcarryx_u25 x35 x15 (x21 &&& 0x1ffffff)
  let x36 := r36.1
  let x37 := r36.2
  let r38 := fiat_25519_addcarryx_u26 x37 x17 (x21 &&& 0x3ffffff)
  let x38 := r38.1
  let x39 := r38.2
  let r40 := fiat_25519_addcarryx_u25 x39 x19 (x21 &&& 0x1ffffff)
  let x40 := r40.1
  let x41 := r40.2
  let x42 := shl32 x40 6
  let x43 := shl32 x38 4
  let x44 := shl32 x36 3
  let x45 := mul32 x34 0x2
  let x46 := shl32 x30 6
  let x47 := shl32 x28 5
  let x48 := shl32 x26 3
  let x49 := shl32 x24 2
  let x50 := u8 (x22 &&& 0xff)
  let x51 := x22 >>> 8
  let x52 := u8 (x51 &&& 0xff)
  let x53 := x51 >>> 8
  let x54 := u8 (x53 &&& 0xff)
  let x55 := u8 (x53 >>> 8)
  let x56 := add32 x49 x55
  let x57 := u8 (x56 &&& 0xff)
  let x58 := x56 >>> 8
  let x59 := u8 (x58 &&& 0xff)
  let x60 := x58 >>> 8
  let x61 := u8 (x60 &&& 0xff)
  let x62 := u8 (x60 >>> 8)
  let x63 := add32 x48 x62
  let x64 := u8 (x63 &&& 0xff)
  let x65 := x63 >>> 8
  let x66 := u8 (x65 &&& 0xff)
  let x67 := x65 >>> 8
  let x68 := u8 (x67 &&& 0xff)
  let x69 := u8 (x67 >>> 8)
  let x70 := add32 x47 x69
  let x71 := u8 (x70 &&& 0xff)
  let x72 := x70 >>> 8
  let x73 := u8 (x72 &&& 0xff)
  let x74 := x72 >>> 8
  let x75 := u8 (x74 &&& 0xff)
  let x76 := u8 (x74 >>> 8)
  let x77 := add32 x46 x76
  let x78 := u8 (x77 &&& 0xff)
  let x79 := x77 >>> 8
  let x80 := u8 (x79 &&& 0xff)
  let x81 := x79 >>> 8
  let x82 := u8 (x81 &&& 0xff)
  let x83 := u8 (x81 >>> 8)
  let x84 := u8 (x32 &&& 0xff)
  let x85 := x32 >>> 8
  let x86 := u8 (x85 &&& 0xff)
  let x87 := x85 >>> 8
  let x88 := u8 (x87 &&& 0xff)
  let x89 := uint1 (x87 >>> 8)
  let x90 := add32 x45 x89
  let x91 := u8 (x90 &&& 0xff)
  let x92 := x90 >>> 8
  let x93 := u8 (x92 &&& 0xff)
  let x94 := x92 >>> 8
  let x95 := u8 (x94 &&& 0xff)
  let x96 := u8 (x94 >>> 8)
  let x97 := add32 x44 x96
  let x98 := u8 (x97 &&& 0xff)
  let x99 := x97 >>> 8
  let x100 := u8 (x99 &&& 0xff)
  let x101 := x99 >>> 8
  let x102 := u8 (x101 &&& 0xff)
  let x103 := u8 (x101 >>> 8)
  let x104 := add32 x43 x103
  let x105 := u8 (x104 &&& 0xff)
  let x106 := x104 >>> 8
  let x107 := u8 (x106 &&& 0xff)
  let x108 := x106 >>> 8
  let x109 := u8 (x108 &&& 0xff)
  let x110 := u8 (x108 >>> 8)
  let x111 := add32 x42 x110
  let x112 := u8 (x111 &&& 0xff)
  let x113 := x111 >>> 8
  let x114 := u8 (x113 &&& 0xff)
  let x115 := x113 >>> 8
  let x116 := u8 (x115 &&& 0xff)
  let x117 := u8 (x115 >>> 8)
  ⟨x50, x52, x54, x57, x59, x61, x64, x66, x68, x71, x73, x75, x78, x80, x82, x83, x84, x86, x88,
    x91, x93, x95, x98, x100, x102, x105, x107, x109, x112, x114, x116, x117⟩

/-- The function `fiat_25519_from_bytes`. -/
def fiat_25519_from_bytes (arg1 : Bytes32) : fiat_25519_tight_field_element :=
  let x1 := shl32 arg1.b31 18
  let x2 := shl32 arg1.b30 10
  let x3 := shl32 arg1.b29 2
  let x4 := shl32 arg1.b28 20
  let x5 := shl32 arg1.b27 12
  let x6 := shl32 arg1.b26 4
  let x7 := shl32 arg1.b25 21
  let x8 := shl32 arg1.b24 13
  let x9 := shl32 arg1.b23 5
  let x10 := shl32 arg1.b22 23
  let x11 := shl32 arg1.b21 15
  let x12 := shl32 arg1.b20 7
  let x13 := shl32 arg1.b19 24
  let x14 := shl32 arg1.b18 16
  let x15 := shl32 arg1.b17 8
  let x16 := arg1.b16
  let x17 := shl32 arg1.b15 18
  let x18 := shl32 arg1.b14 10
  let x19 := shl32 arg1.b13 2
  let x20 := shl32 arg1.b12 19
  let x21 := shl32 arg1.b11 11
  let x22 := shl32 arg1.b10 3
  let x23 := shl32 arg1.b9 21
  let x24 := shl32 arg1.b8 13
  let x25 := shl32 arg1.b7 5
  let x26 := shl32 arg1.b6 22
  let x27 := shl32 arg1.b5 14
  let x28 := shl32 arg1.b4 6
  let x29 := shl32 arg1.b3 24
  let x30 := shl32 arg1.b2 16
  let x31 := shl32 arg1.b1 8
  let x32 := arg1.b0
  let x33 := add32 x31 x32
  let x34 := add32 x30 x33
  let x35 := add32 x29 x34
  let x36 := x35 &&& 0x3ffffff
  let x37 := u8 (x35 >>> 26)
  let x38 := add32 x28 x37
  let x39 := add32 x27 x38
  let x40 := add32 x26 x39
  let x41 := x40 &&& 0x1ffffff
  let x42 := u8 (x40 >>> 25)
  let x43 := add32 x25 x42
  let x44 := add32 x24 x43
  let x45 := add32 x23 x44
  let x46 := x45 &&& 0x3ffffff
  let x47 := u8 (x45 >>> 26)
  let x48 := add32 x22 x47
  let x49 := add32 x21 x48
  let x50 := add32 x20 x49
  let x51 := x50 &&& 0x1ffffff
  let x52 := u8 (x50 >>> 25)
  let x53 := add32 x19 x52
  let x54 := add32 x18 x53
  let x55 := add32 x17 x54
  let x56 := add32 x15 x16
  let x57 := add32 x14 x56
  let x58 := add32 x13 x57
  let x59 := x58 &&& 0x1ffffff
  let x60 := u8 (x58 >>> 25)
  let x61 := add32 x12 x60
  let x62 := add32 x11 x61
  let x63 := add32 x10 x62
  let x64 := x63 &&& 0x3ffffff
  let x65 := u8 (x63 >>> 26)
  let x66 := add32 x9 x65
  let x67 := add32 x8 x66
  let x68 := add32 x7 x67
  let x69 := x68 &&& 0x1ffffff
  let x70 := u8 (x68 >>> 25)
  let x71 := add32 x6 x70
  let x72 := add32 x5 x71
  let x73 := add32 x4 x72
  let x74 := x73 &&& 0x3ffffff
  let x75 := u8 (x73 >>> 26)
  let x76 := add32 x3 x75
  let x77 := add32 x2 x76
  let x78 := add32 x1 x77
  ⟨x36, x41, x46, x51, x55, x59, x64, x69, x74, x78⟩

/-- The function `fiat_25519_relax`. -/
def fiat_25519_relax (arg1 : fiat_25519_tight_field_element) : fiat_25519_loose_field_element :=
  let x1 := arg1.v0
  let x2 := arg1.v1
  let x3 := arg1.v2
  let x4 := arg1.v3
  let x5 := arg1.v4
  let x6 := arg1.v5
  let x7 := arg1.v6
  let x8 := arg1.v7
  let x9 := arg1.v8
  let x10 := arg1.v9
  ⟨x1, x2, x3, x4, x5, x6, x7, x8, x9, x10⟩

/-- The function `fiat_25519_carry_scmul_121666`. -/
def fiat_25519_carry_scmul_121666 (arg1 : fiat_25519_loose_field_element) :
    fiat_25519_tight_field_element :=
  let x1 := mul64 0x1db42 arg1.v9
  let x2 := mul64 0x1db42 arg1.v8
  let x3 := mul64 0x1db42 arg1.v7
  let x4 := mul64 0x1db42 arg1.v6
  let x5 := mul64 0x1db42 arg1.v5
  let x6 := mul64 0x1db42 arg1.v4
  let x7 := mul64 0x1db42 arg1.v3
  let x8 := mul64 0x1db42 arg1.v2
  let x9 := mul64 0x1db42 arg1.v1
  let x10 := mul64 0x1db42 arg1.v0
  let x11 := u32 (x10 >>> 26)
  let x12 := u32 (x10 &&& 0x3ffffff)
  let x13 := add64 x11 x9
  let x14 := u32 (x13 >>> 25)
  let x15 := u32 (x13 &&& 0x1ffffff)
  let x16 := add64 x14 x8
  let x17 := u32 (x16 >>> 26)
  let x18 := u32 (x16 &&& 0x3ffffff)
  let x19 := add64 x17 x7
  let x20 := u32 (x19 >>> 25)
  let x21 := u32 (x19 &&& 0x1ffffff)
  let x22 := add64 x20 x6
  let x23 := u32 (x22 >>> 26)
  let x24 := u32 (x22 &&& 0x3ffffff)
  let x25 := add64 x23 x5
  let x26 := u32 (x25 >>> 25)
  let x27 := u32 (x25 &&& 0x1ffffff)
  let x28 := add64 x26 x4
  let x29 := u32 (x28 >>> 26)
  let x30 := u32 (x28 &&& 0x3ffffff)
  let x31 := add64 x29 x3
  let x32 := u32 (x31 >>> 25)
  let x33 := u32 (x31 &&& 0x1ffffff)
  let x34 := add64 x32 x2
  let x35 := u32 (x34 >>> 26)
  let x36 := u32 (x34 &&& 0x3ffffff)
  let x37 := add64 x35 x1
  let x38 := u32 (x37 >>> 25)
  let x39 := u32 (x37 &&& 0x1ffffff)
  let x40 := mul32 x38 0x13
  let x41 := add32 x12 x40
  let x42 := uint1 (x41 >>> 26)
  let x43 := x41 &&& 0x3ffffff
  let x44 := add32 x42 x15
  let x45 := uint1 (x44 >>> 25)
  let x46 := x44 &&& 0x1ffffff
  let x47 := add32 x45 x18
  ⟨x43, x46, x47, x21, x24, x27, x30, x33, x36, x39⟩


/-! ## Proof-side definitions

The functions above are straight-line code.  For the proofs each is cut into the part that
fills the ten accumulators and the carry chain that follows, and both parts are compared with
their counterparts over unbounded naturals. -/

/-- The carry chain shared by `carry`, `carry_mul`, `carry_square` and `carry_scmul_121666`,
over unbounded naturals: propagate through limbs 0..9, fold the top carry times 19 into
limb 0 and propagate once more through limbs 0 and 1. -/
def chain (t : Limbs) : Limbs :=
  let s1 := t.v0 / 2 ^ 26 + t.v1
  let s2 := s1 / 2 ^ 25 + t.v2
  let s3 := s2 / 2 ^ 26 + t.v3
  let s4 := s3 / 2 ^ 25 + t.v4
  let s5 := s4 / 2 ^ 26 + t.v5
  let s6 := s5 / 2 ^ 25 + t.v6
  let s7 := s6 / 2 ^ 26 + t.v7
  let s8 := s7 / 2 ^ 25 + t.v8
  let s9 := s8 / 2 ^ 26 + t.v9
  let f0 := t.v0 % 2 ^ 26 + s9 / 2 ^ 25 * 19
  let f1 := f0 / 2 ^ 26 + s1 % 2 ^ 25
  ⟨f0 % 2 ^ 26, f1 % 2 ^ 25, f1 / 2 ^ 25 + s2 % 2 ^ 26, s3 % 2 ^ 25, s4 % 2 ^ 26, s5 % 2 ^ 25,
    s6 % 2 ^ 26, s7 % 2 ^ 25, s8 % 2 ^ 26, s9 % 2 ^ 25⟩

/-- The carry out of limb 9 in `chain`: the multiple of `2^255` that is folded back as 19. -/
def chain_top (t : Limbs) : Nat :=
  (((((((((t.v0 / 2 ^ 26 + t.v1) / 2 ^ 25 + t.v2) / 2 ^ 26 + t.v3) / 2 ^ 25 + t.v4) / 2 ^ 26
    + t.v5) / 2 ^ 25 + t.v6) / 2 ^ 26 + t.v7) / 2 ^ 25 + t.v8) / 2 ^ 26 + t.v9) / 2 ^ 25

/-- Every limb is at most `2^63`: enough room for the 64-bit carry chain. -/
def Acc63 (t : Limbs) : Prop :=
  t.v0 ≤ 2 ^ 63 ∧ t.v1 ≤ 2 ^ 63 ∧ t.v2 ≤ 2 ^ 63 ∧ t.v3 ≤ 2 ^ 63 ∧ t.v4 ≤ 2 ^ 63 ∧
  t.v5 ≤ 2 ^ 63 ∧ t.v6 ≤ 2 ^ 63 ∧ t.v7 ≤ 2 ^ 63 ∧ t.v8 ≤ 2 ^ 63 ∧ t.v9 ≤ 2 ^ 63

/-- The carry chain of `fiat_25519_carry_mul` (statements `x102` to `x147`) on the accumulators
`t`; `fiat_25519_carry_square` runs the same statements as `x75` to `x120`. -/
def chain64 (t : Limbs) : Limbs :=
  let x102 := t.v0 >>> 26
  let x103 := u32 (t.v0 &&& 0x3ffffff)
  let x113 := add64 x102 t.v1
  let x114 := x113 >>> 25
  let x115 := u32 (x113 &&& 0x1ffffff)
  let x116 := add64 x114 t.v2
  let x117 := x116 >>> 26
  let x118 := u32 (x116 &&& 0x3ffffff)
  let x119 := add64 x117 t.v3
  let x120 := x119 >>> 25
  let x121 := u32 (x119 &&& 0x1ffffff)
  let x122 := add64 x120 t.v4
  let x123 := x122 >>> 26
  let x124 := u32 (x122 &&& 0x3ffffff)
  let x125 := add64 x123 t.v5
  let x126 := x125 >>> 25
  let x127 := u32 (x125 &&& 0x1ffffff)
  let x128 := add64 x126 t.v6
  let x129 := x128 >>> 26
  let x130 := u32 (x128 &&& 0x3ffffff)
  let x131 := add64 x129 t.v7
  let x132 := x131 >>> 25
  let x133 := u32 (x131 &&& 0x1ffffff)
  let x134 := add64 x132 t.v8
  let x135 := x134 >>> 26
  let x136 := u32 (x134 &&& 0x3ffffff)
  let x137 := add64 x135 t.v9
  let x138 := x137 >>> 25
  let x139 := u32 (x137 &&& 0x1ffffff)
  let x140 := mul64 x138 0x13
  let x141 := add64 x103 x140
  let x142 := u32 (x141 >>> 26)
  let x143 := u32 (x141 &&& 0x3ffffff)
  let x144 := add32 x142 x115
  let x145 := uint1 (x144 >>> 25)
  let x146 := x144 &&& 0x1ffffff
  let x147 := add32 x145 x118
  ⟨x143, x146, x147, x121, x124, x127, x130, x133, x136, x139⟩

/-- The accumulators `x101`, `x112`, ..., `x104` of `fiat_25519_carry_mul`, in limb order. -/
def mul_acc64 (a b : Limbs) : Limbs :=
  ⟨add64 (mul64 a.v0 b.v0) (add64 (mul64 a.v1 (mul32 b.v9 0x26)) (add64 (mul64 a.v2 (mul32 b.v8
      0x13)) (add64 (mul64 a.v3 (mul32 b.v7 0x26)) (add64 (mul64 a.v4 (mul32 b.v6 0x13)) (add64
      (mul64 a.v5 (mul32 b.v5 0x26)) (add64 (mul64 a.v6 (mul32 b.v4 0x13)) (add64 (mul64 a.v7
      (mul32 b.v3 0x26)) (add64 (mul64 a.v8 (mul32 b.v2 0x13)) (mul64 a.v9 (mul32 b.v1
      0x26)))))))))),
   add64 (mul64 a.v0 b.v1) (add64 (mul64 a.v1 b.v0) (add64 (mul64 a.v2 (mul32 b.v9 0x13)) (add64
      (mul64 a.v3 (mul32 b.v8 0x13)) (add64 (mul64 a.v4 (mul32 b.v7 0x13)) (add64 (mul64 a.v5
      (mul32 b.v6 0x13)) (add64 (mul64 a.v6 (mul32 b.v5 0x13)) (add64 (mul64 a.v7 (mul32 b.v4
      0x13)) (add64 (mul64 a.v8 (mul32 b.v3 0x13)) (mul64 a.v9 (mul32 b.v2 0x13)))))))))),
   add64 (mul64 a.v0 b.v2) (add64 (mul64 a.v1 (mul32 b.v1 0x2)) (add64 (mul64 a.v2 b.v0) (add64
      (mul64 a.v3 (mul32 b.v9 0x26)) (add64 (mul64 a.v4 (mul32 b.v8 0x13)) (add64 (mul64 a.v5
      (mul32 b.v7 0x26)) (add64 (mul64 a.v6 (mul32 b.v6 0x13)) (add64 (mul64 a.v7 (mul32 b.v5
      0x26)) (add64 (mul64 a.v8 (mul32 b.v4 0x13)) (mul64 a.v9 (mul32 b.v3 0x26)))))))))),
   add64 (mul64 a.v0 b.v3) (add64 (mul64 a.v1 b.v2) (add64 (mul64 a.v2 b.v1) (add64 (mul64 a.v3
      b.v0) (add64 (mul64 a.v4 (mul32 b.v9 0x13)) (add64 (mul64 a.v5 (mul32 b.v8 0x13)) (add64
      (mul64 a.v6 (mul32 b.v7 0x13)) (add64 (mul64 a.v7 (mul32 b.v6 0x13)) (add64 (mul64 a.v8
      (mul32 b.v5 0x13)) (mul64 a.v9 (mul32 b.v4 0x13)))))))))),
   add64 (mul64 a.v0 b.v4) (add64 (mul64 a.v1 (mul32 b.v3 0x2)) (add64 (mul64 a.v2 b.v2) (add64
      (mul64 a.v3 (mul32 b.v1 0x2)) (add64 (mul64 a.v4 b.v0) (add64 (mul64 a.v5 (mul32 b.v9 0x26))
      (add64 (mul64 a.v6 (mul32 b.v8 0x13)) (add64 (mul64 a.v7 (mul32 b.v7 0x26)) (add64 (mul64
      a.v8 (mul32 b.v6 0x13)) (mul64 a.v9 (mul32 b.v5 0x26)))))))))),
   add64 (mul64 a.v0 b.v5) (add64 (mul64 a.v1 b.v4) (add64 (mul64 a.v2 b.v3) (add64 (mul64 a.v3
      b.v2) (add64 (mul64 a.v4 b.v1) (add64 (mul64 a.v5 b.v0) (add64 (mul64 a.v6 (mul32 b.v9 0x13))
      (add64 (mul64 a.v7 (mul32 b.v8 0x13)) (add64 (mul64 a.v8 (mul32 b.v7 0x13)) (mul64 a.v9
      (mul32 b.v6 0x13)))))))))),
   add64 (mul64 a.v0 b.v6) (add64 (mul64 a.v1 (mul32 b.v5 0x2)) (add64 (mul64 a.v2 b.v4) (add64
      (mul64 a.v3 (mul32 b.v3 0x2)) (add64 (mul64 a.v4 b.v2) (add64 (mul64 a.v5 (mul32 b.v1 0x2))
      (add64 (mul64 a.v6 b.v0) (add64 (mul64 a.v7 (mul32 b.v9 0x26)) (add64 (mul64 a.v8 (mul32 b.v8
      0x13)) (mul64 a.v9 (mul32 b.v7 0x26)))))))))),
   add64 (mul64 a.v0 b.v7) (add64 (mul64 a.v1 b.v6) (add64 (mul64 a.v2 b.v5) (add64 (mul64 a.v3
      b.v4) (add64 (mul64 a.v4 b.v3) (add64 (mul64 a.v5 b.v2) (add64 (mul64 a.v6 b.v1) (add64
      (mul64 a.v7 b.v0) (add64 (mul64 a.v8 (mul32 b.v9 0x13)) (mul64 a.v9 (mul32 b.v8
      0x13)))))))))),
   add64 (mul64 a.v0 b.v8) (add64 (mul64 a.v1 (mul32 b.v7 0x2)) (add64 (mul64 a.v2 b.v6) (add64
      (mul64 a.v3 (mul32 b.v5 0x2)) (add64 (mul64 a.v4 b.v4) (add64 (mul64 a.v5 (mul32 b.v3 0x2))
      (add64 (mul64 a.v6 b.v2) (add64 (mul64 a.v7 (mul32 b.v1 0x2)) (add64 (mul64 a.v8 b.v0) (mul64
      a.v9 (mul32 b.v9 0x26)))))))))),
   add64 (mul64 a.v0 b.v9) (add64 (mul64 a.v1 b.v8) (add64 (mul64 a.v2 b.v7) (add64 (mul64 a.v3
      b.v6) (add64 (mul64 a.v4 b.v5) (add64 (mul64 a.v5 b.v4) (add64 (mul64 a.v6 b.v3) (add64
      (mul64 a.v7 b.v2) (add64 (mul64 a.v8 b.v1) (mul64 a.v9 b.v0)))))))))⟩

/-- The accumulators of `fiat_25519_carry_mul` over unbounded naturals. -/
def mul_acc (a b : Limbs) : Limbs :=
  ⟨a.v0 * b.v0 + (a.v1 * (b.v9 * 0x26) + (a.v2 * (b.v8 * 0x13) + (a.v3 * (b.v7 * 0x26) + (a.v4 *
      (b.v6 * 0x13) + (a.v5 * (b.v5 * 0x26) + (a.v6 * (b.v4 * 0x13) + (a.v7 * (b.v3 * 0x26) + (a.v8
      * (b.v2 * 0x13) + a.v9 * (b.v1 * 0x26))))))))),
   a.v0 * b.v1 + (a.v1 * b.v0 + (a.v2 * (b.v9 * 0x13) + (a.v3 * (b.v8 * 0x13) + (a.v4 * (b.v7 *
      0x13) + (a.v5 * (b.v6 * 0x13) + (a.v6 * (b.v5 * 0x13) + (a.v7 * (b.v4 * 0x13) + (a.v8 * (b.v3
      * 0x13) + a.v9 * (b.v2 * 0x13))))))))),
   a.v0 * b.v2 + (a.v1 * (b.v1 * 0x2) + (a.v2 * b.v0 + (a.v3 * (b.v9 * 0x26) + (a.v4 * (b.v8 *
      0x13) + (a.v5 * (b.v7 * 0x26) + (a.v6 * (b.v6 * 0x13) + (a.v7 * (b.v5 * 0x26) + (a.v8 * (b.v4
      * 0x13) + a.v9 * (b.v3 * 0x26))))))))),
   a.v0 * b.v3 + (a.v1 * b.v2 + (a.v2 * b.v1 + (a.v3 * b.v0 + (a.v4 * (b.v9 * 0x13) + (a.v5 *
      (b.v8 * 0x13) + (a.v6 * (b.v7 * 0x13) + (a.v7 * (b.v6 * 0x13) + (a.v8 * (b.v5 * 0x13) + a.v9
      * (b.v4 * 0x13))))))))),
   a.v0 * b.v4 + (a.v1 * (b.v3 * 0x2) + (a.v2 * b.v2 + (a.v3 * (b.v1 * 0x2) + (a.v4 * b.v0 + (a.v5
      * (b.v9 * 0x26) + (a.v6 * (b.v8 * 0x13) + (a.v7 * (b.v7 * 0x26) + (a.v8 * (b.v6 * 0x13) +
      a.v9 * (b.v5 * 0x26))))))))),
   a.v0 * b.v5 + (a.v1 * b.v4 + (a.v2 * b.v3 + (a.v3 * b.v2 + (a.v4 * b.v1 + (a.v5 * b.v0 + (a.v6
      * (b.v9 * 0x13) + (a.v7 * (b.v8 * 0x13) + (a.v8 * (b.v7 * 0x13) + a.v9 * (b.v6 *
      0x13))))))))),
   a.v0 * b.v6 + (a.v1 * (b.v5 * 0x2) + (a.v2 * b.v4 + (a.v3 * (b.v3 * 0x2) + (a.v4 * b.v2 + (a.v5
      * (b.v1 * 0x2) + (a.v6 * b.v0 + (a.v7 * (b.v9 * 0x26) + (a.v8 * (b.v8 * 0x13) + a.v9 * (b.v7
      * 0x26))))))))),
   a.v0 * b.v7 + (a.v1 * b.v6 + (a.v2 * b.v5 + (a.v3 * b.v4 + (a.v4 * b.v3 + (a.v5 * b.v2 + (a.v6
      * b.v1 + (a.v7 * b.v0 + (a.v8 * (b.v9 * 0x13) + a.v9 * (b.v8 * 0x13))))))))),
   a.v0 * b.v8 + (a.v1 * (b.v7 * 0x2) + (a.v2 * b.v6 + (a.v3 * (b.v5 * 0x2) + (a.v4 * b.v4 + (a.v5
      * (b.v3 * 0x2) + (a.v6 * b.v2 + (a.v7 * (b.v1 * 0x2) + (a.v8 * b.v0 + a.v9 * (b.v9 *
      0x26))))))))),
   a.v0 * b.v9 + (a.v1 * b.v8 + (a.v2 * b.v7 + (a.v3 * b.v6 + (a.v4 * b.v5 + (a.v5 * b.v4 + (a.v6
      * b.v3 + (a.v7 * b.v2 + (a.v8 * b.v1 + a.v9 * b.v0))))))))⟩

/-- The multiple of `2^255` that the pre-multiplications by 19 and 38 fold away in
`fiat_25519_carry_mul`: the cross products of limbs `i`, `j` with `i + j ≥ 10`. -/
def mul_high (a b : Limbs) : Nat :=
  a.v1 * b.v9 * 2 ^ 1 + a.v2 * b.v8 + a.v2 * b.v9 * 2 ^ 26 + a.v3 * b.v7 * 2 ^ 1 +
    a.v3 * b.v8 * 2 ^ 26 + a.v3 * b.v9 * 2 ^ 52 + a.v4 * b.v6 + a.v4 * b.v7 * 2 ^ 26 +
    a.v4 * b.v8 * 2 ^ 51 + a.v4 * b.v9 * 2 ^ 77 + a.v5 * b.v5 * 2 ^ 1 + a.v5 * b.v6 * 2 ^ 26 +
    a.v5 * b.v7 * 2 ^ 52 + a.v5 * b.v8 * 2 ^ 77 + a.v5 * b.v9 * 2 ^ 103 + a.v6 * b.v4 +
    a.v6 * b.v5 * 2 ^ 26 + a.v6 * b.v6 * 2 ^ 51 + a.v6 * b.v7 * 2 ^ 77 + a.v6 * b.v8 * 2 ^ 102 +
    a.v6 * b.v9 * 2 ^ 128 + a.v7 * b.v3 * 2 ^ 1 + a.v7 * b.v4 * 2 ^ 26 + a.v7 * b.v5 * 2 ^ 52 +
    a.v7 * b.v6 * 2 ^ 77 + a.v7 * b.v7 * 2 ^ 103 + a.v7 * b.v8 * 2 ^ 128 + a.v7 * b.v9 * 2 ^ 154 +
    a.v8 * b.v2 + a.v8 * b.v3 * 2 ^ 26 + a.v8 * b.v4 * 2 ^ 51 + a.v8 * b.v5 * 2 ^ 77 +
    a.v8 * b.v6 * 2 ^ 102 + a.v8 * b.v7 * 2 ^ 128 + a.v8 * b.v8 * 2 ^ 153 + a.v8 * b.v9 * 2 ^ 179 +
    a.v9 * b.v1 * 2 ^ 1 + a.v9 * b.v2 * 2 ^ 26 + a.v9 * b.v3 * 2 ^ 52 + a.v9 * b.v4 * 2 ^ 77 +
    a.v9 * b.v5 * 2 ^ 103 + a.v9 * b.v6 * 2 ^ 128 + a.v9 * b.v7 * 2 ^ 154 + a.v9 * b.v8 * 2 ^ 179 +
    a.v9 * b.v9 * 2 ^ 205

/-- The accumulators `x74`, `x85`, ..., `x77` of `fiat_25519_carry_square`, in limb order. -/
def square_acc64 (a : Limbs) : Limbs :=
  ⟨add64 (mul64 a.v0 a.v0) (add64 (mul64 a.v1 (mul64 (mul32 (mul32 a.v9 0x13) 0x2) 0x2)) (add64
      (mul64 a.v2 (mul64 (mul32 a.v8 0x13) 0x2)) (add64 (mul64 a.v3 (mul64 (mul32 (mul32 a.v7 0x13)
      0x2) 0x2)) (add64 (mul64 a.v4 (mul64 (mul32 a.v6 0x13) 0x2)) (mul64 a.v5 (mul32 (mul32 a.v5
      0x13) 0x2)))))),
   add64 (mul64 a.v0 (mul32 a.v1 0x2)) (add64 (mul64 a.v2 (mul32 (mul32 a.v9 0x13) 0x2)) (add64
      (mul64 a.v3 (mul64 (mul32 a.v8 0x13) 0x2)) (add64 (mul64 a.v4 (mul32 (mul32 a.v7 0x13) 0x2))
      (mul64 a.v5 (mul64 (mul32 a.v6 0x13) 0x2))))),
   add64 (mul64 a.v0 (mul32 a.v2 0x2)) (add64 (mul64 a.v1 (mul32 a.v1 0x2)) (add64 (mul64 a.v3
      (mul64 (mul32 (mul32 a.v9 0x13) 0x2) 0x2)) (add64 (mul64 a.v4 (mul64 (mul32 a.v8 0x13) 0x2))
      (add64 (mul64 a.v5 (mul64 (mul32 (mul32 a.v7 0x13) 0x2) 0x2)) (mul64 a.v6 (mul32 a.v6
      0x13)))))),
   add64 (mul64 a.v0 (mul32 a.v3 0x2)) (add64 (mul64 a.v1 (mul32 a.v2 0x2)) (add64 (mul64 a.v4
      (mul32 (mul32 a.v9 0x13) 0x2)) (add64 (mul64 a.v5 (mul64 (mul32 a.v8 0x13) 0x2)) (mul64 a.v6
      (mul32 (mul32 a.v7 0x13) 0x2))))),
   add64 (mul64 a.v0 (mul32 a.v4 0x2)) (add64 (mul64 a.v1 (mul32 (mul32 a.v3 0x2) 0x2)) (add64
      (mul64 a.v2 a.v2) (add64 (mul64 a.v5 (mul64 (mul32 (mul32 a.v9 0x13) 0x2) 0x2)) (add64 (mul64
      a.v6 (mul64 (mul32 a.v8 0x13) 0x2)) (mul64 a.v7 (mul32 (mul32 a.v7 0x13) 0x2)))))),
   add64 (mul64 a.v0 (mul32 a.v5 0x2)) (add64 (mul64 a.v1 (mul32 a.v4 0x2)) (add64 (mul64 a.v2
      (mul32 a.v3 0x2)) (add64 (mul64 a.v6 (mul32 (mul32 a.v9 0x13) 0x2)) (mul64 a.v7 (mul64 (mul32
      a.v8 0x13) 0x2))))),
   add64 (mul64 a.v0 (mul32 a.v6 0x2)) (add64 (mul64 a.v1 (mul32 (mul32 a.v5 0x2) 0x2)) (add64
      (mul64 a.v2 (mul32 a.v4 0x2)) (add64 (mul64 a.v3 (mul32 a.v3 0x2)) (add64 (mul64 a.v7 (mul64
      (mul32 (mul32 a.v9 0x13) 0x2) 0x2)) (mul64 a.v8 (mul32 a.v8 0x13)))))),
   add64 (mul64 a.v0 (mul32 a.v7 0x2)) (add64 (mul64 a.v1 (mul32 a.v6 0x2)) (add64 (mul64 a.v2
      (mul32 a.v5 0x2)) (add64 (mul64 a.v3 (mul32 a.v4 0x2)) (mul64 a.v8 (mul32 (mul32 a.v9 0x13)
      0x2))))),
   add64 (mul64 a.v0 (mul32 a.v8 0x2)) (add64 (mul64 a.v1 (mul32 (mul32 a.v7 0x2) 0x2)) (add64
      (mul64 a.v2 (mul32 a.v6 0x2)) (add64 (mul64 a.v3 (mul32 (mul32 a.v5 0x2) 0x2)) (add64 (mul64
      a.v4 a.v4) (mul64 a.v9 (mul32 (mul32 a.v9 0x13) 0x2)))))),
   add64 (mul64 a.v0 (mul32 a.v9 0x2)) (add64 (mul64 a.v1 (mul32 a.v8 0x2)) (add64 (mul64 a.v2
      (mul32 a.v7 0x2)) (add64 (mul64 a.v3 (mul32 a.v6 0x2)) (mul64 a.v4 (mul32 a.v5 0x2)))))⟩

/-- The accumulators of `fiat_25519_carry_square` over unbounded naturals. -/
def square_acc (a : Limbs) : Limbs :=
  ⟨a.v0 * a.v0 + (a.v1 * (((a.v9 * 0x13) * 0x2) * 0x2) + (a.v2 * ((a.v8 * 0x13) * 0x2) + (a.v3 *
      (((a.v7 * 0x13) * 0x2) * 0x2) + (a.v4 * ((a.v6 * 0x13) * 0x2) + a.v5 * ((a.v5 * 0x13) *
      0x2))))),
   a.v0 * (a.v1 * 0x2) + (a.v2 * ((a.v9 * 0x13) * 0x2) + (a.v3 * ((a.v8 * 0x13) * 0x2) + (a.v4 *
      ((a.v7 * 0x13) * 0x2) + a.v5 * ((a.v6 * 0x13) * 0x2)))),
   a.v0 * (a.v2 * 0x2) + (a.v1 * (a.v1 * 0x2) + (a.v3 * (((a.v9 * 0x13) * 0x2) * 0x2) + (a.v4 *
      ((a.v8 * 0x13) * 0x2) + (a.v5 * (((a.v7 * 0x13) * 0x2) * 0x2) + a.v6 * (a.v6 * 0x13))))),
   a.v0 * (a.v3 * 0x2) + (a.v1 * (a.v2 * 0x2) + (a.v4 * ((a.v9 * 0x13) * 0x2) + (a.v5 * ((a.v8 *
      0x13) * 0x2) + a.v6 * ((a.v7 * 0x13) * 0x2)))),
   a.v0 * (a.v4 * 0x2) + (a.v1 * ((a.v3 * 0x2) * 0x2) + (a.v2 * a.v2 + (a.v5 * (((a.v9 * 0x13) *
      0x2) * 0x2) + (a.v6 * ((a.v8 * 0x13) * 0x2) + a.v7 * ((a.v7 * 0x13) * 0x2))))),
   a.v0 * (a.v5 * 0x2) + (a.v1 * (a.v4 * 0x2) + (a.v2 * (a.v3 * 0x2) + (a.v6 * ((a.v9 * 0x13) *
      0x2) + a.v7 * ((a.v8 * 0x13) * 0x2)))),
   a.v0 * (a.v6 * 0x2) + (a.v1 * ((a.v5 * 0x2) * 0x2) + (a.v2 * (a.v4 * 0x2) + (a.v3 * (a.v3 *
      0x2) + (a.v7 * (((a.v9 * 0x13) * 0x2) * 0x2) + a.v8 * (a.v8 * 0x13))))),
   a.v0 * (a.v7 * 0x2) + (a.v1 * (a.v6 * 0x2) + (a.v2 * (a.v5 * 0x2) + (a.v3 * (a.v4 * 0x2) + a.v8
      * ((a.v9 * 0x13) * 0x2)))),
   a.v0 * (a.v8 * 0x2) + (a.v1 * ((a.v7 * 0x2) * 0x2) + (a.v2 * (a.v6 * 0x2) + (a.v3 * ((a.v5 *
      0x2) * 0x2) + (a.v4 * a.v4 + a.v9 * ((a.v9 * 0x13) * 0x2))))),
   a.v0 * (a.v9 * 0x2) + (a.v1 * (a.v8 * 0x2) + (a.v2 * (a.v7 * 0x2) + (a.v3 * (a.v6 * 0x2) + a.v4
      * (a.v5 * 0x2))))⟩

/-- The first half of `fiat_25519_to_bytes` (statements `x1` to `x41`): subtract `p` with
borrow and add it back under the mask made from the final borrow. -/
def to_bytes_canon (arg1 : Limbs) : Limbs :=
  let r1 := fiat_25519_subborrowx_u26 0x0 arg1.v0 0x3ffffed
  let x1 := r1.1
  let x2 := r1.2
  let r3 := fiat_25519_subborrowx_u25 x2 arg1.v1 0x1ffffff
  let x3 := r3.1
  let x4 := r3.2
  let r5 := fiat_25519_subborrowx_u26 x4 arg1.v2 0x3ffffff
  let x5 := r5.1
  let x6 := r5.2
  let r7 := fiat_25519_subborrowx_u25 x6 arg1.v3 0x1ffffff
  let x7 := r7.1
  let x8 := r7.2
  let r9 := fiat_25519_subborrowx_u26 x8 arg1.v4 0x3ffffff
  let x9 := r9.1
  let x10 := r9.2
  let r11 := fiat_25519_subborrowx_u25 x10 arg1.v5 0x1ffffff
  let x11 := r11.1
  let x12 := r11.2
  let r13 := fiat_25519_subborrowx_u26 x12 arg1.v6 0x3ffffff
  let x13 := r13.1
  let x14 := r13.2
  let r15 := fiat_25519_subborrowx_u25 x14 arg1.v7 0x1ffffff
  let x15 := r15.1
  let x16 := r15.2
  let r17 := fiat_25519_subborrowx_u26 x16 arg1.v8 0x3ffffff
  let x17 := r17.1
  let x18 := r17.2
  let r19 := fiat_25519_subborrowx_u25 x18 arg1.v9 0x1ffffff
  let x19 := r19.1
  let x20 := r19.2
  let x21 := fiat_25519_cmovznz_u32 x20 0x0 0xffffffff
  let r22 := fiat_25519_addcarryx_u26 0x0 x1 (x21 &&& 0x3ffffed)
  let x22 := r22.1
  let x23 := r22.2
  let r24 := fiat_25519_addcarryx_u25 x23 x3 (x21 &&& 0x1ffffff)
  let x24 := r24.1
  let x25 := r24.2
  let r26 := fiat_25519_addcarryx_u26 x25 x5 (x21 &&& 0x3ffffff)
  let x26 := r26.1
  let x27 := r26.2
  let r28 := fiat_25519_addcarryx_u25 x27 x7 (x21 &&& 0x1ffffff)
  let x28 := r28.1
  let x29 := r28.2
  let r30 := fiat_25519_addcarryx_u26 x29 x9 (x21 &&& 0x3ffffff)
  let x30 := r30.1
  let x31 := r30.2
  let r32 := fiat_25519_addcarryx_u25 x31 x11 (x21 &&& 0x1ffffff)
  let x32 := r32.1
  let x33 := r32.2
  let r34 := fiat_25519_addcarryx_u26 x33 x13 (x21 &&& 0x3ffffff)
  let x34 := r34.1
  let x35 := r34.2
  let r36 := fiat_25519_addcarryx_u25 x35 x15 (x21 &&& 0x1ffffff)
  let x36 := r36.1
  let x37 := r36.2
  let r38 := fiat_25519_addcarryx_u26 x37 x17 (x21 &&& 0x3ffffff)
  let x38 := r38.1
  let x39 := r38.2
  let r40 := fiat_25519_addcarryx_u25 x39 x19 (x21 &&& 0x1ffffff)
  let x40 := r40.1
  let x41 := r40.2
  ⟨x22, x24, x26, x28, x30, x32, x34, x36, x38, x40⟩

/-- The second half of `fiat_25519_to_bytes` (statements `x42` to `x117`) on the limbs `t`
left by the first half: repack ten limbs into 32 bytes. -/
def to_bytes_pack (t : Limbs) : Bytes32 :=
  let x42 := shl32 t.v9 6
  let x43 := shl32 t.v8 4
  let x44 := shl32 t.v7 3
  let x45 := mul32 t.v6 0x2
  let x46 := shl32 t.v4 6
  let x47 := shl32 t.v3 5
  let x48 := shl32 t.v2 3
  let x49 := shl32 t.v1 2
  let x50 := u8 (t.v0 &&& 0xff)
  let x51 := t.v0 >>> 8
  let x52 := u8 (x51 &&& 0xff)
  let x53 := x51 >>> 8
  let x54 := u8 (x53 &&& 0xff)
  let x55 := u8 (x53 >>> 8)
  let x56 := add32 x49 x55
  let x57 := u8 (x56 &&& 0xff)
  let x58 := x56 >>> 8
  let x59 := u8 (x58 &&& 0xff)
  let x60 := x58 >>> 8
  let x61 := u8 (x60 &&& 0xff)
  let x62 := u8 (x60 >>> 8)
  let x63 := add32 x48 x62
  let x64 := u8 (x63 &&& 0xff)
  let x65 := x63 >>> 8
  let x66 := u8 (x65 &&& 0xff)
  let x67 := x65 >>> 8
  let x68 := u8 (x67 &&& 0xff)
  let x69 := u8 (x67 >>> 8)
  let x70 := add32 x47 x69
  let x71 := u8 (x70 &&& 0xff)
  let x72 := x70 >>> 8
  let x73 := u8 (x72 &&& 0xff)
  let x74 := x72 >>> 8
  let x75 := u8 (x74 &&& 0xff)
  let x76 := u8 (x74 >>> 8)
  let x77 := add32 x46 x76
  let x78 := u8 (x77 &&& 0xff)
  let x79 := x77 >>> 8
  let x80 := u8 (x79 &&& 0xff)
  let x81 := x79 >>> 8
  let x82 := u8 (x81 &&& 0xff)
  let x83 := u8 (x81 >>> 8)
  let x84 := u8 (t.v5 &&& 0xff)
  let x85 := t.v5 >>> 8
  let x86 := u8 (x85 &&& 0xff)
  let x87 := x85 >>> 8
  let x88 := u8 (x87 &&& 0xff)
  let x89 := uint1 (x87 >>> 8)
  let x90 := add32 x45 x89
  let x91 := u8 (x90 &&& 0xff)
  let x92 := x90 >>> 8
  let x93 := u8 (x92 &&& 0xff)
  let x94 := x92 >>> 8
  let x95 := u8 (x94 &&& 0xff)
  let x96 := u8 (x94 >>> 8)
  let x97 := add32 x44 x96
  let x98 := u8 (x97 &&& 0xff)
  let x99 := x97 >>> 8
  let x100 := u8 (x99 &&& 0xff)
  let x101 := x99 >>> 8
  let x102 := u8 (x101 &&& 0xff)
  let x103 := u8 (x101 >>> 8)
  let x104 := add32 x43 x103
  let x105 := u8 (x104 &&& 0xff)
  let x106 := x104 >>> 8
  let x107 := u8 (x106 &&& 0xff)
  let x108 := x106 >>> 8
  let x109 := u8 (x108 &&& 0xff)
  let x110 := u8 (x108 >>> 8)
  let x111 := add32 x42 x110
  let x112 := u8 (x111 &&& 0xff)
  let x113 := x111 >>> 8
  let x114 := u8 (x113 &&& 0xff)
  let x115 := x113 >>> 8
  let x116 := u8 (x115 &&& 0xff)
  let x117 := u8 (x115 >>> 8)
  ⟨x50, x52, x54, x57, x59, x61, x64, x66, x68, x71, x73, x75, x78, x80, x82, x83, x84, x86, x88,
    x91, x93, x95, x98, x100, x102, x105, x107, x109, x112, x114, x116, x117⟩

/-- Proper digits: even limbs below `2^26`, odd limbs below `2^25`. -/
def Digits (x : Limbs) : Prop :=
  x.v0 < 2 ^ 26 ∧ x.v1 < 2 ^ 25 ∧ x.v2 < 2 ^ 26 ∧ x.v3 < 2 ^ 25 ∧ x.v4 < 2 ^ 26 ∧
  x.v5 < 2 ^ 25 ∧ x.v6 < 2 ^ 26 ∧ x.v7 < 2 ^ 25 ∧ x.v8 < 2 ^ 26 ∧ x.v9 < 2 ^ 25

/-- The packing half of `to_bytes` with every wrap removed. -/
def pack_ideal (t : Limbs) : Bytes32 :=
  let w1 := t.v1 * 2 ^ 2 + t.v0 / 2 ^ 8 / 2 ^ 8 / 2 ^ 8
  let w2 := t.v2 * 2 ^ 3 + w1 / 2 ^ 8 / 2 ^ 8 / 2 ^ 8
  let w3 := t.v3 * 2 ^ 5 + w2 / 2 ^ 8 / 2 ^ 8 / 2 ^ 8
  let w4 := t.v4 * 2 ^ 6 + w3 / 2 ^ 8 / 2 ^ 8 / 2 ^ 8
  let w6 := t.v6 * 2 + t.v5 / 2 ^ 8 / 2 ^ 8 / 2 ^ 8
  let w7 := t.v7 * 2 ^ 3 + w6 / 2 ^ 8 / 2 ^ 8 / 2 ^ 8
  let w8 := t.v8 * 2 ^ 4 + w7 / 2 ^ 8 / 2 ^ 8 / 2 ^ 8
  let w9 := t.v9 * 2 ^ 6 + w8 / 2 ^ 8 / 2 ^ 8 / 2 ^ 8
  ⟨t.v0 % 2 ^ 8, t.v0 / 2 ^ 8 % 2 ^ 8, t.v0 / 2 ^ 8 / 2 ^ 8 % 2 ^ 8,
   w1 % 2 ^ 8, w1 / 2 ^ 8 % 2 ^ 8, w1 / 2 ^ 8 / 2 ^ 8 % 2 ^ 8,
   w2 % 2 ^ 8, w2 / 2 ^ 8 % 2 ^ 8, w2 / 2 ^ 8 / 2 ^ 8 % 2 ^ 8,
   w3 % 2 ^ 8, w3 / 2 ^ 8 % 2 ^ 8, w3 / 2 ^ 8 / 2 ^ 8 % 2 ^ 8,
   w4 % 2 ^ 8, w4 / 2 ^ 8 % 2 ^ 8, w4 / 2 ^ 8 / 2 ^ 8 % 2 ^ 8, w4 / 2 ^ 8 / 2 ^ 8 / 2 ^ 8,
   t.v5 % 2 ^ 8, t.v5 / 2 ^ 8 % 2 ^ 8, t.v5 / 2 ^ 8 / 2 ^ 8 % 2 ^ 8,
   w6 % 2 ^ 8, w6 / 2 ^ 8 % 2 ^ 8, w6 / 2 ^ 8 / 2 ^ 8 % 2 ^ 8,
   w7 % 2 ^ 8, w7 / 2 ^ 8 % 2 ^ 8, w7 / 2 ^ 8 / 2 ^ 8 % 2 ^ 8,
   w8 % 2 ^ 8, w8 / 2 ^ 8 % 2 ^ 8, w8 / 2 ^ 8 / 2 ^ 8 % 2 ^ 8,
   w9 % 2 ^ 8, w9 / 2 ^ 8 % 2 ^ 8, w9 / 2 ^ 8 / 2 ^ 8 % 2 ^ 8, w9 / 2 ^ 8 / 2 ^ 8 / 2 ^ 8⟩

/-- The decoder without wrap-around: four carry chains over groups of three or four bytes. -/
def from_bytes_ideal (b : Bytes32) : Limbs :=
  let y0 := b.b3 * 2 ^ 24 + (b.b2 * 2 ^ 16 + (b.b1 * 2 ^ 8 + b.b0))
  let y1 := b.b6 * 2 ^ 22 + (b.b5 * 2 ^ 14 + (b.b4 * 2 ^ 6 + y0 / 2 ^ 26))
  let y2 := b.b9 * 2 ^ 21 + (b.b8 * 2 ^ 13 + (b.b7 * 2 ^ 5 + y1 / 2 ^ 25))
  let y3 := b.b12 * 2 ^ 19 + (b.b11 * 2 ^ 11 + (b.b10 * 2 ^ 3 + y2 / 2 ^ 26))
  let y4 := b.b15 * 2 ^ 18 + (b.b14 * 2 ^ 10 + (b.b13 * 2 ^ 2 + y3 / 2 ^ 25))
  let y5 := b.b19 * 2 ^ 24 + (b.b18 * 2 ^ 16 + (b.b17 * 2 ^ 8 + b.b16))
  let y6 := b.b22 * 2 ^ 23 + (b.b21 * 2 ^ 15 + (b.b20 * 2 ^ 7 + y5 / 2 ^ 25))
  let y7 := b.b25 * 2 ^ 21 + (b.b24 * 2 ^ 13 + (b.b23 * 2 ^ 5 + y6 / 2 ^ 26))
  let y8 := b.b28 * 2 ^ 20 + (b.b27 * 2 ^ 12 + (b.b26 * 2 ^ 4 + y7 / 2 ^ 25))
  let y9 := b.b31 * 2 ^ 18 + (b.b30 * 2 ^ 10 + (b.b29 * 2 ^ 2 + y8 / 2 ^ 26))
  ⟨y0 % 2 ^ 26, y1 % 2 ^ 25, y2 % 2 ^ 26, y3 % 2 ^ 25, y4, y5 % 2 ^ 25, y6 % 2 ^ 26,
    y7 % 2 ^ 25, y8 % 2 ^ 26, y9⟩

/-- The 32 little-endian bytes of a number below `2^256`. -/
def le_bytes (n : Nat) : List Nat := (List.range 32).map (fun j => n / 2 ^ (8 * j) % 256)

/-- The array `b` with bit 7 of byte 31 cleared. -/
def clear_top_bit (b : Bytes32) : Bytes32 := { b with b31 := b.b31 % 128 }

/-- The array of 32 zero bytes. -/
def zero_bytes : Bytes32 :=
  ⟨0, 0, 0, 0, 0, 0, 0, 0, 0, 0, 0, 0, 0, 0, 0, 0, 0, 0, 0, 0, 0, 0, 0, 0, 0, 0, 0, 0, 0, 0, 0, 0⟩

/-- The array whose byte 31 is `0xff` and whose other bytes are zero. -/
def top_byte_ff : Bytes32 :=
  ⟨0, 0, 0, 0, 0, 0, 0, 0, 0, 0, 0, 0, 0, 0, 0, 0, 0, 0, 0, 0, 0, 0, 0, 0, 0, 0, 0, 0, 0, 0, 0,
    0xff⟩

/-- The accumulators `x10`, `x9`, ..., `x1` of `fiat_25519_carry_scmul_121666`, in limb order,
over unbounded naturals. -/
def scmul_acc (a : Limbs) : Limbs :=
  ⟨0x1db42 * a.v0, 0x1db42 * a.v1, 0x1db42 * a.v2, 0x1db42 * a.v3, 0x1db42 * a.v4,
    0x1db42 * a.v5, 0x1db42 * a.v6, 0x1db42 * a.v7, 0x1db42 * a.v8, 0x1db42 * a.v9⟩

/-- The constants that `fiat_25519_sub` and `fiat_25519_opp` add to each limb before they
subtract. -/
def bias : Limbs :=
  ⟨0x7ffffda, 0x3fffffe, 0x7fffffe, 0x3fffffe, 0x7fffffe, 0x3fffffe, 0x7fffffe, 0x3fffffe,
    0x7fffffe, 0x3fffffe⟩

/-- Limb `i` of an array, for `i = 0..9` (and 0 beyond). -/
def Limbs.get (x : Limbs) (i : Nat) : Nat :=
  match i with
  | 0 => x.v0
  | 1 => x.v1
  | 2 => x.v2
  | 3 => x.v3
  | 4 => x.v4
  | 5 => x.v5
  | 6 => x.v6
  | 7 => x.v7
  | 8 => x.v8
  | 9 => x.v9
  | _ => 0

/-- Every limb is at most twice the tight bound of its position: `2^27` at even and `2^26` at
odd indices. -/
def TwiceTight (x : Limbs) : Prop :=
  x.v0 ≤ 2 ^ 27 ∧ x.v1 ≤ 2 ^ 26 ∧ x.v2 ≤ 2 ^ 27 ∧ x.v3 ≤ 2 ^ 26 ∧ x.v4 ≤ 2 ^ 27 ∧
  x.v5 ≤ 2 ^ 26 ∧ x.v6 ≤ 2 ^ 27 ∧ x.v7 ≤ 2 ^ 26 ∧ x.v8 ≤ 2 ^ 27 ∧ x.v9 ≤ 2 ^ 26

instance (x : Limbs) : Decidable (TwiceTight x) := by
  unfold TwiceTight; infer_instance

/-- The tight element whose limbs all sit on their bounds. -/
def tight_max : Limbs :=
  ⟨0x4000000, 0x2000000, 0x4000000, 0x2000000, 0x4000000, 0x2000000, 0x4000000, 0x2000000,
    0x4000000, 0x2000000⟩

/-- The all-zero limb vector. -/
def zero_limbs : Limbs := ⟨0, 0, 0, 0, 0, 0, 0, 0, 0, 0⟩

/-- Every limb is a 32-bit word: the range of the element type `uint32_t`. -/
def Words32 (x : Limbs) : Prop :=
  x.v0 < 2 ^ 32 ∧ x.v1 < 2 ^ 32 ∧ x.v2 < 2 ^ 32 ∧ x.v3 < 2 ^ 32 ∧ x.v4 < 2 ^ 32 ∧
  x.v5 < 2 ^ 32 ∧ x.v6 < 2 ^ 32 ∧ x.v7 < 2 ^ 32 ∧ x.v8 < 2 ^ 32 ∧ x.v9 < 2 ^ 32

instance (x : Limbs) : Decidable (Words32 x) := by
  unfold Words32; infer_instance

/-- The limb vector whose limbs are the radix-`2^25.5` digits of `p`. -/
def p_limbs : Limbs :=
  ⟨0x3ffffed, 0x1ffffff, 0x3ffffff, 0x1ffffff, 0x3ffffff, 0x1ffffff, 0x3ffffff, 0x1ffffff,
    0x3ffffff, 0x1ffffff⟩

/-- The limb vector whose limbs are the radix-`2^25.5` digits of `p - 1`. -/
def p_minus_one_limbs : Limbs :=
  ⟨0x3ffffec, 0x1ffffff, 0x3ffffff, 0x1ffffff, 0x3ffffff, 0x1ffffff, 0x3ffffff, 0x1ffffff,
    0x3ffffff, 0x1ffffff⟩

/-- The limb vector `(1, 0, ..., 0)`. -/
def one_limbs : Limbs := ⟨1, 0, 0, 0, 0, 0, 0, 0, 0, 0⟩

/-- The loose element whose limbs all sit on their bounds. -/
def loose_max : Limbs :=
  ⟨0xc000000, 0x6000000, 0xc000000, 0x6000000, 0xc000000, 0x6000000, 0xc000000, 0x6000000,
    0xc000000, 0x6000000⟩

/-- The limb vector that `fiat_25519_from_bytes` is to return on the integer `n`, following the
description "limbs 0..8 are the radix digits of `n`, limb 9 is `n / 2^230` rounded down":
the top limb is not reduced modulo `2^25`. -/
def digits_unmasked (n : Nat) : Limbs :=
  ⟨n % 2 ^ 26, n / 2 ^ 26 % 2 ^ 25, n / 2 ^ 51 % 2 ^ 26, n / 2 ^ 77 % 2 ^ 25,
    n / 2 ^ 102 % 2 ^ 26, n / 2 ^ 128 % 2 ^ 25, n / 2 ^ 153 % 2 ^ 26, n / 2 ^ 179 % 2 ^ 25,
    n / 2 ^ 204 % 2 ^ 26, n / 2 ^ 230⟩

/-- The loose element on which `fiat_25519_carry` is not idempotent. -/
def carry_twice_input : Limbs :=
  ⟨0x3ffffff, 0x1ffffff, 0x3ffffff, 0, 0, 0, 0, 0, 0, 0x2000000⟩

/-- The 32 bytes of `p - 1`, least significant byte first. -/
def p_minus_one_bytes : Bytes32 :=
  ⟨0xec, 0xff, 0xff, 0xff, 0xff, 0xff, 0xff, 0xff, 0xff, 0xff, 0xff, 0xff, 0xff, 0xff, 0xff,
    0xff, 0xff, 0xff, 0xff, 0xff, 0xff, 0xff, 0xff, 0xff, 0xff, 0xff, 0xff, 0xff, 0xff, 0xff,
    0xff, 0x7f⟩

/-- The array of 32 bytes `0xff`. -/
def all_ff_bytes : Bytes32 :=
  ⟨0xff, 0xff, 0xff, 0xff, 0xff, 0xff, 0xff, 0xff, 0xff, 0xff, 0xff, 0xff, 0xff, 0xff, 0xff,
    0xff, 0xff, 0xff, 0xff, 0xff, 0xff, 0xff, 0xff, 0xff, 0xff, 0xff, 0xff, 0xff, 0xff, 0xff,
    0xff, 0xff⟩

/-! ## Bit operations and wrap-around as arithmetic -/

theorem and_mask26 (x : Nat) : x &&& 0x3ffffff = x % 2 ^ 26 :=
  Nat.and_pow_two_sub_one_eq_mod x 26

theorem and_mask25 (x : Nat) : x &&& 0x1ffffff = x % 2 ^ 25 :=
  Nat.and_pow_two_sub_one_eq_mod x 25

theorem and_mask8 (x : Nat) : x &&& 0xff = x % 2 ^ 8 :=
  Nat.and_pow_two_sub_one_eq_mod x 8

theorem and_mask32 (x : Nat) : x &&& 0xffffffff = x % 2 ^ 32 :=
  Nat.and_pow_two_sub_one_eq_mod x 32

theorem lt_of_bound {e B N : Nat} (h : e ≤ B) (hB : B < N) : e < N :=
  Nat.lt_of_le_of_lt h hB

theorem mod_le_pred (a k : Nat) (hk : 0 < k) : a % k ≤ k - 1 :=
  Nat.le_pred_of_lt (Nat.mod_lt a hk)

theorem add32_eq {a b : Nat} (h : a + b < 2 ^ 32) : add32 a b = a + b := Nat.mod_eq_of_lt h

theorem mul32_eq {a b : Nat} (h : a * b < 2 ^ 32) : mul32 a b = a * b := Nat.mod_eq_of_lt h

theorem add64_eq {a b : Nat} (h : a + b < 2 ^ 64) : add64 a b = a + b := Nat.mod_eq_of_lt h

theorem mul64_eq {a b : Nat} (h : a * b < 2 ^ 64) : mul64 a b = a * b := Nat.mod_eq_of_lt h

theorem u32_eq {a : Nat} (h : a < 2 ^ 32) : u32 a = a := Nat.mod_eq_of_lt h

theorem u8_eq {a : Nat} (h : a < 2 ^ 8) : u8 a = a := Nat.mod_eq_of_lt h

theorem uint1_eq {a : Nat} (h : a < 2 ^ 8) : uint1 a = a := Nat.mod_eq_of_lt h

theorem p_val :
    p = 57896044618658097711785492504343953926634992332820282019728792003956564819949 := by
  norm_num [p]

theorem mod_p_of_add_mul {x y k : Nat} (h : x + p * k = y) : x % p = y % p := by
  rw [← h, Nat.add_mul_mod_self_left]

/-! ## The carry chain -/

/-- The chain on quotients and remainders named one by one: the value is preserved up to the
multiple `c9` of `2^255 - 19`, the outputs are tight and the last carry `d1` is a bit. -/
theorem chain_core (t0 t1 t2 t3 t4 t5 t6 t7 t8 t9 s1 s2 s3 s4 s5 s6 s7 s8 s9 f0 f1 : Nat)
    (c0 c1 c2 c3 c4 c5 c6 c7 c8 c9 d0 d1 r0 r1 r2 r3 r4 r5 r6 r7 r8 r9 o0 o1 : Nat)
    (e0 : 2 ^ 26 * c0 + r0 = t0) (e1 : 2 ^ 25 * c1 + r1 = s1) (e2 : 2 ^ 26 * c2 + r2 = s2)
    (e3 : 2 ^ 25 * c3 + r3 = s3) (e4 : 2 ^ 26 * c4 + r4 = s4) (e5 : 2 ^ 25 * c5 + r5 = s5)
    (e6 : 2 ^ 26 * c6 + r6 = s6) (e7 : 2 ^ 25 * c7 + r7 = s7) (e8 : 2 ^ 26 * c8 + r8 = s8)
    (e9 : 2 ^ 25 * c9 + r9 = s9) (g0 : 2 ^ 26 * d0 + o0 = f0) (g1 : 2 ^ 25 * d1 + o1 = f1)
    (hs1 : s1 = c0 + t1) (hs2 : s2 = c1 + t2) (hs3 : s3 = c2 + t3) (hs4 : s4 = c3 + t4)
    (hs5 : s5 = c4 + t5) (hs6 : s6 = c5 + t6) (hs7 : s7 = c6 + t7) (hs8 : s8 = c7 + t8)
    (hs9 : s9 = c8 + t9) (hf0 : f0 = r0 + c9 * 19) (hf1 : f1 = d0 + r1) :
    (o0 + o1 * 2 ^ 26 + (d1 + r2) * 2 ^ 51 + r3 * 2 ^ 77 + r4 * 2 ^ 102 + r5 * 2 ^ 128 +
      r6 * 2 ^ 153 + r7 * 2 ^ 179 + r8 * 2 ^ 204 + r9 * 2 ^ 230) + (2 ^ 255 - 19) * c9 =
    t0 + t1 * 2 ^ 26 + t2 * 2 ^ 51 + t3 * 2 ^ 77 + t4 * 2 ^ 102 + t5 * 2 ^ 128 +
      t6 * 2 ^ 153 + t7 * 2 ^ 179 + t8 * 2 ^ 204 + t9 * 2 ^ 230 := by
  have hp : (2 ^ 255 - 19 : Nat) =
      57896044618658097711785492504343953926634992332820282019728792003956564819949 := by
    norm_num
  rw [hp]
  zify at *
  linear_combination e0 + 2 ^ 26 * e1 + 2 ^ 51 * e2 + 2 ^ 77 * e3 + 2 ^ 102 * e4 + 2 ^ 128 * e5
    + 2 ^ 153 * e6 + 2 ^ 179 * e7 + 2 ^ 204 * e8 + 2 ^ 230 * e9 + g0 + 2 ^ 26 * g1 + 2 ^ 26 * hs1
    + 2 ^ 51 * hs2 + 2 ^ 77 * hs3 + 2 ^ 102 * hs4 + 2 ^ 128 * hs5 + 2 ^ 153 * hs6 + 2 ^ 179 * hs7
    + 2 ^ 204 * hs8 + 2 ^ 230 * hs9 + hf0 + 2 ^ 26 * hf1

theorem chain_core_bit (t0 t1 t2 t3 t4 t5 t6 t7 t8 t9 s1 s2 s3 s4 s5 s6 s7 s8 s9 f0 f1 : Nat)
    (c0 c1 c2 c3 c4 c5 c6 c7 c8 c9 d0 d1 r0 r1 o0 o1 : Nat)
    (e0 : 2 ^ 26 * c0 + r0 = t0) (e1 : 2 ^ 25 * c1 + r1 = s1) (e2 : 2 ^ 26 * c2 ≤ s2)
    (e3 : 2 ^ 25 * c3 ≤ s3) (e4 : 2 ^ 26 * c4 ≤ s4) (e5 : 2 ^ 25 * c5 ≤ s5)
    (e6 : 2 ^ 26 * c6 ≤ s6) (e7 : 2 ^ 25 * c7 ≤ s7) (e8 : 2 ^ 26 * c8 ≤ s8)
    (e9 : 2 ^ 25 * c9 ≤ s9) (g0 : 2 ^ 26 * d0 + o0 = f0) (g1 : 2 ^ 25 * d1 + o1 = f1)
    (hs1 : s1 = c0 + t1) (hs2 : s2 = c1 + t2) (hs3 : s3 = c2 + t3) (hs4 : s4 = c3 + t4)
    (hs5 : s5 = c4 + t5) (hs6 : s6 = c5 + t6) (hs7 : s7 = c6 + t7) (hs8 : s8 = c7 + t8)
    (hs9 : s9 = c8 + t9) (hf0 : f0 = r0 + c9 * 19) (hf1 : f1 = d0 + r1)
    (b0 : r0 < 2 ^ 26) (b1 : r1 < 2 ^ 25)
    (h0 : t0 ≤ 2 ^ 63) (h1 : t1 ≤ 2 ^ 63) (h2 : t2 ≤ 2 ^ 63) (h3 : t3 ≤ 2 ^ 63)
    (h4 : t4 ≤ 2 ^ 63) (h5 : t5 ≤ 2 ^ 63) (h6 : t6 ≤ 2 ^ 63) (h7 : t7 ≤ 2 ^ 63)
    (h8 : t8 ≤ 2 ^ 63) (h9 : t9 ≤ 2 ^ 63) :
    d1 ≤ 1 := by
  omega

/-- The chain subtracts `chain_top t` times `p` from the value of its argument. -/
theorem chain_eval (t : Limbs) : eval (chain t) + p * chain_top t = eval t := by
  simp only [chain, chain_top, eval, p]
  exact chain_core _ _ _ _ _ _ _ _ _ _ _ _ _ _ _ _ _ _ _ _ _ _ _ _ _ _ _ _ _ _ _ _ _ _ _ _ _ _ _ _
    _ _ _ _ _
    (Nat.div_add_mod _ _) (Nat.div_add_mod _ _) (Nat.div_add_mod _ _) (Nat.div_add_mod _ _)
    (Nat.div_add_mod _ _) (Nat.div_add_mod _ _) (Nat.div_add_mod _ _) (Nat.div_add_mod _ _)
    (Nat.div_add_mod _ _) (Nat.div_add_mod _ _) (Nat.div_add_mod _ _) (Nat.div_add_mod _ _)
    rfl rfl rfl rfl rfl rfl rfl rfl rfl rfl rfl

/-- The chain emits tight limbs. -/
theorem chain_tight (t : Limbs) (h : Acc63 t) : Tight (chain t) := by
  obtain ⟨h0, h1, h2, h3, h4, h5, h6, h7, h8, h9⟩ := h
  have hbit := chain_core_bit t.v0 t.v1 t.v2 t.v3 t.v4 t.v5 t.v6 t.v7 t.v8 t.v9
    _ _ _ _ _ _ _ _ _ _ _ _ _ _ _ _ _ _ _ _ _ _ _ _ _ _ _
    (Nat.div_add_mod _ _) (Nat.div_add_mod _ _) (Nat.mul_div_le _ _) (Nat.mul_div_le _ _)
    (Nat.mul_div_le _ _) (Nat.mul_div_le _ _) (Nat.mul_div_le _ _) (Nat.mul_div_le _ _)
    (Nat.mul_div_le _ _) (Nat.mul_div_le _ _) (Nat.div_add_mod _ _) (Nat.div_add_mod _ _)
    rfl rfl rfl rfl rfl rfl rfl rfl rfl
    (rfl : t.v0 % 2 ^ 26 + ((((((((((t.v0 / 2 ^ 26 + t.v1) / 2 ^ 25 + t.v2) / 2 ^ 26 + t.v3) /
      2 ^ 25 + t.v4) / 2 ^ 26 + t.v5) / 2 ^ 25 + t.v6) / 2 ^ 26 + t.v7) / 2 ^ 25 + t.v8) /
      2 ^ 26 + t.v9) / 2 ^ 25) * 19 = _)
    rfl (Nat.mod_lt _ (by decide)) (Nat.mod_lt _ (by decide)) h0 h1 h2 h3 h4 h5 h6 h7 h8 h9
  simp only [chain, Tight]
  have m26 : ∀ x : Nat, x % 2 ^ 26 < 2 ^ 26 := fun x => Nat.mod_lt _ (by decide)
  have m25 : ∀ x : Nat, x % 2 ^ 25 < 2 ^ 25 := fun x => Nat.mod_lt _ (by decide)
  refine ⟨Nat.le_of_lt (m26 _), Nat.le_of_lt (m25 _), ?_, Nat.le_of_lt (m25 _),
    Nat.le_of_lt (m26 _), Nat.le_of_lt (m25 _), Nat.le_of_lt (m26 _), Nat.le_of_lt (m25 _),
    Nat.le_of_lt (m26 _), Nat.le_of_lt (m25 _)⟩
  have := m26 ((t.v0 / 2 ^ 26 + t.v1) / 2 ^ 25 + t.v2)
  omega

/-- Under the loose bounds no operation of `fiat_25519_carry` wraps. -/
theorem carry_eq_chain (x : Limbs) (h : Loose x) : fiat_25519_carry x = chain x := by
  obtain ⟨h0, h1, h2, h3, h4, h5, h6, h7, h8, h9⟩ := h
  simp (disch := (apply lt_of_bound
                  case h =>
                    repeat (first
                      | with_reducible assumption
                      | with_reducible apply Nat.add_le_add
                      | with_reducible apply Nat.mul_le_mul
                      | with_reducible apply Nat.div_le_div_right
                      | with_reducible apply mod_le_pred _ _ (by decide)
                      | exact Nat.le_refl _)
                  case hB => decide))
    only [fiat_25519_carry, chain, add32_eq, mul32_eq, uint1_eq,
      Nat.shiftRight_eq_div_pow, and_mask26, and_mask25]

theorem acc63_of_loose (x : Limbs) (h : Loose x) : Acc63 x := by
  simp only [Loose, Acc63] at *
  omega

set_option maxRecDepth 100000 in
/-- With accumulators of at most `2^63` no operation of the 64-bit chain wraps. -/
theorem chain64_eq (t : Limbs) (h : Acc63 t) : chain64 t = chain t := by
  obtain ⟨h0, h1, h2, h3, h4, h5, h6, h7, h8, h9⟩ := h
  simp (disch := (apply lt_of_bound
                  case h =>
                    repeat (first
                      | with_reducible assumption
                      | with_reducible apply Nat.add_le_add
                      | with_reducible apply Nat.mul_le_mul
                      | with_reducible apply Nat.div_le_div_right
                      | with_reducible apply mod_le_pred _ _ (by decide)
                      | exact Nat.le_refl _)
                  case hB => decide))
    only [chain64, chain, add32_eq, add64_eq, mul64_eq, u32_eq,
      uint1_eq, Nat.shiftRight_eq_div_pow, and_mask26, and_mask25]

/-! ## Multiplication and squaring -/

theorem carry_mul_unfold (a b : Limbs) :
    fiat_25519_carry_mul a b = chain64 (mul_acc64 a b) := rfl

theorem carry_square_unfold (a : Limbs) :
    fiat_25519_carry_square a = chain64 (square_acc64 a) := rfl

set_option maxRecDepth 100000 in
/-- Under the loose bounds no product or sum of the accumulators of `carry_mul` wraps. -/
theorem mul_acc64_eq (a b : Limbs) (ha : Loose a) (hb : Loose b) :
    mul_acc64 a b = mul_acc a b := by
  obtain ⟨h0, h1, h2, h3, h4, h5, h6, h7, h8, h9⟩ := ha
  obtain ⟨g0, g1, g2, g3, g4, g5, g6, g7, g8, g9⟩ := hb
  simp (disch := (apply lt_of_bound
                  case h =>
                    repeat (first
                      | with_reducible assumption
                      | with_reducible apply Nat.add_le_add
                      | with_reducible apply Nat.mul_le_mul
                      | with_reducible apply Nat.div_le_div_right
                      | with_reducible apply mod_le_pred _ _ (by decide)
                      | exact Nat.le_refl _)
                  case hB => decide))
    only [mul_acc64, mul_acc, add64_eq, mul64_eq, mul32_eq]

set_option maxRecDepth 100000 in
/-- Under the loose bounds no product or sum of the accumulators of `carry_square` wraps. -/
theorem square_acc64_eq (a : Limbs) (ha : Loose a) :
    square_acc64 a = square_acc a := by
  obtain ⟨h0, h1, h2, h3, h4, h5, h6, h7, h8, h9⟩ := ha
  simp (disch := (apply lt_of_bound
                  case h =>
                    repeat (first
                      | with_reducible assumption
                      | with_reducible apply Nat.add_le_add
                      | with_reducible apply Nat.mul_le_mul
                      | with_reducible apply Nat.div_le_div_right
                      | with_reducible apply mod_le_pred _ _ (by decide)
                      | exact Nat.le_refl _)
                  case hB => decide))
    only [square_acc64, square_acc, add64_eq, mul64_eq, mul32_eq]

set_option maxRecDepth 100000 in
theorem mul_acc_bound (a b : Limbs) (ha : Loose a) (hb : Loose b) : Acc63 (mul_acc a b) := by
  obtain ⟨h0, h1, h2, h3, h4, h5, h6, h7, h8, h9⟩ := ha
  obtain ⟨g0, g1, g2, g3, g4, g5, g6, g7, g8, g9⟩ := hb
  simp only [Acc63, mul_acc]
  refine ⟨?_, ?_, ?_, ?_, ?_, ?_, ?_, ?_, ?_, ?_⟩ <;>
  · apply Nat.le_of_lt_succ
    apply lt_of_bound
    case h =>
      repeat (first
        | with_reducible assumption
        | with_reducible apply Nat.add_le_add
        | with_reducible apply Nat.mul_le_mul
        | exact Nat.le_refl _)
    case hB => decide

set_option maxRecDepth 100000 in
theorem square_acc_bound (a : Limbs) (ha : Loose a) : Acc63 (square_acc a) := by
  obtain ⟨h0, h1, h2, h3, h4, h5, h6, h7, h8, h9⟩ := ha
  simp only [Acc63, square_acc]
  refine ⟨?_, ?_, ?_, ?_, ?_, ?_, ?_, ?_, ?_, ?_⟩ <;>
  · apply Nat.le_of_lt_succ
    apply lt_of_bound
    case h =>
      repeat (first
        | with_reducible assumption
        | with_reducible apply Nat.add_le_add
        | with_reducible apply Nat.mul_le_mul
        | exact Nat.le_refl _)
    case hB => decide

/-- The accumulators of `carry_mul` hold the product, less `p` times the folded high part. -/
theorem mul_acc_eval (a b : Limbs) :
    eval (mul_acc a b) + p * mul_high a b = eval a * eval b := by
  simp only [eval, mul_acc, mul_high, p_val]
  ring

/-- The accumulators of `carry_square` hold the square, less `p` times the folded high part. -/
theorem square_acc_eval (a : Limbs) :
    eval (square_acc a) + p * mul_high a a = eval a * eval a := by
  simp only [eval, square_acc, mul_high, p_val]
  ring

theorem carry_mul_eq_chain (a b : Limbs) (ha : Loose a) (hb : Loose b) :
    fiat_25519_carry_mul a b = chain (mul_acc a b) := by
  rw [carry_mul_unfold, mul_acc64_eq a b ha hb, chain64_eq _ (mul_acc_bound a b ha hb)]

theorem carry_square_eq_chain (a : Limbs) (ha : Loose a) :
    fiat_25519_carry_square a = chain (square_acc a) := by
  rw [carry_square_unfold, square_acc64_eq a ha, chain64_eq _ (square_acc_bound a ha)]

/-- C1: for loose `a`, `b` the value of `fiat_25519_carry_mul a b` is congruent to
`eval a * eval b` modulo `p = 2^255 - 19`. -/
theorem fiat_25519_carry_mul_correct (a b : fiat_25519_loose_field_element)
    (ha : Loose a) (hb : Loose b) :
    eval (fiat_25519_carry_mul a b) % p = (eval a * eval b) % p := by
  rw [carry_mul_eq_chain a b ha hb, mod_p_of_add_mul (chain_eval (mul_acc a b)),
    mod_p_of_add_mul (mul_acc_eval a b)]

theorem fiat_25519_carry_mul_correct_witness :
    Loose ⟨0xc000000, 0x6000000, 7, 0, 0, 0, 0, 0, 0xc000000, 0x6000000⟩ ∧
    Loose ⟨3, 0x6000000, 0xc000000, 0, 5, 0, 0, 0, 0, 0x6000000⟩ ∧
    eval (fiat_25519_carry_mul ⟨0xc000000, 0x6000000, 7, 0, 0, 0, 0, 0, 0xc000000, 0x6000000⟩
      ⟨3, 0x6000000, 0xc000000, 0, 5, 0, 0, 0, 0, 0x6000000⟩) % p =
    (eval ⟨0xc000000, 0x6000000, 7, 0, 0, 0, 0, 0, 0xc000000, 0x6000000⟩ *
      eval ⟨3, 0x6000000, 0xc000000, 0, 5, 0, 0, 0, 0, 0x6000000⟩) % p :=
  ⟨by decide, by decide, fiat_25519_carry_mul_correct _ _ (by decide) (by decide)⟩

/-- C2: for loose `a` the value of `fiat_25519_carry_square a` is congruent to
`eval a * eval a` modulo `p`, and squaring the limb vector `(1, 0, ..., 0)` returns
`(1, 0, ..., 0)`, which represents 1. -/
theorem fiat_25519_carry_square_correct :
    (∀ a : fiat_25519_loose_field_element, Loose a →
      eval (fiat_25519_carry_square a) % p = (eval a * eval a) % p) ∧
    fiat_25519_carry_square ⟨1, 0, 0, 0, 0, 0, 0, 0, 0, 0⟩ = ⟨1, 0, 0, 0, 0, 0, 0, 0, 0, 0⟩ ∧
    eval ⟨1, 0, 0, 0, 0, 0, 0, 0, 0, 0⟩ = 1 := by
  refine ⟨fun a ha => ?_, by decide, by decide⟩
  rw [carry_square_eq_chain a ha, mod_p_of_add_mul (chain_eval (square_acc a)),
    mod_p_of_add_mul (square_acc_eval a)]

theorem fiat_25519_carry_square_correct_witness :
    Loose ⟨0xc000000, 0x6000000, 7, 0, 0, 0, 0, 0, 0xc000000, 0x6000000⟩ ∧
    eval (fiat_25519_carry_square
      ⟨0xc000000, 0x6000000, 7, 0, 0, 0, 0, 0, 0xc000000, 0x6000000⟩) % p =
    (eval ⟨0xc000000, 0x6000000, 7, 0, 0, 0, 0, 0, 0xc000000, 0x6000000⟩ *
      eval ⟨0xc000000, 0x6000000, 7, 0, 0, 0, 0, 0, 0xc000000, 0x6000000⟩) % p :=
  ⟨by decide, fiat_25519_carry_square_correct.1 _ (by decide)⟩

/-- C3: for loose `a`, `b` the output of `fiat_25519_carry_mul a b` is tight: even limbs
are at most `2^26` and odd limbs at most `2^25`. -/
theorem fiat_25519_carry_mul_tight (a b : fiat_25519_loose_field_element)
    (ha : Loose a) (hb : Loose b) : Tight (fiat_25519_carry_mul a b) := by
  rw [carry_mul_eq_chain a b ha hb]
  exact chain_tight _ (mul_acc_bound a b ha hb)

theorem fiat_25519_carry_mul_tight_witness :
    Loose ⟨0xc000000, 0x6000000, 0xc000000, 0x6000000, 0xc000000, 0x6000000, 0xc000000,
      0x6000000, 0xc000000, 0x6000000⟩ ∧
    Tight (fiat_25519_carry_mul
      ⟨0xc000000, 0x6000000, 0xc000000, 0x6000000, 0xc000000, 0x6000000, 0xc000000,
        0x6000000, 0xc000000, 0x6000000⟩
      ⟨0xc000000, 0x6000000, 0xc000000, 0x6000000, 0xc000000, 0x6000000, 0xc000000,
        0x6000000, 0xc000000, 0x6000000⟩) :=
  ⟨by decide, fiat_25519_carry_mul_tight _ _ (by decide) (by decide)⟩

/-- C4: for loose `x` the value of `fiat_25519_carry x` is congruent to `eval x` modulo `p`. -/
theorem fiat_25519_carry_correct (x : fiat_25519_loose_field_element) (hx : Loose x) :
    eval (fiat_25519_carry x) % p = eval x % p := by
  rw [carry_eq_chain x hx, mod_p_of_add_mul (chain_eval x)]

theorem fiat_25519_carry_correct_witness :
    Loose ⟨0xc000000, 0x6000000, 0xc000000, 0x6000000, 0xc000000, 0x6000000, 0xc000000,
      0x6000000, 0xc000000, 0x6000000⟩ ∧
    eval (fiat_25519_carry ⟨0xc000000, 0x6000000, 0xc000000, 0x6000000, 0xc000000, 0x6000000,
      0xc000000, 0x6000000, 0xc000000, 0x6000000⟩) % p =
    eval ⟨0xc000000, 0x6000000, 0xc000000, 0x6000000, 0xc000000, 0x6000000, 0xc000000,
      0x6000000, 0xc000000, 0x6000000⟩ % p :=
  ⟨by decide, fiat_25519_carry_correct _ (by decide)⟩

/-- C5: for loose `x` the output of `fiat_25519_carry x` is tight: even limbs are at most
`2^26` and odd limbs at most `2^25`. -/
theorem fiat_25519_carry_tight (x : fiat_25519_loose_field_element) (hx : Loose x) :
    Tight (fiat_25519_carry x) := by
  rw [carry_eq_chain x hx]
  exact chain_tight x (acc63_of_loose x hx)

theorem fiat_25519_carry_tight_witness :
    Loose ⟨0x3ffffff, 0x1ffffff, 0x3ffffff, 0, 0, 0, 0, 0, 0, 0x2000000⟩ ∧
    Tight (fiat_25519_carry ⟨0x3ffffff, 0x1ffffff, 0x3ffffff, 0, 0, 0, 0, 0, 0, 0x2000000⟩) :=
  ⟨by decide, fiat_25519_carry_tight _ (by decide)⟩

/-! ## The borrow, carry and select primitives -/

theorem int_shiftRight (z : Int) (k : Nat) : Int.shiftRight z k = z / ((2 ^ k : Nat) : Int) :=
  Int.shiftRight_eq_div_pow z k

theorem int32_sub32 (c x : Nat) (hc : c ≤ 1) (hx : x < 2 ^ 31) :
    int32 (sub32 x c) = (x : Int) - c := by
  simp only [int32, sub32]
  omega

theorem int32_small (z : Int) (h1 : -2 ^ 31 ≤ z) (h2 : z < 2 ^ 31) : int32 z = z := by
  simp only [int32]
  omega

theorem int1_small (z : Int) (h1 : -2 ^ 7 ≤ z) (h2 : z < 2 ^ 7) : int1 z = z := by
  simp only [int1]
  omega

theorem subborrowx_u26_spec (c x y : Nat) (hc : c ≤ 1) (hy : y < 2 ^ 26) (hx : x < y + 2 ^ 26) :
    (fiat_25519_subborrowx_u26 c x y).1 + c + y = x + 2 ^ 26 * (fiat_25519_subborrowx_u26 c x y).2 ∧
    (fiat_25519_subborrowx_u26 c x y).1 < 2 ^ 26 ∧ (fiat_25519_subborrowx_u26 c x y).2 ≤ 1 := by
  have e1 : int32 (int32 (sub32 x c) - int32 y) = (x : Int) - c - y := by
    rw [int32_sub32 c x hc (by omega), int32_small (y : Int) (by omega) (by omega),
      int32_small _ (by omega) (by omega)]
  have e2 : int1 (Int.shiftRight ((x : Int) - c - y) 26) = ((x : Int) - c - y) / 2 ^ 26 := by
    rw [int_shiftRight, int1_small _ (by omega) (by omega)]
    norm_num
  simp only [fiat_25519_subborrowx_u26, e1, e2, u32_of_int, uint1_of_int, and_mask26]
  omega

theorem addcarryx_u26_spec (c x y : Nat) (hc : c ≤ 1) (hx : x < 2 ^ 26) (hy : y < 2 ^ 26) :
    (fiat_25519_addcarryx_u26 c x y).1 + 2 ^ 26 * (fiat_25519_addcarryx_u26 c x y).2 = c + x + y ∧
    (fiat_25519_addcarryx_u26 c x y).1 < 2 ^ 26 ∧ (fiat_25519_addcarryx_u26 c x y).2 ≤ 1 := by
  have i1 : add32 c x = c + x := add32_eq (by omega)
  have e1 : add32 (add32 c x) y = c + x + y := by
    rw [i1, add32_eq (by omega)]
  simp only [fiat_25519_addcarryx_u26, e1, uint1, and_mask26, Nat.shiftRight_eq_div_pow]
  omega

theorem cmov_mask_zero : u32_of_int (int1 (0 - 0)) &&& 0xffffffff = 0 := by
  simp [u32_of_int, int1]

theorem cmov_mask_one : u32_of_int (int1 (0 - 1)) &&& 0xffffffff = 0xffffffff := by
  simp [u32_of_int, int1]

theorem cmovznz_u32_spec (c u v : Nat) (hu : u < 2 ^ 32) (hv : v < 2 ^ 32) :
    fiat_25519_cmovznz_u32 c u v = if c = 0 then u else v := by
  by_cases h : c = 0
  · simp only [fiat_25519_cmovznz_u32, fiat_25519_value_barrier_u32, h, if_true, Nat.cast_zero,
      cmov_mask_zero]
    have e2 : not32 0 = 0xffffffff := by decide
    rw [e2, Nat.and_comm 0xffffffff u, and_mask32, Nat.mod_eq_of_lt hu]
    simp
  · simp only [fiat_25519_cmovznz_u32, fiat_25519_value_barrier_u32, h, if_false, Nat.cast_one,
      cmov_mask_one]
    have e2 : not32 0xffffffff = 0 := by decide
    rw [e2, Nat.and_comm 0xffffffff v, and_mask32, Nat.mod_eq_of_lt hv]
    simp


theorem subborrowx_u25_spec (c x y : Nat) (hc : c ≤ 1) (hy : y < 2 ^ 25) (hx : x < y + 2 ^ 25) :
    (fiat_25519_subborrowx_u25 c x y).1 + c + y = x + 2 ^ 25 * (fiat_25519_subborrowx_u25 c x y).2 ∧
    (fiat_25519_subborrowx_u25 c x y).1 < 2 ^ 25 ∧ (fiat_25519_subborrowx_u25 c x y).2 ≤ 1 := by
  have e1 : int32 (int32 (sub32 x c) - int32 y) = (x : Int) - c - y := by
    rw [int32_sub32 c x hc (by omega), int32_small (y : Int) (by omega) (by omega),
      int32_small _ (by omega) (by omega)]
  have e2 : int1 (Int.shiftRight ((x : Int) - c - y) 25) = ((x : Int) - c - y) / 2 ^ 25 := by
    rw [int_shiftRight, int1_small _ (by omega) (by omega)]
    norm_num
  simp only [fiat_25519_subborrowx_u25, e1, e2, u32_of_int, uint1_of_int, and_mask25]
  omega

theorem addcarryx_u25_spec (c x y : Nat) (hc : c ≤ 1) (hx : x < 2 ^ 25) (hy : y < 2 ^ 25) :
    (fiat_25519_addcarryx_u25 c x y).1 + 2 ^ 25 * (fiat_25519_addcarryx_u25 c x y).2 = c + x + y ∧
    (fiat_25519_addcarryx_u25 c x y).1 < 2 ^ 25 ∧ (fiat_25519_addcarryx_u25 c x y).2 ≤ 1 := by
  have i1 : add32 c x = c + x := add32_eq (by omega)
  have e1 : add32 (add32 c x) y = c + x + y := by
    rw [i1, add32_eq (by omega)]
  simp only [fiat_25519_addcarryx_u25, e1, uint1, and_mask25, Nat.shiftRight_eq_div_pow]
  omega

/-- The all-ones-or-zero mask built from a borrow bit selects a constant. -/
theorem cmov_mask (b K : Nat) (hb : b ≤ 1) (hK : K < 2 ^ 32) :
    fiat_25519_cmovznz_u32 b 0x0 0xffffffff &&& K = b * K := by
  rw [cmovznz_u32_spec b 0 0xffffffff (by decide) (by decide)]
  by_cases h : b = 0
  · simp [h]
  · have h1 : b = 1 := by omega
    simp only [h1, one_mul]
    rw [if_neg (by decide), Nat.and_comm, and_mask32, Nat.mod_eq_of_lt hK]

/-! ## Serialisation -/

theorem shl32_eq {a k : Nat} (h : a * 2 ^ k < 2 ^ 32) : shl32 a k = a * 2 ^ k := by
  rw [shl32, Nat.shiftLeft_eq, Nat.mod_eq_of_lt h]

theorem to_bytes_unfold (a : Limbs) :
    fiat_25519_to_bytes a = to_bytes_pack (to_bytes_canon a) := rfl

theorem sub_chain_core (a0 a1 a2 a3 a4 a5 a6 a7 a8 a9 : Nat)
    (x1 x2 x3 x4 x5 x6 x7 x8 x9 x10 x11 x12 x13 x14 x15 x16 x17 x18 x19 x20 : Nat)
    (s1 : x1 + 0 + 0x3ffffed = a0 + 2 ^ 26 * x2) (s3 : x3 + x2 + 0x1ffffff = a1 + 2 ^ 25 * x4)
    (s5 : x5 + x4 + 0x3ffffff = a2 + 2 ^ 26 * x6) (s7 : x7 + x6 + 0x1ffffff = a3 + 2 ^ 25 * x8)
    (s9 : x9 + x8 + 0x3ffffff = a4 + 2 ^ 26 * x10)
    (s11 : x11 + x10 + 0x1ffffff = a5 + 2 ^ 25 * x12)
    (s13 : x13 + x12 + 0x3ffffff = a6 + 2 ^ 26 * x14)
    (s15 : x15 + x14 + 0x1ffffff = a7 + 2 ^ 25 * x16)
    (s17 : x17 + x16 + 0x3ffffff = a8 + 2 ^ 26 * x18)
    (s19 : x19 + x18 + 0x1ffffff = a9 + 2 ^ 25 * x20) :
    x1 + x3 * 2 ^ 26 + x5 * 2 ^ 51 + x7 * 2 ^ 77 + x9 * 2 ^ 102 + x11 * 2 ^ 128 +
      x13 * 2 ^ 153 + x15 * 2 ^ 179 + x17 * 2 ^ 204 + x19 * 2 ^ 230 + (2 ^ 255 - 19) =
      (a0 + a1 * 2 ^ 26 + a2 * 2 ^ 51 + a3 * 2 ^ 77 + a4 * 2 ^ 102 + a5 * 2 ^ 128 +
      a6 * 2 ^ 153 + a7 * 2 ^ 179 + a8 * 2 ^ 204 + a9 * 2 ^ 230) + 2 ^ 255 * x20 := by
  have hp : (2 ^ 255 - 19 : Nat) =
      57896044618658097711785492504343953926634992332820282019728792003956564819949 := by
    norm_num
  rw [hp]
  zify at *
  linear_combination s1 + 2 ^ 26 * s3 + 2 ^ 51 * s5 + 2 ^ 77 * s7 + 2 ^ 102 * s9 + 2 ^ 128 * s11
    + 2 ^ 153 * s13 + 2 ^ 179 * s15 + 2 ^ 204 * s17 + 2 ^ 230 * s19

theorem add_chain_core (b : Nat) (x1 x3 x5 x7 x9 x11 x13 x15 x17 x19 : Nat)
    (x22 x23 x24 x25 x26 x27 x28 x29 x30 x31 x32 x33 x34 x35 x36 x37 x38 x39 x40 x41 : Nat)
    (c22 : x22 + 2 ^ 26 * x23 = 0 + x1 + b * 0x3ffffed)
    (c24 : x24 + 2 ^ 25 * x25 = x23 + x3 + b * 0x1ffffff)
    (c26 : x26 + 2 ^ 26 * x27 = x25 + x5 + b * 0x3ffffff)
    (c28 : x28 + 2 ^ 25 * x29 = x27 + x7 + b * 0x1ffffff)
    (c30 : x30 + 2 ^ 26 * x31 = x29 + x9 + b * 0x3ffffff)
    (c32 : x32 + 2 ^ 25 * x33 = x31 + x11 + b * 0x1ffffff)
    (c34 : x34 + 2 ^ 26 * x35 = x33 + x13 + b * 0x3ffffff)
    (c36 : x36 + 2 ^ 25 * x37 = x35 + x15 + b * 0x1ffffff)
    (c38 : x38 + 2 ^ 26 * x39 = x37 + x17 + b * 0x3ffffff)
    (c40 : x40 + 2 ^ 25 * x41 = x39 + x19 + b * 0x1ffffff) :
    x22 + x24 * 2 ^ 26 + x26 * 2 ^ 51 + x28 * 2 ^ 77 + x30 * 2 ^ 102 + x32 * 2 ^ 128 +
      x34 * 2 ^ 153 + x36 * 2 ^ 179 + x38 * 2 ^ 204 + x40 * 2 ^ 230 + 2 ^ 255 * x41 =
      (x1 + x3 * 2 ^ 26 + x5 * 2 ^ 51 + x7 * 2 ^ 77 + x9 * 2 ^ 102 + x11 * 2 ^ 128 +
      x13 * 2 ^ 153 + x15 * 2 ^ 179 + x17 * 2 ^ 204 + x19 * 2 ^ 230) + b * (2 ^ 255 - 19) := by
  have hp : (2 ^ 255 - 19 : Nat) =
      57896044618658097711785492504343953926634992332820282019728792003956564819949 := by
    norm_num
  rw [hp]
  zify at *
  linear_combination c22 + 2 ^ 26 * c24 + 2 ^ 51 * c26 + 2 ^ 77 * c28 + 2 ^ 102 * c30
    + 2 ^ 128 * c32 + 2 ^ 153 * c34 + 2 ^ 179 * c36 + 2 ^ 204 * c38 + 2 ^ 230 * c40

theorem digits_lt (d0 d1 d2 d3 d4 d5 d6 d7 d8 d9 : Nat) (h0 : d0 < 2 ^ 26) (h1 : d1 < 2 ^ 25)
    (h2 : d2 < 2 ^ 26) (h3 : d3 < 2 ^ 25) (h4 : d4 < 2 ^ 26) (h5 : d5 < 2 ^ 25)
    (h6 : d6 < 2 ^ 26) (h7 : d7 < 2 ^ 25) (h8 : d8 < 2 ^ 26) (h9 : d9 < 2 ^ 25) :
    d0 + d1 * 2 ^ 26 + d2 * 2 ^ 51 + d3 * 2 ^ 77 + d4 * 2 ^ 102 + d5 * 2 ^ 128 +
      d6 * 2 ^ 153 + d7 * 2 ^ 179 + d8 * 2 ^ 204 + d9 * 2 ^ 230 < 2 ^ 255 := by
  omega

theorem tight_lt (d0 d1 d2 d3 d4 d5 d6 d7 d8 d9 : Nat) (h0 : d0 ≤ 2 ^ 26) (h1 : d1 ≤ 2 ^ 25)
    (h2 : d2 ≤ 2 ^ 26) (h3 : d3 ≤ 2 ^ 25) (h4 : d4 ≤ 2 ^ 26) (h5 : d5 ≤ 2 ^ 25)
    (h6 : d6 ≤ 2 ^ 26) (h7 : d7 ≤ 2 ^ 25) (h8 : d8 ≤ 2 ^ 26) (h9 : d9 ≤ 2 ^ 25) :
    d0 + d1 * 2 ^ 26 + d2 * 2 ^ 51 + d3 * 2 ^ 77 + d4 * 2 ^ 102 + d5 * 2 ^ 128 +
      d6 * 2 ^ 153 + d7 * 2 ^ 179 + d8 * 2 ^ 204 + d9 * 2 ^ 230 < 2 * (2 ^ 255 - 19) := by
  omega

theorem canon_core (ea em eo b c : Nat) (hsub : em + (2 ^ 255 - 19) = ea + 2 ^ 255 * b)
    (hadd : eo + 2 ^ 255 * c = em + b * (2 ^ 255 - 19)) (hout : eo < 2 ^ 255)
    (hmid : em < 2 ^ 255) (hin : ea < 2 * (2 ^ 255 - 19)) (hb : b ≤ 1) (hc : c ≤ 1) :
    eo = ea % (2 ^ 255 - 19) := by
  have hb2 : b = 0 ∨ b = 1 := by omega
  have hc2 : c = 0 ∨ c = 1 := by omega
  rcases hb2 with rfl | rfl <;> rcases hc2 with rfl | rfl <;> omega

theorem bit_mul_lt {b K N : Nat} (hb : b ≤ 1) (hK : K < N) : b * K < N := by
  have h : b = 0 ∨ b = 1 := by omega
  rcases h with rfl | rfl <;> omega
/-- The first half of `to_bytes` returns the proper digits of `eval a % p`. -/
theorem to_bytes_canon_spec (a : Limbs) (h : Tight a) :
    Digits (to_bytes_canon a) ∧ eval (to_bytes_canon a) = eval a % p := by
  obtain ⟨h0, h1, h2, h3, h4, h5, h6, h7, h8, h9⟩ := h
  obtain ⟨a0, a1, a2, a3, a4, a5, a6, a7, a8, a9⟩ := a
  simp only at h0 h1 h2 h3 h4 h5 h6 h7 h8 h9
  simp only [to_bytes_canon, Digits, eval, p]
  have s1 := subborrowx_u26_spec 0 a0 0x3ffffed (by decide) (by decide)
    (Nat.lt_of_le_of_lt h0 (by decide))
  generalize fiat_25519_subborrowx_u26 0 a0 0x3ffffed = r1 at s1 ⊢
  obtain ⟨x1, x2⟩ := r1
  dsimp only at s1 ⊢
  have s3 := subborrowx_u25_spec x2 a1 0x1ffffff s1.2.2 (by decide)
    (Nat.lt_of_le_of_lt h1 (by decide))
  generalize fiat_25519_subborrowx_u25 x2 a1 0x1ffffff = r3 at s3 ⊢
  obtain ⟨x3, x4⟩ := r3
  dsimp only at s3 ⊢
  have s5 := subborrowx_u26_spec x4 a2 0x3ffffff s3.2.2 (by decide)
    (Nat.lt_of_le_of_lt h2 (by decide))
  generalize fiat_25519_subborrowx_u26 x4 a2 0x3ffffff = r5 at s5 ⊢
  obtain ⟨x5, x6⟩ := r5
  dsimp only at s5 ⊢
  have s7 := subborrowx_u25_spec x6 a3 0x1ffffff s5.2.2 (by decide)
    (Nat.lt_of_le_of_lt h3 (by decide))
  generalize fiat_25519_subborrowx_u25 x6 a3 0x1ffffff = r7 at s7 ⊢
  obtain ⟨x7, x8⟩ := r7
  dsimp only at s7 ⊢
  have s9 := subborrowx_u26_spec x8 a4 0x3ffffff s7.2.2 (by decide)
    (Nat.lt_of_le_of_lt h4 (by decide))
  generalize fiat_25519_subborrowx_u26 x8 a4 0x3ffffff = r9 at s9 ⊢
  obtain ⟨x9, x10⟩ := r9
  dsimp only at s9 ⊢
  have s11 := subborrowx_u25_spec x10 a5 0x1ffffff s9.2.2 (by decide)
    (Nat.lt_of_le_of_lt h5 (by decide))
  generalize fiat_25519_subborrowx_u25 x10 a5 0x1ffffff = r11 at s11 ⊢
  obtain ⟨x11, x12⟩ := r11
  dsimp only at s11 ⊢
  have s13 := subborrowx_u26_spec x12 a6 0x3ffffff s11.2.2 (by decide)
    (Nat.lt_of_le_of_lt h6 (by decide))
  generalize fiat_25519_subborrowx_u26 x12 a6 0x3ffffff = r13 at s13 ⊢
  obtain ⟨x13, x14⟩ := r13
  dsimp only at s13 ⊢
  have s15 := subborrowx_u25_spec x14 a7 0x1ffffff s13.2.2 (by decide)
    (Nat.lt_of_le_of_lt h7 (by decide))
  generalize fiat_25519_subborrowx_u25 x14 a7 0x1ffffff = r15 at s15 ⊢
  obtain ⟨x15, x16⟩ := r15
  dsimp only at s15 ⊢
  have s17 := subborrowx_u26_spec x16 a8 0x3ffffff s15.2.2 (by decide)
    (Nat.lt_of_le_of_lt h8 (by decide))
  generalize fiat_25519_subborrowx_u26 x16 a8 0x3ffffff = r17 at s17 ⊢
  obtain ⟨x17, x18⟩ := r17
  dsimp only at s17 ⊢
  have s19 := subborrowx_u25_spec x18 a9 0x1ffffff s17.2.2 (by decide)
    (Nat.lt_of_le_of_lt h9 (by decide))
  generalize fiat_25519_subborrowx_u25 x18 a9 0x1ffffff = r19 at s19 ⊢
  obtain ⟨x19, x20⟩ := r19
  dsimp only at s19 ⊢
  have hb := s19.2.2
  have m0 := cmov_mask x20 0x3ffffed hb (by decide)
  have m25 := cmov_mask x20 0x1ffffff hb (by decide)
  have m26 := cmov_mask x20 0x3ffffff hb (by decide)
  generalize fiat_25519_cmovznz_u32 x20 0x0 0xffffffff = x21 at m0 m25 m26 ⊢
  rw [m0, m25, m26]
  have c22 := addcarryx_u26_spec 0 x1 (x20 * 0x3ffffed) (by decide) s1.2.1
    (bit_mul_lt hb (by decide))
  generalize fiat_25519_addcarryx_u26 0 x1 (x20 * 0x3ffffed) = r22 at c22 ⊢
  obtain ⟨x22, x23⟩ := r22
  dsimp only at c22 ⊢
  have c24 := addcarryx_u25_spec x23 x3 (x20 * 0x1ffffff) c22.2.2 s3.2.1
    (bit_mul_lt hb (by decide))
  generalize fiat_25519_addcarryx_u25 x23 x3 (x20 * 0x1ffffff) = r24 at c24 ⊢
  obtain ⟨x24, x25⟩ := r24
  dsimp only at c24 ⊢
  have c26 := addcarryx_u26_spec x25 x5 (x20 * 0x3ffffff) c24.2.2 s5.2.1
    (bit_mul_lt hb (by decide))
  generalize fiat_25519_addcarryx_u26 x25 x5 (x20 * 0x3ffffff) = r26 at c26 ⊢
  obtain ⟨x26, x27⟩ := r26
  dsimp only at c26 ⊢
  have c28 := addcarryx_u25_spec x27 x7 (x20 * 0x1ffffff) c26.2.2 s7.2.1
    (bit_mul_lt hb (by decide))
  generalize fiat_25519_addcarryx_u25 x27 x7 (x20 * 0x1ffffff) = r28 at c28 ⊢
  obtain ⟨x28, x29⟩ := r28
  dsimp only at c28 ⊢
  have c30 := addcarryx_u26_spec x29 x9 (x20 * 0x3ffffff) c28.2.2 s9.2.1
    (bit_mul_lt hb (by decide))
  generalize fiat_25519_addcarryx_u26 x29 x9 (x20 * 0x3ffffff) = r30 at c30 ⊢
  obtain ⟨x30, x31⟩ := r30
  dsimp only at c30 ⊢
  have c32 := addcarryx_u25_spec x31 x11 (x20 * 0x1ffffff) c30.2.2 s11.2.1
    (bit_mul_lt hb (by decide))
  generalize fiat_25519_addcarryx_u25 x31 x11 (x20 * 0x1ffffff) = r32 at c32 ⊢
  obtain ⟨x32, x33⟩ := r32
  dsimp only at c32 ⊢
  have c34 := addcarryx_u26_spec x33 x13 (x20 * 0x3ffffff) c32.2.2 s13.2.1
    (bit_mul_lt hb (by decide))
  generalize fiat_25519_addcarryx_u26 x33 x13 (x20 * 0x3ffffff) = r34 at c34 ⊢
  obtain ⟨x34, x35⟩ := r34
  dsimp only at c34 ⊢
  have c36 := addcarryx_u25_spec x35 x15 (x20 * 0x1ffffff) c34.2.2 s15.2.1
    (bit_mul_lt hb (by decide))
  generalize fiat_25519_addcarryx_u25 x35 x15 (x20 * 0x1ffffff) = r36 at c36 ⊢
  obtain ⟨x36, x37⟩ := r36
  dsimp only at c36 ⊢
  have c38 := addcarryx_u26_spec x37 x17 (x20 * 0x3ffffff) c36.2.2 s17.2.1
    (bit_mul_lt hb (by decide))
  generalize fiat_25519_addcarryx_u26 x37 x17 (x20 * 0x3ffffff) = r38 at c38 ⊢
  obtain ⟨x38, x39⟩ := r38
  dsimp only at c38 ⊢
  have c40 := addcarryx_u25_spec x39 x19 (x20 * 0x1ffffff) c38.2.2 s19.2.1
    (bit_mul_lt hb (by decide))
  generalize fiat_25519_addcarryx_u25 x39 x19 (x20 * 0x1ffffff) = r40 at c40 ⊢
  obtain ⟨x40, x41⟩ := r40
  dsimp only at c40 ⊢
  refine ⟨⟨c22.2.1, c24.2.1, c26.2.1, c28.2.1, c30.2.1, c32.2.1, c34.2.1, c36.2.1, c38.2.1,
    c40.2.1⟩, ?_⟩
  exact canon_core _ _ _ x20 x41
    (sub_chain_core a0 a1 a2 a3 a4 a5 a6 a7 a8 a9 x1 x2 x3 x4 x5 x6 x7 x8 x9 x10 x11 x12 x13 x14
      x15 x16 x17 x18 x19 x20 s1.1 s3.1 s5.1 s7.1 s9.1 s11.1 s13.1 s15.1 s17.1 s19.1)
    (add_chain_core x20 x1 x3 x5 x7 x9 x11 x13 x15 x17 x19 x22 x23 x24 x25 x26 x27 x28 x29 x30
      x31 x32 x33 x34 x35 x36 x37 x38 x39 x40 x41 c22.1 c24.1 c26.1 c28.1 c30.1 c32.1 c34.1
      c36.1 c38.1 c40.1)
    (digits_lt _ _ _ _ _ _ _ _ _ _ c22.2.1 c24.2.1 c26.2.1 c28.2.1 c30.2.1 c32.2.1 c34.2.1
      c36.2.1 c38.2.1 c40.2.1)
    (digits_lt _ _ _ _ _ _ _ _ _ _ s1.2.1 s3.2.1 s5.2.1 s7.2.1 s9.2.1 s11.2.1 s13.2.1 s15.2.1
      s17.2.1 s19.2.1)
    (tight_lt _ _ _ _ _ _ _ _ _ _ h0 h1 h2 h3 h4 h5 h6 h7 h8 h9) hb c40.2.2

set_option maxRecDepth 100000 in
/-- On proper digits no operation of the packing half wraps. -/
theorem pack_eq_ideal (t : Limbs) (h : Digits t) : to_bytes_pack t = pack_ideal t := by
  obtain ⟨h0, h1, h2, h3, h4, h5, h6, h7, h8, h9⟩ := h
  replace h0 := Nat.le_pred_of_lt h0
  replace h1 := Nat.le_pred_of_lt h1
  replace h2 := Nat.le_pred_of_lt h2
  replace h3 := Nat.le_pred_of_lt h3
  replace h4 := Nat.le_pred_of_lt h4
  replace h5 := Nat.le_pred_of_lt h5
  replace h6 := Nat.le_pred_of_lt h6
  replace h7 := Nat.le_pred_of_lt h7
  replace h8 := Nat.le_pred_of_lt h8
  replace h9 := Nat.le_pred_of_lt h9
  simp (disch := (apply lt_of_bound
                  case h =>
                    repeat (first
                      | with_reducible assumption
                      | with_reducible apply Nat.add_le_add
                      | with_reducible apply Nat.mul_le_mul
                      | with_reducible apply Nat.div_le_div_right
                      | with_reducible apply mod_le_pred _ _ (by decide)
                      | exact Nat.le_refl _)
                  case hB => decide))
    only [to_bytes_pack, pack_ideal, add32_eq, mul32_eq, shl32_eq, u8_eq, uint1_eq,
      Nat.shiftRight_eq_div_pow, and_mask8]

theorem range32 : List.range 32 = [0, 1, 2, 3, 4, 5, 6, 7, 8, 9, 10, 11, 12, 13, 14, 15, 16, 17,
    18, 19, 20, 21, 22, 23, 24, 25, 26, 27, 28, 29, 30, 31] := by decide


/-- Bits at or above position `K` do not reach the byte at position `s` when `s + 8 ≤ K`. -/
theorem byte_low (e r K s : Nat) (hs : s + 8 ≤ K) :
    (e + r * 2 ^ K) / 2 ^ s % 256 = e / 2 ^ s % 256 := by
  obtain ⟨d, rfl⟩ := Nat.exists_eq_add_of_le hs
  rw [show r * 2 ^ (s + 8 + d) = 2 ^ s * (256 * (r * 2 ^ d)) by ring,
    Nat.add_mul_div_left _ _ (Nat.pow_pos (by decide)), Nat.add_mul_mod_self_left]

/-- Below a 128-bit low half, the bytes from 16 on are those of the high half. -/
theorem high_div (l u s : Nat) (hl : l < 2 ^ 128) :
    (l + u * 2 ^ 128) / 2 ^ (128 + s) = u / 2 ^ s := by
  rw [pow_add, ← Nat.div_div_eq_div_mul, Nat.add_mul_div_right _ _ (Nat.pow_pos (by decide)),
    Nat.div_eq_of_lt hl, Nat.zero_add]

theorem byte_lo (e r K a j : Nat) (ha : a = 8 * j) (hK : 8 * j + 8 ≤ K) :
    e / 2 ^ a % 2 ^ 8 = (e + r * 2 ^ K) / 2 ^ (8 * j) % 256 := by
  subst ha
  rw [byte_low _ _ _ _ hK]
  rfl

theorem byte_lo0 (e r K : Nat) (hK : 8 ≤ K) :
    e % 2 ^ 8 = (e + r * 2 ^ K) / 2 ^ (8 * 0) % 256 := by
  rw [byte_low _ _ _ _ (by omega)]
  simp

theorem byte_lo_last (e r a : Nat) (he : e < 2 ^ 128) (ha : a = 120) :
    e / 2 ^ a = (e + r * 2 ^ 128) / 2 ^ (8 * 15) % 256 := by
  subst ha
  rw [byte_low _ _ _ _ (by decide)]
  omega

theorem byte_hi (l e r K a j : Nat) (hl : l < 2 ^ 128) (ha : 128 + a = 8 * j)
    (hK : a + 8 ≤ K) :
    e / 2 ^ a % 2 ^ 8 = (l + (e + r * 2 ^ K) * 2 ^ 128) / 2 ^ (8 * j) % 256 := by
  rw [← ha, high_div _ _ _ hl, byte_low _ _ _ _ hK]
  rfl

theorem byte_hi0 (l e r K : Nat) (hl : l < 2 ^ 128) (hK : 8 ≤ K) :
    e % 2 ^ 8 = (l + (e + r * 2 ^ K) * 2 ^ 128) / 2 ^ (8 * 16) % 256 := by
  rw [show 8 * 16 = 128 + 0 by decide, high_div _ _ _ hl, byte_low _ _ _ _ (by omega)]
  simp

theorem byte_top (l e a j : Nat) (hl : l < 2 ^ 128) (ha : 128 + a = 8 * j) :
    e / 2 ^ a % 2 ^ 8 = (l + e * 2 ^ 128) / 2 ^ (8 * j) % 256 := by
  rw [← ha, high_div _ _ _ hl]
  rfl

theorem byte_top_last (l e a : Nat) (hl : l < 2 ^ 128) (he : e < 2 ^ 127) (ha : a = 120) :
    e / 2 ^ a = (l + e * 2 ^ 128) / 2 ^ (8 * 31) % 256 := by
  subst ha
  rw [show 8 * 31 = 128 + 120 by decide, high_div _ _ _ hl]
  omega

/-- The ideal packing lists the base-256 digits of the value of proper digits. -/
theorem pack_ideal_spec (t : Limbs) (h : Digits t) :
    (pack_ideal t).toList = le_bytes (eval t) := by
  obtain ⟨h0, h1, h2, h3, h4, h5, h6, h7, h8, h9⟩ := h
  obtain ⟨t0, t1, t2, t3, t4, t5, t6, t7, t8, t9⟩ := t
  simp only at h0 h1 h2 h3 h4 h5 h6 h7 h8 h9
  have e1 : t1 * 2 ^ 2 + t0 / 2 ^ 8 / 2 ^ 8 / 2 ^ 8 = (t0 + t1 * 2 ^ 26) / 2 ^ 24 := by omega
  have e2 : t2 * 2 ^ 3 + (t0 + t1 * 2 ^ 26) / 2 ^ 24 / 2 ^ 8 / 2 ^ 8 / 2 ^ 8 =
      (t0 + t1 * 2 ^ 26 + t2 * 2 ^ 51) / 2 ^ 48 := by omega
  have e3 : t3 * 2 ^ 5 + (t0 + t1 * 2 ^ 26 + t2 * 2 ^ 51) / 2 ^ 48 / 2 ^ 8 / 2 ^ 8 / 2 ^ 8 =
      (t0 + t1 * 2 ^ 26 + t2 * 2 ^ 51 + t3 * 2 ^ 77) / 2 ^ 72 := by omega
  have e4 : t4 * 2 ^ 6 +
      (t0 + t1 * 2 ^ 26 + t2 * 2 ^ 51 + t3 * 2 ^ 77) / 2 ^ 72 / 2 ^ 8 / 2 ^ 8 / 2 ^ 8 =
      (t0 + t1 * 2 ^ 26 + t2 * 2 ^ 51 + t3 * 2 ^ 77 + t4 * 2 ^ 102) / 2 ^ 96 := by omega
  have e6 : t6 * 2 + t5 / 2 ^ 8 / 2 ^ 8 / 2 ^ 8 = (t5 + t6 * 2 ^ 25) / 2 ^ 24 := by omega
  have e7 : t7 * 2 ^ 3 + (t5 + t6 * 2 ^ 25) / 2 ^ 24 / 2 ^ 8 / 2 ^ 8 / 2 ^ 8 =
      (t5 + t6 * 2 ^ 25 + t7 * 2 ^ 51) / 2 ^ 48 := by omega
  have e8 : t8 * 2 ^ 4 + (t5 + t6 * 2 ^ 25 + t7 * 2 ^ 51) / 2 ^ 48 / 2 ^ 8 / 2 ^ 8 / 2 ^ 8 =
      (t5 + t6 * 2 ^ 25 + t7 * 2 ^ 51 + t8 * 2 ^ 76) / 2 ^ 72 := by omega
  have e9 : t9 * 2 ^ 6 +
      (t5 + t6 * 2 ^ 25 + t7 * 2 ^ 51 + t8 * 2 ^ 76) / 2 ^ 72 / 2 ^ 8 / 2 ^ 8 / 2 ^ 8 =
      (t5 + t6 * 2 ^ 25 + t7 * 2 ^ 51 + t8 * 2 ^ 76 + t9 * 2 ^ 102) / 2 ^ 96 := by omega
  have hL : t0 + t1 * 2 ^ 26 + t2 * 2 ^ 51 + t3 * 2 ^ 77 + t4 * 2 ^ 102 < 2 ^ 128 := by omega
  have hU : t5 + t6 * 2 ^ 25 + t7 * 2 ^ 51 + t8 * 2 ^ 76 + t9 * 2 ^ 102 < 2 ^ 127 := by omega
  have f0 : t0 + t1 * 2 ^ 26 + t2 * 2 ^ 51 + t3 * 2 ^ 77 + t4 * 2 ^ 102 + t5 * 2 ^ 128 + t6 * 2 ^ 153 + t7 * 2 ^ 179 + t8 * 2 ^ 204 + t9 * 2 ^ 230 =
      (t0) + (t1 + t2 * 2 ^ 25 + t3 * 2 ^ 51 + t4 * 2 ^ 76 + t5 * 2 ^ 102 + t6 * 2 ^ 127 + t7 * 2 ^ 153 + t8 * 2 ^ 178 + t9 * 2 ^ 204) * 2 ^ 26 := by ring
  have f1 : t0 + t1 * 2 ^ 26 + t2 * 2 ^ 51 + t3 * 2 ^ 77 + t4 * 2 ^ 102 + t5 * 2 ^ 128 + t6 * 2 ^ 153 + t7 * 2 ^ 179 + t8 * 2 ^ 204 + t9 * 2 ^ 230 =
      (t0 + t1 * 2 ^ 26) + (t2 + t3 * 2 ^ 26 + t4 * 2 ^ 51 + t5 * 2 ^ 77 + t6 * 2 ^ 102 + t7 * 2 ^ 128 + t8 * 2 ^ 153 + t9 * 2 ^ 179) * 2 ^ 51 := by ring
  have f2 : t0 + t1 * 2 ^ 26 + t2 * 2 ^ 51 + t3 * 2 ^ 77 + t4 * 2 ^ 102 + t5 * 2 ^ 128 + t6 * 2 ^ 153 + t7 * 2 ^ 179 + t8 * 2 ^ 204 + t9 * 2 ^ 230 =
      (t0 + t1 * 2 ^ 26 + t2 * 2 ^ 51) + (t3 + t4 * 2 ^ 25 + t5 * 2 ^ 51 + t6 * 2 ^ 76 + t7 * 2 ^ 102 + t8 * 2 ^ 127 + t9 * 2 ^ 153) * 2 ^ 77 := by ring
  have f3 : t0 + t1 * 2 ^ 26 + t2 * 2 ^ 51 + t3 * 2 ^ 77 + t4 * 2 ^ 102 + t5 * 2 ^ 128 + t6 * 2 ^ 153 + t7 * 2 ^ 179 + t8 * 2 ^ 204 + t9 * 2 ^ 230 =
      (t0 + t1 * 2 ^ 26 + t2 * 2 ^ 51 + t3 * 2 ^ 77) + (t4 + t5 * 2 ^ 26 + t6 * 2 ^ 51 + t7 * 2 ^ 77 + t8 * 2 ^ 102 + t9 * 2 ^ 128) * 2 ^ 102 := by ring
  have f4 : t0 + t1 * 2 ^ 26 + t2 * 2 ^ 51 + t3 * 2 ^ 77 + t4 * 2 ^ 102 + t5 * 2 ^ 128 + t6 * 2 ^ 153 + t7 * 2 ^ 179 + t8 * 2 ^ 204 + t9 * 2 ^ 230 =
      (t0 + t1 * 2 ^ 26 + t2 * 2 ^ 51 + t3 * 2 ^ 77 + t4 * 2 ^ 102) + (t5 + t6 * 2 ^ 25 + t7 * 2 ^ 51 + t8 * 2 ^ 76 + t9 * 2 ^ 102) * 2 ^ 128 := by ring
  have f5 : t0 + t1 * 2 ^ 26 + t2 * 2 ^ 51 + t3 * 2 ^ 77 + t4 * 2 ^ 102 + t5 * 2 ^ 128 + t6 * 2 ^ 153 + t7 * 2 ^ 179 + t8 * 2 ^ 204 + t9 * 2 ^ 230 =
      (t0 + t1 * 2 ^ 26 + t2 * 2 ^ 51 + t3 * 2 ^ 77 + t4 * 2 ^ 102) + ((t5) + (t6 + t7 * 2 ^ 26 + t8 * 2 ^ 51 + t9 * 2 ^ 77) * 2 ^ 25) * 2 ^ 128 := by ring
  have f6 : t0 + t1 * 2 ^ 26 + t2 * 2 ^ 51 + t3 * 2 ^ 77 + t4 * 2 ^ 102 + t5 * 2 ^ 128 + t6 * 2 ^ 153 + t7 * 2 ^ 179 + t8 * 2 ^ 204 + t9 * 2 ^ 230 =
      (t0 + t1 * 2 ^ 26 + t2 * 2 ^ 51 + t3 * 2 ^ 77 + t4 * 2 ^ 102) + ((t5 + t6 * 2 ^ 25) + (t7 + t8 * 2 ^ 25 + t9 * 2 ^ 51) * 2 ^ 51) * 2 ^ 128 := by ring
  have f7 : t0 + t1 * 2 ^ 26 + t2 * 2 ^ 51 + t3 * 2 ^ 77 + t4 * 2 ^ 102 + t5 * 2 ^ 128 + t6 * 2 ^ 153 + t7 * 2 ^ 179 + t8 * 2 ^ 204 + t9 * 2 ^ 230 =
      (t0 + t1 * 2 ^ 26 + t2 * 2 ^ 51 + t3 * 2 ^ 77 + t4 * 2 ^ 102) + ((t5 + t6 * 2 ^ 25 + t7 * 2 ^ 51) + (t8 + t9 * 2 ^ 26) * 2 ^ 76) * 2 ^ 128 := by ring
  have f8 : t0 + t1 * 2 ^ 26 + t2 * 2 ^ 51 + t3 * 2 ^ 77 + t4 * 2 ^ 102 + t5 * 2 ^ 128 + t6 * 2 ^ 153 + t7 * 2 ^ 179 + t8 * 2 ^ 204 + t9 * 2 ^ 230 =
      (t0 + t1 * 2 ^ 26 + t2 * 2 ^ 51 + t3 * 2 ^ 77 + t4 * 2 ^ 102) + ((t5 + t6 * 2 ^ 25 + t7 * 2 ^ 51 + t8 * 2 ^ 76) + (t9) * 2 ^ 102) * 2 ^ 128 := by ring
  simp only [pack_ideal, e1, e2, e3, e4, e6, e7, e8, e9, Bytes32.toList, le_bytes, range32,
    List.map_cons, List.map_nil, eval, List.cons.injEq, and_true]
  simp only [Nat.div_div_eq_div_mul, ← pow_add]
  refine ⟨?_, ?_, ?_, ?_, ?_, ?_, ?_, ?_, ?_, ?_, ?_, ?_, ?_, ?_, ?_, ?_, ?_, ?_, ?_, ?_, ?_,
    ?_, ?_, ?_, ?_, ?_, ?_, ?_, ?_, ?_, ?_, ?_⟩
  · rw [f0]; exact byte_lo0 _ _ _ (by decide)
  · rw [f0]; exact byte_lo _ _ _ _ _ (by decide) (by decide)
  · rw [f0]; exact byte_lo _ _ _ _ _ (by decide) (by decide)
  · rw [f1]; exact byte_lo _ _ _ _ _ (by decide) (by decide)
  · rw [f1]; exact byte_lo _ _ _ _ _ (by decide) (by decide)
  · rw [f1]; exact byte_lo _ _ _ _ _ (by decide) (by decide)
  · rw [f2]; exact byte_lo _ _ _ _ _ (by decide) (by decide)
  · rw [f2]; exact byte_lo _ _ _ _ _ (by decide) (by decide)
  · rw [f2]; exact byte_lo _ _ _ _ _ (by decide) (by decide)
  · rw [f3]; exact byte_lo _ _ _ _ _ (by decide) (by decide)
  · rw [f3]; exact byte_lo _ _ _ _ _ (by decide) (by decide)
  · rw [f3]; exact byte_lo _ _ _ _ _ (by decide) (by decide)
  · rw [f4]; exact byte_lo _ _ _ _ _ (by decide) (by decide)
  · rw [f4]; exact byte_lo _ _ _ _ _ (by decide) (by decide)
  · rw [f4]; exact byte_lo _ _ _ _ _ (by decide) (by decide)
  · rw [f4]; exact byte_lo_last _ _ _ hL (by decide)
  · rw [f5]; exact byte_hi0 _ _ _ _ hL (by decide)
  · rw [f5]; exact byte_hi _ _ _ _ _ _ hL (by decide) (by decide)
  · rw [f5]; exact byte_hi _ _ _ _ _ _ hL (by decide) (by decide)
  · rw [f6]; exact byte_hi _ _ _ _ _ _ hL (by decide) (by decide)
  · rw [f6]; exact byte_hi _ _ _ _ _ _ hL (by decide) (by decide)
  · rw [f6]; exact byte_hi _ _ _ _ _ _ hL (by decide) (by decide)
  · rw [f7]; exact byte_hi _ _ _ _ _ _ hL (by decide) (by decide)
  · rw [f7]; exact byte_hi _ _ _ _ _ _ hL (by decide) (by decide)
  · rw [f7]; exact byte_hi _ _ _ _ _ _ hL (by decide) (by decide)
  · rw [f8]; exact byte_hi _ _ _ _ _ _ hL (by decide) (by decide)
  · rw [f8]; exact byte_hi _ _ _ _ _ _ hL (by decide) (by decide)
  · rw [f8]; exact byte_hi _ _ _ _ _ _ hL (by decide) (by decide)
  · rw [f4]; exact byte_top _ _ _ _ hL (by decide)
  · rw [f4]; exact byte_top _ _ _ _ hL (by decide)
  · rw [f4]; exact byte_top _ _ _ _ hL (by decide)
  · rw [f4]; exact byte_top_last _ _ _ hL hU (by decide)

/-- Base-256 digits named one by one add up to the number they were cut from. -/
theorem le_bytes_core (q0 q1 q2 q3 q4 q5 q6 q7 q8 q9 q10 q11 q12 q13 q14 q15 q16
    q17 q18 q19 q20 q21 q22 q23 q24 q25 q26 q27 q28 q29 q30 q31 q32
    r0 r1 r2 r3 r4 r5 r6 r7 r8 r9 r10 r11 r12 r13 r14 r15 r16 r17 r18 r19 r20 r21 r22 r23 r24 r25 r26 r27 r28 r29 r30 r31 : Nat)
    (e0 : q0 = 256 * q1 + r0) (e1 : q1 = 256 * q2 + r1) (e2 : q2 = 256 * q3 + r2)
    (e3 : q3 = 256 * q4 + r3) (e4 : q4 = 256 * q5 + r4) (e5 : q5 = 256 * q6 + r5)
    (e6 : q6 = 256 * q7 + r6) (e7 : q7 = 256 * q8 + r7) (e8 : q8 = 256 * q9 + r8)
    (e9 : q9 = 256 * q10 + r9) (e10 : q10 = 256 * q11 + r10) (e11 : q11 = 256 * q12 + r11)
    (e12 : q12 = 256 * q13 + r12) (e13 : q13 = 256 * q14 + r13) (e14 : q14 = 256 * q15 + r14)
    (e15 : q15 = 256 * q16 + r15) (e16 : q16 = 256 * q17 + r16) (e17 : q17 = 256 * q18 + r17)
    (e18 : q18 = 256 * q19 + r18) (e19 : q19 = 256 * q20 + r19) (e20 : q20 = 256 * q21 + r20)
    (e21 : q21 = 256 * q22 + r21) (e22 : q22 = 256 * q23 + r22) (e23 : q23 = 256 * q24 + r23)
    (e24 : q24 = 256 * q25 + r24) (e25 : q25 = 256 * q26 + r25) (e26 : q26 = 256 * q27 + r26)
    (e27 : q27 = 256 * q28 + r27) (e28 : q28 = 256 * q29 + r28) (e29 : q29 = 256 * q30 + r29)
    (e30 : q30 = 256 * q31 + r30) (e31 : q31 = 256 * q32 + r31)
    (h32 : q32 = 0) :
    r0 + r1 * 2 ^ 8 + r2 * 2 ^ 16 + r3 * 2 ^ 24 + r4 * 2 ^ 32 + r5 * 2 ^ 40 + r6 * 2 ^ 48 +
    r7 * 2 ^ 56 + r8 * 2 ^ 64 + r9 * 2 ^ 72 + r10 * 2 ^ 80 + r11 * 2 ^ 88 + r12 * 2 ^ 96 +
    r13 * 2 ^ 104 + r14 * 2 ^ 112 + r15 * 2 ^ 120 + r16 * 2 ^ 128 + r17 * 2 ^ 136 +
    r18 * 2 ^ 144 + r19 * 2 ^ 152 + r20 * 2 ^ 160 + r21 * 2 ^ 168 + r22 * 2 ^ 176 +
    r23 * 2 ^ 184 + r24 * 2 ^ 192 + r25 * 2 ^ 200 + r26 * 2 ^ 208 + r27 * 2 ^ 216 +
    r28 * 2 ^ 224 + r29 * 2 ^ 232 + r30 * 2 ^ 240 + r31 * 2 ^ 248 = q0 := by
  zify at *
  linear_combination -e0 - (2 ^ 8 * e1) - (2 ^ 16 * e2) - (2 ^ 24 * e3) - (2 ^ 32 * e4)
    - (2 ^ 40 * e5) - (2 ^ 48 * e6) - (2 ^ 56 * e7) - (2 ^ 64 * e8) - (2 ^ 72 * e9)
    - (2 ^ 80 * e10) - (2 ^ 88 * e11) - (2 ^ 96 * e12) - (2 ^ 104 * e13) - (2 ^ 112 * e14)
    - (2 ^ 120 * e15) - (2 ^ 128 * e16) - (2 ^ 136 * e17) - (2 ^ 144 * e18) - (2 ^ 152 * e19)
    - (2 ^ 160 * e20) - (2 ^ 168 * e21) - (2 ^ 176 * e22) - (2 ^ 184 * e23) - (2 ^ 192 * e24)
    - (2 ^ 200 * e25) - (2 ^ 208 * e26) - (2 ^ 216 * e27) - (2 ^ 224 * e28) - (2 ^ 232 * e29)
    - (2 ^ 240 * e30) - (2 ^ 248 * e31) - (2 ^ 256 * h32)

/-- The base-256 digits of a number below `2^256` add up to it. -/
theorem le_bytes_sum (n : Nat) (hn : n < 2 ^ 256) :
    n / 2 ^ (8 * 0) % 256 + n / 2 ^ (8 * 1) % 256 * 2 ^ 8 + n / 2 ^ (8 * 2) % 256 * 2 ^ 16 +
    n / 2 ^ (8 * 3) % 256 * 2 ^ 24 + n / 2 ^ (8 * 4) % 256 * 2 ^ 32 +
    n / 2 ^ (8 * 5) % 256 * 2 ^ 40 + n / 2 ^ (8 * 6) % 256 * 2 ^ 48 +
    n / 2 ^ (8 * 7) % 256 * 2 ^ 56 + n / 2 ^ (8 * 8) % 256 * 2 ^ 64 +
    n / 2 ^ (8 * 9) % 256 * 2 ^ 72 + n / 2 ^ (8 * 10) % 256 * 2 ^ 80 +
    n / 2 ^ (8 * 11) % 256 * 2 ^ 88 + n / 2 ^ (8 * 12) % 256 * 2 ^ 96 +
    n / 2 ^ (8 * 13) % 256 * 2 ^ 104 + n / 2 ^ (8 * 14) % 256 * 2 ^ 112 +
    n / 2 ^ (8 * 15) % 256 * 2 ^ 120 + n / 2 ^ (8 * 16) % 256 * 2 ^ 128 +
    n / 2 ^ (8 * 17) % 256 * 2 ^ 136 + n / 2 ^ (8 * 18) % 256 * 2 ^ 144 +
    n / 2 ^ (8 * 19) % 256 * 2 ^ 152 + n / 2 ^ (8 * 20) % 256 * 2 ^ 160 +
    n / 2 ^ (8 * 21) % 256 * 2 ^ 168 + n / 2 ^ (8 * 22) % 256 * 2 ^ 176 +
    n / 2 ^ (8 * 23) % 256 * 2 ^ 184 + n / 2 ^ (8 * 24) % 256 * 2 ^ 192 +
    n / 2 ^ (8 * 25) % 256 * 2 ^ 200 + n / 2 ^ (8 * 26) % 256 * 2 ^ 208 +
    n / 2 ^ (8 * 27) % 256 * 2 ^ 216 + n / 2 ^ (8 * 28) % 256 * 2 ^ 224 +
    n / 2 ^ (8 * 29) % 256 * 2 ^ 232 + n / 2 ^ (8 * 30) % 256 * 2 ^ 240 +
    n / 2 ^ (8 * 31) % 256 * 2 ^ 248 = n := by
  have h0 : n / 2 ^ (8 * 0) = n := by simp
  have h32 : n / 2 ^ (8 * 32) = 0 := Nat.div_eq_of_lt hn
  have step : ∀ j : Nat, n / 2 ^ (8 * j) = 256 * (n / 2 ^ (8 * (j + 1))) + n / 2 ^ (8 * j) % 256 := by
    intro j
    rw [show 8 * (j + 1) = 8 * j + 8 by ring, pow_add, ← Nat.div_div_eq_div_mul]
    exact (Nat.div_add_mod _ 256).symm
  have key := le_bytes_core (n / 2 ^ (8 * 0))
    (n / 2 ^ (8 * 1)) (n / 2 ^ (8 * 2)) (n / 2 ^ (8 * 3)) (n / 2 ^ (8 * 4)) (n / 2 ^ (8 * 5))
    (n / 2 ^ (8 * 6)) (n / 2 ^ (8 * 7)) (n / 2 ^ (8 * 8)) (n / 2 ^ (8 * 9)) (n / 2 ^ (8 * 10))
    (n / 2 ^ (8 * 11)) (n / 2 ^ (8 * 12)) (n / 2 ^ (8 * 13)) (n / 2 ^ (8 * 14))
    (n / 2 ^ (8 * 15)) (n / 2 ^ (8 * 16)) (n / 2 ^ (8 * 17)) (n / 2 ^ (8 * 18))
    (n / 2 ^ (8 * 19)) (n / 2 ^ (8 * 20)) (n / 2 ^ (8 * 21)) (n / 2 ^ (8 * 22))
    (n / 2 ^ (8 * 23)) (n / 2 ^ (8 * 24)) (n / 2 ^ (8 * 25)) (n / 2 ^ (8 * 26))
    (n / 2 ^ (8 * 27)) (n / 2 ^ (8 * 28)) (n / 2 ^ (8 * 29)) (n / 2 ^ (8 * 30))
    (n / 2 ^ (8 * 31)) (n / 2 ^ (8 * 32))
    _ _ _ _ _ _ _ _ _ _ _ _ _ _ _ _ _ _ _ _ _ _ _ _ _ _ _ _ _ _ _ _
    (step 0) (step 1) (step 2) (step 3) (step 4) (step 5) (step 6) (step 7) (step 8) (step 9)
    (step 10) (step 11) (step 12) (step 13) (step 14) (step 15) (step 16) (step 17) (step 18)
    (step 19) (step 20) (step 21) (step 22) (step 23) (step 24) (step 25) (step 26) (step 27)
    (step 28) (step 29) (step 30) (step 31) h32
  exact key.trans h0

/-- A byte array that lists the base-256 digits of `n < 2^256` holds the integer `n`. -/
theorem bytes_eval_of_le_bytes (b : Bytes32) (n : Nat) (hn : n < 2 ^ 256)
    (h : b.toList = le_bytes n) : bytes_eval b = n := by
  simp only [Bytes32.toList, le_bytes, range32, List.map_cons, List.map_nil, List.cons.injEq,
    and_true] at h
  obtain ⟨f0, f1, f2, f3, f4, f5, f6, f7, f8, f9, f10, f11, f12, f13, f14, f15, f16,
    f17, f18, f19, f20, f21, f22, f23, f24, f25, f26, f27, f28, f29, f30, f31⟩ := h
  rw [bytes_eval, f0, f1, f2, f3, f4, f5, f6, f7, f8, f9, f10, f11, f12,
    f13, f14, f15, f16, f17, f18, f19, f20, f21, f22, f23, f24, f25, f26, f27, f28,
    f29, f30, f31]
  exact le_bytes_sum n hn

/-- A byte array that lists base-256 digits consists of bytes. -/
theorem isBytes_of_le_bytes (b : Bytes32) (n : Nat) (h : b.toList = le_bytes n) : IsBytes b := by
  intro x hx
  rw [h, le_bytes, List.mem_map] at hx
  obtain ⟨j, _, rfl⟩ := hx
  exact Nat.mod_lt _ (by decide)

theorem isBytes_iff (b : Bytes32) : IsBytes b ↔
    (b.b0 ≤ 255 ∧ b.b1 ≤ 255 ∧ b.b2 ≤ 255 ∧ b.b3 ≤ 255 ∧ b.b4 ≤ 255 ∧ b.b5 ≤ 255 ∧ b.b6 ≤ 255 ∧
     b.b7 ≤ 255 ∧ b.b8 ≤ 255 ∧ b.b9 ≤ 255 ∧ b.b10 ≤ 255 ∧ b.b11 ≤ 255 ∧ b.b12 ≤ 255 ∧
     b.b13 ≤ 255 ∧ b.b14 ≤ 255 ∧ b.b15 ≤ 255 ∧ b.b16 ≤ 255 ∧ b.b17 ≤ 255 ∧ b.b18 ≤ 255 ∧
     b.b19 ≤ 255 ∧ b.b20 ≤ 255 ∧ b.b21 ≤ 255 ∧ b.b22 ≤ 255 ∧ b.b23 ≤ 255 ∧ b.b24 ≤ 255 ∧
     b.b25 ≤ 255 ∧ b.b26 ≤ 255 ∧ b.b27 ≤ 255 ∧ b.b28 ≤ 255 ∧ b.b29 ≤ 255 ∧ b.b30 ≤ 255 ∧
     b.b31 ≤ 255) := by
  simp only [IsBytes, Bytes32.toList, List.forall_mem_cons, List.not_mem_nil, false_imp_iff,
    implies_true, and_true, Nat.lt_succ_iff (n := 255)]

set_option maxRecDepth 100000 in
/-- On bytes no operation of `fiat_25519_from_bytes` wraps. -/
theorem from_bytes_eq_ideal (b : Bytes32) (h : IsBytes b) :
    fiat_25519_from_bytes b = from_bytes_ideal b := by
  obtain ⟨h0, h1, h2, h3, h4, h5, h6, h7, h8, h9, h10, h11, h12, h13, h14, h15, h16, h17, h18,
    h19, h20, h21, h22, h23, h24, h25, h26, h27, h28, h29, h30, h31⟩ := (isBytes_iff b).mp h
  simp (disch := (apply lt_of_bound
                  case h =>
                    repeat (first
                      | with_reducible assumption
                      | with_reducible apply Nat.add_le_add
                      | with_reducible apply Nat.mul_le_mul
                      | with_reducible apply Nat.div_le_div_right
                      | with_reducible apply mod_le_pred _ _ (by decide)
                      | exact Nat.le_refl _)
                  case hB => decide))
    only [fiat_25519_from_bytes, from_bytes_ideal, add32_eq, shl32_eq, u8_eq,
      Nat.shiftRight_eq_div_pow, and_mask26, and_mask25]

theorem from_bytes_core (b0 b1 b2 b3 b4 b5 b6 b7 b8 b9 b10 b11 b12 b13 b14 b15 b16 b17 b18 b19
    b20 b21 b22 b23 b24 b25 b26 b27 b28 b29 b30 b31 : Nat)
    (y0 y1 y2 y3 y4 y5 y6 y7 y8 y9 c0 c1 c2 c3 c5 c6 c7 c8 r0 r1 r2 r3 r5 r6 r7 r8 : Nat)
    (e0 : 2 ^ 26 * c0 + r0 = y0) (e1 : 2 ^ 25 * c1 + r1 = y1) (e2 : 2 ^ 26 * c2 + r2 = y2)
    (e3 : 2 ^ 25 * c3 + r3 = y3) (e5 : 2 ^ 25 * c5 + r5 = y5) (e6 : 2 ^ 26 * c6 + r6 = y6)
    (e7 : 2 ^ 25 * c7 + r7 = y7) (e8 : 2 ^ 26 * c8 + r8 = y8)
    (g0 : y0 = b3 * 2 ^ 24 + (b2 * 2 ^ 16 + (b1 * 2 ^ 8 + b0)))
    (g1 : y1 = b6 * 2 ^ 22 + (b5 * 2 ^ 14 + (b4 * 2 ^ 6 + c0)))
    (g2 : y2 = b9 * 2 ^ 21 + (b8 * 2 ^ 13 + (b7 * 2 ^ 5 + c1)))
    (g3 : y3 = b12 * 2 ^ 19 + (b11 * 2 ^ 11 + (b10 * 2 ^ 3 + c2)))
    (g4 : y4 = b15 * 2 ^ 18 + (b14 * 2 ^ 10 + (b13 * 2 ^ 2 + c3)))
    (g5 : y5 = b19 * 2 ^ 24 + (b18 * 2 ^ 16 + (b17 * 2 ^ 8 + b16)))
    (g6 : y6 = b22 * 2 ^ 23 + (b21 * 2 ^ 15 + (b20 * 2 ^ 7 + c5)))
    (g7 : y7 = b25 * 2 ^ 21 + (b24 * 2 ^ 13 + (b23 * 2 ^ 5 + c6)))
    (g8 : y8 = b28 * 2 ^ 20 + (b27 * 2 ^ 12 + (b26 * 2 ^ 4 + c7)))
    (g9 : y9 = b31 * 2 ^ 18 + (b30 * 2 ^ 10 + (b29 * 2 ^ 2 + c8))) :
    r0 + r1 * 2 ^ 26 + r2 * 2 ^ 51 + r3 * 2 ^ 77 + y4 * 2 ^ 102 + r5 * 2 ^ 128 +
      r6 * 2 ^ 153 + r7 * 2 ^ 179 + r8 * 2 ^ 204 + y9 * 2 ^ 230 =
    b0 + b1 * 2 ^ 8 + b2 * 2 ^ 16 + b3 * 2 ^ 24 + b4 * 2 ^ 32 + b5 * 2 ^ 40 +
      b6 * 2 ^ 48 + b7 * 2 ^ 56 + b8 * 2 ^ 64 + b9 * 2 ^ 72 + b10 * 2 ^ 80 +
      b11 * 2 ^ 88 + b12 * 2 ^ 96 + b13 * 2 ^ 104 + b14 * 2 ^ 112 + b15 * 2 ^ 120 +
      b16 * 2 ^ 128 + b17 * 2 ^ 136 + b18 * 2 ^ 144 + b19 * 2 ^ 152 + b20 * 2 ^ 160 +
      b21 * 2 ^ 168 + b22 * 2 ^ 176 + b23 * 2 ^ 184 + b24 * 2 ^ 192 + b25 * 2 ^ 200 +
      b26 * 2 ^ 208 + b27 * 2 ^ 216 + b28 * 2 ^ 224 + b29 * 2 ^ 232 + b30 * 2 ^ 240 +
      b31 * 2 ^ 248 := by
  zify at *
  linear_combination e0 + 2 ^ 26 * e1 + 2 ^ 51 * e2 + 2 ^ 77 * e3 + 2 ^ 128 * e5 + 2 ^ 153 * e6
    + 2 ^ 179 * e7 + 2 ^ 204 * e8 + g0 + 2 ^ 26 * g1 + 2 ^ 51 * g2 + 2 ^ 77 * g3 + 2 ^ 102 * g4
    + 2 ^ 128 * g5 + 2 ^ 153 * g6 + 2 ^ 179 * g7 + 2 ^ 204 * g8 + 2 ^ 230 * g9

/-- The decoder without wrap-around returns limbs whose value is the little-endian integer. -/
theorem from_bytes_ideal_eval (b : Bytes32) : eval (from_bytes_ideal b) = bytes_eval b := by
  simp only [from_bytes_ideal, eval, bytes_eval]
  exact from_bytes_core _ _ _ _ _ _ _ _ _ _ _ _ _ _ _ _ _ _ _ _ _ _ _ _ _ _ _ _ _ _ _ _
    _ _ _ _ _ _ _ _ _ _ _ _ _ _ _ _ _ _ _ _ _ _ _ _ _ _
    (Nat.div_add_mod _ _) (Nat.div_add_mod _ _) (Nat.div_add_mod _ _) (Nat.div_add_mod _ _)
    (Nat.div_add_mod _ _) (Nat.div_add_mod _ _) (Nat.div_add_mod _ _) (Nat.div_add_mod _ _)
    rfl rfl rfl rfl rfl rfl rfl rfl rfl rfl


/-- The decoder without wrap-around returns proper digits when byte 31 is at most `0x7f`. -/
theorem from_bytes_ideal_digits (b : Bytes32) (h : IsBytes b) (h31 : b.b31 ≤ 0x7f) :
    Digits (from_bytes_ideal b) := by
  obtain ⟨h0, h1, h2, h3, h4, h5, h6, h7, h8, h9, h10, h11, h12, h13, h14, h15, h16, h17, h18,
    h19, h20, h21, h22, h23, h24, h25, h26, h27, h28, h29, h30, h255⟩ := (isBytes_iff b).mp h
  clear h255 h
  have m26 : ∀ x : Nat, x % 2 ^ 26 < 2 ^ 26 := fun x => Nat.mod_lt _ (by decide)
  have m25 : ∀ x : Nat, x % 2 ^ 25 < 2 ^ 25 := fun x => Nat.mod_lt _ (by decide)
  simp only [Digits, from_bytes_ideal]
  refine ⟨m26 _, m25 _, m26 _, m25 _, ?_, m25 _, m26 _, m25 _, m26 _, ?_⟩ <;>
  · apply lt_of_bound
    case h =>
      repeat (first
        | with_reducible assumption
        | with_reducible apply Nat.add_le_add
        | with_reducible apply Nat.mul_le_mul
        | with_reducible apply Nat.div_le_div_right
        | exact Nat.le_refl _)
    case hB => decide

theorem tight_of_digits (x : Limbs) (h : Digits x) : Tight x := by
  simp only [Digits, Tight] at *
  omega

theorem eval_lt_of_digits (x : Limbs) (h : Digits x) : eval x < 2 ^ 255 := by
  obtain ⟨h0, h1, h2, h3, h4, h5, h6, h7, h8, h9⟩ := h
  exact digits_lt _ _ _ _ _ _ _ _ _ _ h0 h1 h2 h3 h4 h5 h6 h7 h8 h9

theorem p_lt : p < 2 ^ 255 := by
  rw [p_val]
  decide

/-- On tight input `to_bytes` lists the base-256 digits of `eval a % p`. -/
theorem to_bytes_le_bytes (a : Limbs) (h : Tight a) :
    (fiat_25519_to_bytes a).toList = le_bytes (eval a % p) := by
  obtain ⟨hd, he⟩ := to_bytes_canon_spec a h
  rw [to_bytes_unfold, pack_eq_ideal _ hd, pack_ideal_spec _ hd, he]

theorem le_bytes_31 (b : Bytes32) (n : Nat) (h : b.toList = le_bytes n) :
    b.b31 = n / 2 ^ 248 % 256 := by
  simp only [Bytes32.toList, le_bytes, range32, List.map_cons, List.map_nil, List.cons.injEq,
    and_true] at h
  exact h.2.2.2.2.2.2.2.2.2.2.2.2.2.2.2.2.2.2.2.2.2.2.2.2.2.2.2.2.2.2.2

/-- On tight input `to_bytes` holds the integer `eval a % p`. -/
theorem to_bytes_eval (a : Limbs) (h : Tight a) :
    bytes_eval (fiat_25519_to_bytes a) = eval a % p :=
  bytes_eval_of_le_bytes _ _
    (Nat.lt_trans (Nat.mod_lt _ (by rw [p_val]; decide)) (Nat.lt_trans p_lt (by decide)))
    (to_bytes_le_bytes a h)

theorem to_bytes_top (a : Limbs) (h : Tight a) : (fiat_25519_to_bytes a).b31 ≤ 0x7f := by
  rw [le_bytes_31 _ _ (to_bytes_le_bytes a h)]
  have h1 : eval a % p < p := Nat.mod_lt _ (by rw [p_val]; decide)
  have h2 := p_lt
  omega

/-- On bytes `from_bytes` returns limbs whose value is the little-endian integer. -/
theorem from_bytes_eval (b : Bytes32) (h : IsBytes b) :
    eval (fiat_25519_from_bytes b) = bytes_eval b := by
  rw [from_bytes_eq_ideal b h, from_bytes_ideal_eval]

theorem bytes_eval_lt (b : Bytes32) (h : IsBytes b) (h31 : b.b31 ≤ 0x7f) :
    bytes_eval b < 2 ^ 255 := by
  obtain ⟨h0, h1, h2, h3, h4, h5, h6, h7, h8, h9, h10, h11, h12, h13, h14, h15, h16, h17, h18,
    h19, h20, h21, h22, h23, h24, h25, h26, h27, h28, h29, h30, _⟩ := (isBytes_iff b).mp h
  simp only [bytes_eval]
  omega

theorem clear_top_bit_of_le (b : Bytes32) (h31 : b.b31 ≤ 0x7f) : clear_top_bit b = b := by
  obtain ⟨b0, b1, b2, b3, b4, b5, b6, b7, b8, b9, b10, b11, b12, b13, b14, b15, b16, b17, b18,
    b19, b20, b21, b22, b23, b24, b25, b26, b27, b28, b29, b30, b31⟩ := b
  simp only [clear_top_bit, Bytes32.mk.injEq, true_and]
  simp only at h31
  omega

set_option maxRecDepth 100000 in
theorem to_bytes_zero : fiat_25519_to_bytes ⟨0, 0, 0, 0, 0, 0, 0, 0, 0, 0⟩ = zero_bytes := by
  decide

/-! ## The claims on the byte codec -/

/-- C6: for tight `a` the output of `fiat_25519_to_bytes a` is the 32-byte little-endian
encoding of `eval a % p`: byte `j` is `⌊(eval a % p) / 2^(8 j)⌋ % 256` for `j = 0..31`; and
the all-zero limb vector encodes to 32 zero bytes. -/
theorem fiat_25519_to_bytes_correct :
    (∀ a : fiat_25519_tight_field_element, Tight a →
      (fiat_25519_to_bytes a).toList =
        (List.range 32).map (fun j => eval a % p / 2 ^ (8 * j) % 256)) ∧
    fiat_25519_to_bytes ⟨0, 0, 0, 0, 0, 0, 0, 0, 0, 0⟩ = zero_bytes :=
  ⟨fun a h => to_bytes_le_bytes a h, to_bytes_zero⟩

theorem fiat_25519_to_bytes_correct_witness :
    Tight ⟨0x4000000, 0x2000000, 0x4000000, 0x2000000, 0x4000000, 0x2000000, 0x4000000,
      0x2000000, 0x4000000, 0x2000000⟩ ∧
    (fiat_25519_to_bytes ⟨0x4000000, 0x2000000, 0x4000000, 0x2000000, 0x4000000, 0x2000000,
      0x4000000, 0x2000000, 0x4000000, 0x2000000⟩).toList =
      (List.range 32).map (fun j => eval ⟨0x4000000, 0x2000000, 0x4000000, 0x2000000,
        0x4000000, 0x2000000, 0x4000000, 0x2000000, 0x4000000, 0x2000000⟩ % p /
        2 ^ (8 * j) % 256) :=
  ⟨by decide, fiat_25519_to_bytes_correct.1 _ (by decide)⟩

/-- C7: for tight `a` the bytes of `fiat_25519_to_bytes a`, read as a little-endian integer,
are strictly below `p`, and byte 31 is at most `0x7f`. -/
theorem fiat_25519_to_bytes_canonical (a : fiat_25519_tight_field_element) (h : Tight a) :
    bytes_eval (fiat_25519_to_bytes a) < p ∧ (fiat_25519_to_bytes a).b31 ≤ 0x7f := by
  refine ⟨?_, to_bytes_top a h⟩
  rw [to_bytes_eval a h]
  exact Nat.mod_lt _ (by rw [p_val]; decide)

theorem fiat_25519_to_bytes_canonical_witness :
    Tight ⟨0x3ffffed, 0x1ffffff, 0x3ffffff, 0x1ffffff, 0x3ffffff, 0x1ffffff, 0x3ffffff,
      0x1ffffff, 0x3ffffff, 0x1ffffff⟩ ∧
    bytes_eval (fiat_25519_to_bytes ⟨0x3ffffed, 0x1ffffff, 0x3ffffff, 0x1ffffff, 0x3ffffff,
      0x1ffffff, 0x3ffffff, 0x1ffffff, 0x3ffffff, 0x1ffffff⟩) < p ∧
    (fiat_25519_to_bytes ⟨0x3ffffed, 0x1ffffff, 0x3ffffff, 0x1ffffff, 0x3ffffff,
      0x1ffffff, 0x3ffffff, 0x1ffffff, 0x3ffffff, 0x1ffffff⟩).b31 ≤ 0x7f :=
  ⟨by decide, fiat_25519_to_bytes_canonical _ (by decide)⟩

/-- C8: for 32 bytes `b` with byte 31 at most `0x7f`, `b` encodes an integer `n < 2^255`,
every even limb of `fiat_25519_from_bytes b` is below `2^26` and every odd limb below `2^25`,
so the result is tight, and its value is `n`, hence congruent to `n` modulo `p`; and 32 zero
bytes decode to the all-zero limb vector. -/
theorem fiat_25519_from_bytes_correct :
    (∀ b : Bytes32, IsBytes b → b.b31 ≤ 0x7f →
      bytes_eval b < 2 ^ 255 ∧ Digits (fiat_25519_from_bytes b) ∧
      Tight (fiat_25519_from_bytes b) ∧ eval (fiat_25519_from_bytes b) = bytes_eval b ∧
      eval (fiat_25519_from_bytes b) % p = bytes_eval b % p) ∧
    fiat_25519_from_bytes zero_bytes = ⟨0, 0, 0, 0, 0, 0, 0, 0, 0, 0⟩ := by
  refine ⟨fun b h h31 => ?_, by decide⟩
  have hd : Digits (fiat_25519_from_bytes b) := by
    rw [from_bytes_eq_ideal b h]
    exact from_bytes_ideal_digits b h h31
  exact ⟨bytes_eval_lt b h h31, hd, tight_of_digits _ hd, from_bytes_eval b h,
    by rw [from_bytes_eval b h]⟩

theorem fiat_25519_from_bytes_correct_witness :
    IsBytes (clear_top_bit top_byte_ff) ∧ (clear_top_bit top_byte_ff).b31 ≤ 0x7f ∧
    eval (fiat_25519_from_bytes (clear_top_bit top_byte_ff)) =
      bytes_eval (clear_top_bit top_byte_ff) :=
  ⟨by decide, by decide,
    (fiat_25519_from_bytes_correct.1 _ (by decide) (by decide)).2.2.2.1⟩

/-- C9, as stated, fails: with byte 31 equal to `0xff` the decoder keeps the top bit, so the
result differs from that for the input with the bit cleared, its value is not the input taken
modulo `2^255`, and it is not tight. -/
theorem fiat_25519_from_bytes_top_bit_kept :
    IsBytes top_byte_ff ∧
    fiat_25519_from_bytes top_byte_ff ≠ fiat_25519_from_bytes (clear_top_bit top_byte_ff) ∧
    eval (fiat_25519_from_bytes top_byte_ff) ≠ bytes_eval top_byte_ff % 2 ^ 255 ∧
    ¬ Tight (fiat_25519_from_bytes top_byte_ff) := by
  decide

/-- C9, amended: `fiat_25519_from_bytes` does not mask byte 31.  For every 32 bytes `b` the
result evaluates to the full little-endian integer of `b`; when bit 7 of byte 31 is clear
(byte 31 at most `0x7f`, the input bound the header documents) the result equals that for
`b` with the bit cleared, evaluates to the input taken modulo `2^255`, and is tight. -/
theorem fiat_25519_from_bytes_top_bit (b : Bytes32) (h : IsBytes b) :
    eval (fiat_25519_from_bytes b) = bytes_eval b ∧
    (b.b31 ≤ 0x7f →
      fiat_25519_from_bytes b = fiat_25519_from_bytes (clear_top_bit b) ∧
      eval (fiat_25519_from_bytes b) = bytes_eval b % 2 ^ 255 ∧
      Tight (fiat_25519_from_bytes b)) := by
  refine ⟨from_bytes_eval b h, fun h31 => ⟨by rw [clear_top_bit_of_le b h31], ?_, ?_⟩⟩
  · rw [from_bytes_eval b h, Nat.mod_eq_of_lt (bytes_eval_lt b h h31)]
  · apply tight_of_digits
    rw [from_bytes_eq_ideal b h]
    exact from_bytes_ideal_digits b h h31

theorem fiat_25519_from_bytes_top_bit_witness :
    IsBytes p_minus_one_bytes ∧ p_minus_one_bytes.b31 ≤ 0x7f ∧
    eval (fiat_25519_from_bytes p_minus_one_bytes) = bytes_eval p_minus_one_bytes ∧
    fiat_25519_from_bytes p_minus_one_bytes =
      fiat_25519_from_bytes (clear_top_bit p_minus_one_bytes) ∧
    eval (fiat_25519_from_bytes p_minus_one_bytes) = bytes_eval p_minus_one_bytes % 2 ^ 255 ∧
    Tight (fiat_25519_from_bytes p_minus_one_bytes) :=
  ⟨by decide, by decide, (fiat_25519_from_bytes_top_bit p_minus_one_bytes (by decide)).1,
    (fiat_25519_from_bytes_top_bit p_minus_one_bytes (by decide)).2 (by decide)⟩

/-- C10: for tight `a`, decoding the encoding gives limbs whose value is `eval a % p`, the
canonical representative in `[0, p)` of the value `a` stood for. -/
theorem fiat_25519_from_bytes_to_bytes (a : fiat_25519_tight_field_element) (h : Tight a) :
    eval (fiat_25519_from_bytes (fiat_25519_to_bytes a)) = eval a % p := by
  rw [from_bytes_eval _ (isBytes_of_le_bytes _ _ (to_bytes_le_bytes a h)), to_bytes_eval a h]

theorem fiat_25519_from_bytes_to_bytes_witness :
    Tight ⟨0x4000000, 0x2000000, 0x4000000, 0x2000000, 0x4000000, 0x2000000, 0x4000000,
      0x2000000, 0x4000000, 0x2000000⟩ ∧
    eval (fiat_25519_from_bytes (fiat_25519_to_bytes ⟨0x4000000, 0x2000000, 0x4000000,
      0x2000000, 0x4000000, 0x2000000, 0x4000000, 0x2000000, 0x4000000, 0x2000000⟩)) =
    eval ⟨0x4000000, 0x2000000, 0x4000000, 0x2000000, 0x4000000, 0x2000000, 0x4000000,
      0x2000000, 0x4000000, 0x2000000⟩ % p :=
  ⟨by decide, fiat_25519_from_bytes_to_bytes _ (by decide)⟩

/-! ## Addition, subtraction and negation -/

theorem sub32_eq {a b : Nat} (h : b ≤ a) (ha : a < 2 ^ 32) : sub32 a b = a - b := by
  simp only [sub32]
  omega

/-- On tight operands no addition of `fiat_25519_add` wraps. -/
theorem add_exact (a b : Limbs) (ha : Tight a) (hb : Tight b) :
    fiat_25519_add a b =
      ⟨a.v0 + b.v0, a.v1 + b.v1, a.v2 + b.v2, a.v3 + b.v3, a.v4 + b.v4, a.v5 + b.v5,
        a.v6 + b.v6, a.v7 + b.v7, a.v8 + b.v8, a.v9 + b.v9⟩ := by
  obtain ⟨h0, h1, h2, h3, h4, h5, h6, h7, h8, h9⟩ := ha
  obtain ⟨g0, g1, g2, g3, g4, g5, g6, g7, g8, g9⟩ := hb
  simp only [fiat_25519_add, add32, Limbs.mk.injEq]
  refine ⟨?_, ?_, ?_, ?_, ?_, ?_, ?_, ?_, ?_, ?_⟩ <;> omega

/-- On tight operands no operation of `fiat_25519_sub` wraps or underflows. -/
theorem sub_exact (a b : Limbs) (ha : Tight a) (hb : Tight b) :
    fiat_25519_sub a b =
      ⟨0x7ffffda + a.v0 - b.v0, 0x3fffffe + a.v1 - b.v1, 0x7fffffe + a.v2 - b.v2,
        0x3fffffe + a.v3 - b.v3, 0x7fffffe + a.v4 - b.v4, 0x3fffffe + a.v5 - b.v5,
        0x7fffffe + a.v6 - b.v6, 0x3fffffe + a.v7 - b.v7, 0x7fffffe + a.v8 - b.v8,
        0x3fffffe + a.v9 - b.v9⟩ := by
  obtain ⟨h0, h1, h2, h3, h4, h5, h6, h7, h8, h9⟩ := ha
  obtain ⟨g0, g1, g2, g3, g4, g5, g6, g7, g8, g9⟩ := hb
  simp only [fiat_25519_sub, add32, sub32, Limbs.mk.injEq]
  refine ⟨?_, ?_, ?_, ?_, ?_, ?_, ?_, ?_, ?_, ?_⟩ <;> omega

/-- On a tight operand no subtraction of `fiat_25519_opp` underflows. -/
theorem opp_exact (a : Limbs) (ha : Tight a) :
    fiat_25519_opp a =
      ⟨0x7ffffda - a.v0, 0x3fffffe - a.v1, 0x7fffffe - a.v2, 0x3fffffe - a.v3,
        0x7fffffe - a.v4, 0x3fffffe - a.v5, 0x7fffffe - a.v6, 0x3fffffe - a.v7,
        0x7fffffe - a.v8, 0x3fffffe - a.v9⟩ := by
  obtain ⟨h0, h1, h2, h3, h4, h5, h6, h7, h8, h9⟩ := ha
  simp only [fiat_25519_opp, sub32, Limbs.mk.injEq]
  refine ⟨?_, ?_, ?_, ?_, ?_, ?_, ?_, ?_, ?_, ?_⟩ <;> omega

theorem add_loose (a b : Limbs) (ha : Tight a) (hb : Tight b) : Loose (fiat_25519_add a b) := by
  rw [add_exact a b ha hb]
  simp only [Tight, Loose] at *
  omega

theorem sub_loose (a b : Limbs) (ha : Tight a) (hb : Tight b) : Loose (fiat_25519_sub a b) := by
  rw [sub_exact a b ha hb]
  simp only [Tight, Loose] at *
  omega

theorem opp_loose (a : Limbs) (ha : Tight a) : Loose (fiat_25519_opp a) := by
  rw [opp_exact a ha]
  simp only [Tight, Loose] at *
  omega

theorem eval_add (a b : Limbs) (ha : Tight a) (hb : Tight b) :
    eval (fiat_25519_add a b) = eval a + eval b := by
  rw [add_exact a b ha hb]
  simp only [eval]
  ring

/-- The bias of `fiat_25519_sub` has the value `2 * p`. -/
theorem eval_sub (a b : Limbs) (ha : Tight a) (hb : Tight b) :
    eval (fiat_25519_sub a b) + eval b = eval a + 2 * p := by
  rw [sub_exact a b ha hb]
  simp only [Tight, eval, p_val] at *
  omega

/-- The bias of `fiat_25519_opp` has the value `2 * p`. -/
theorem eval_opp (a : Limbs) (ha : Tight a) : eval (fiat_25519_opp a) + eval a = 2 * p := by
  rw [opp_exact a ha]
  simp only [Tight, eval, p_val] at *
  omega

theorem carry_mod (x : Limbs) (hx : Loose x) : eval (fiat_25519_carry x) % p = eval x % p := by
  rw [carry_eq_chain x hx, mod_p_of_add_mul (chain_eval x)]

/-- A natural number congruent to `y - z + 2 p` is, as an integer, congruent to `y - z`. -/
theorem int_mod_of_add_two_p {x y z : Nat} (h : x % p = (y + 2 * p - z) % p) (hz : z ≤ y + 2 * p) :
    (x : Int) % (p : Int) = ((y : Int) - (z : Int)) % (p : Int) := by
  have h1 : ((x % p : Nat) : Int) = (((y + 2 * p - z) % p : Nat) : Int) := by rw [h]
  rw [Int.natCast_mod, Int.natCast_mod, Nat.cast_sub hz] at h1
  rw [h1]
  push_cast
  rw [show (y : Int) + 2 * (p : Int) - (z : Int) = (y : Int) - (z : Int) + (p : Int) * 2 by ring,
    Int.add_mul_emod_self_left]

/-! ## Scalar multiplication by 121666 -/

set_option maxRecDepth 100000 in
/-- Under the loose bounds no operation of `fiat_25519_carry_scmul_121666` wraps. -/
theorem carry_scmul_eq_chain (a : Limbs) (h : Loose a) :
    fiat_25519_carry_scmul_121666 a = chain (scmul_acc a) := by
  obtain ⟨h0, h1, h2, h3, h4, h5, h6, h7, h8, h9⟩ := h
  simp (disch := (apply lt_of_bound
                  case h =>
                    repeat (first
                      | with_reducible assumption
                      | with_reducible apply Nat.add_le_add
                      | with_reducible apply Nat.mul_le_mul
                      | with_reducible apply Nat.div_le_div_right
                      | with_reducible apply mod_le_pred _ _ (by decide)
                      | exact Nat.le_refl _)
                  case hB => decide))
    only [fiat_25519_carry_scmul_121666, chain, scmul_acc, add32_eq, mul32_eq, add64_eq,
      mul64_eq, u32_eq, uint1_eq, Nat.shiftRight_eq_div_pow, and_mask26, and_mask25]

theorem scmul_acc_bound (a : Limbs) (h : Loose a) : Acc63 (scmul_acc a) := by
  simp only [Loose, Acc63, scmul_acc] at *
  omega

theorem scmul_acc_eval (a : Limbs) : eval (scmul_acc a) = 121666 * eval a := by
  simp only [eval, scmul_acc]
  ring

/-! ## Re-encoding -/

theorem toList_injective (b c : Bytes32) (h : b.toList = c.toList) : b = c := by
  obtain ⟨b0, b1, b2, b3, b4, b5, b6, b7, b8, b9, b10, b11, b12, b13, b14, b15, b16, b17, b18,
    b19, b20, b21, b22, b23, b24, b25, b26, b27, b28, b29, b30, b31⟩ := b
  obtain ⟨c0, c1, c2, c3, c4, c5, c6, c7, c8, c9, c10, c11, c12, c13, c14, c15, c16, c17, c18,
    c19, c20, c21, c22, c23, c24, c25, c26, c27, c28, c29, c30, c31⟩ := c
  simp only [Bytes32.toList, List.cons.injEq, and_true] at h
  simp only [Bytes32.mk.injEq]
  exact h

/-- Decoding the output of `to_bytes` gives a tight element. -/
theorem from_bytes_to_bytes_tight (a : Limbs) (h : Tight a) :
    Tight (fiat_25519_from_bytes (fiat_25519_to_bytes a)) := by
  have hb := isBytes_of_le_bytes _ _ (to_bytes_le_bytes a h)
  apply tight_of_digits
  rw [from_bytes_eq_ideal _ hb]
  exact from_bytes_ideal_digits _ hb (to_bytes_top a h)

theorem from_bytes_to_bytes_eval (a : Limbs) (h : Tight a) :
    eval (fiat_25519_from_bytes (fiat_25519_to_bytes a)) = eval a % p := by
  rw [from_bytes_eval _ (isBytes_of_le_bytes _ _ (to_bytes_le_bytes a h)), to_bytes_eval a h]

/-! ## The claims on re-encoding, the linear operators, the scalar multiple and the select -/

/-- C11: for tight `a`, re-encoding is a fixed point:
`to_bytes (from_bytes (to_bytes a)) = to_bytes a`, byte for byte. -/
theorem fiat_25519_to_bytes_fixed_point (a : fiat_25519_tight_field_element) (h : Tight a) :
    fiat_25519_to_bytes (fiat_25519_from_bytes (fiat_25519_to_bytes a)) =
      fiat_25519_to_bytes a := by
  apply toList_injective
  rw [to_bytes_le_bytes _ (from_bytes_to_bytes_tight a h), from_bytes_to_bytes_eval a h,
    Nat.mod_mod, to_bytes_le_bytes a h]

theorem fiat_25519_to_bytes_fixed_point_witness :
    Tight tight_max ∧
    fiat_25519_to_bytes (fiat_25519_from_bytes (fiat_25519_to_bytes tight_max)) =
      fiat_25519_to_bytes tight_max :=
  ⟨by decide, fiat_25519_to_bytes_fixed_point tight_max (by decide)⟩

/-- C12: for tight `a`, `b` the value of `carry (add a b)` is congruent to `eval a + eval b`
modulo `p`. -/
theorem fiat_25519_carry_add_correct (a b : fiat_25519_tight_field_element)
    (ha : Tight a) (hb : Tight b) :
    eval (fiat_25519_carry (fiat_25519_add a b)) % p = (eval a + eval b) % p := by
  rw [carry_mod _ (add_loose a b ha hb), eval_add a b ha hb]

theorem fiat_25519_carry_add_correct_witness :
    Tight tight_max ∧ Tight ⟨1, 0, 0, 0, 0, 0, 0, 0, 0, 0⟩ ∧
    eval (fiat_25519_carry (fiat_25519_add tight_max ⟨1, 0, 0, 0, 0, 0, 0, 0, 0, 0⟩)) % p =
      (eval tight_max + eval ⟨1, 0, 0, 0, 0, 0, 0, 0, 0, 0⟩) % p :=
  ⟨by decide, by decide, fiat_25519_carry_add_correct _ _ (by decide) (by decide)⟩

/-- C13: for tight `a`, `b` the value of `carry (sub a b)` is congruent to `eval a - eval b`
modulo `p`, the difference and the residue (in `[0, p)`) taken over the integers. -/
theorem fiat_25519_carry_sub_correct (a b : fiat_25519_tight_field_element)
    (ha : Tight a) (hb : Tight b) :
    (eval (fiat_25519_carry (fiat_25519_sub a b)) : Int) % (p : Int) =
      ((eval a : Int) - (eval b : Int)) % (p : Int) := by
  have h := eval_sub a b ha hb
  apply int_mod_of_add_two_p (y := eval a) (z := eval b)
  · rw [carry_mod _ (sub_loose a b ha hb)]
    congr 1
    omega
  · omega

theorem fiat_25519_carry_sub_correct_witness :
    Tight zero_limbs ∧ Tight tight_max ∧
    (eval (fiat_25519_carry (fiat_25519_sub zero_limbs tight_max)) : Int) % (p : Int) =
      ((eval zero_limbs : Int) - (eval tight_max : Int)) % (p : Int) :=
  ⟨by decide, by decide, fiat_25519_carry_sub_correct _ _ (by decide) (by decide)⟩

/-- C14: for tight `a` the value of `carry (opp a)` is congruent to `-eval a` modulo `p`,
the negation and the residue (in `[0, p)`) taken over the integers. -/
theorem fiat_25519_carry_opp_correct (a : fiat_25519_tight_field_element) (ha : Tight a) :
    (eval (fiat_25519_carry (fiat_25519_opp a)) : Int) % (p : Int) =
      (-(eval a : Int)) % (p : Int) := by
  have h := eval_opp a ha
  have key := int_mod_of_add_two_p (x := eval (fiat_25519_carry (fiat_25519_opp a)))
    (y := 0) (z := eval a)
    (by rw [carry_mod _ (opp_loose a ha)]; congr 1; omega) (by omega)
  rw [key]
  simp

theorem fiat_25519_carry_opp_correct_witness :
    Tight tight_max ∧
    (eval (fiat_25519_carry (fiat_25519_opp tight_max)) : Int) % (p : Int) =
      (-(eval tight_max : Int)) % (p : Int) :=
  ⟨by decide, fiat_25519_carry_opp_correct _ (by decide)⟩

/-- C15: for loose `x` the output of `fiat_25519_carry_scmul_121666 x` is tight and its value
is congruent to `121666 * eval x` modulo `p`. -/
theorem fiat_25519_carry_scmul_121666_correct (x : fiat_25519_loose_field_element)
    (hx : Loose x) :
    Tight (fiat_25519_carry_scmul_121666 x) ∧
    eval (fiat_25519_carry_scmul_121666 x) % p = (121666 * eval x) % p := by
  rw [carry_scmul_eq_chain x hx]
  refine ⟨chain_tight _ (scmul_acc_bound x hx), ?_⟩
  rw [mod_p_of_add_mul (chain_eval (scmul_acc x)), scmul_acc_eval]

theorem fiat_25519_carry_scmul_121666_correct_witness :
    Loose ⟨0xc000000, 0x6000000, 0xc000000, 0x6000000, 0xc000000, 0x6000000, 0xc000000,
      0x6000000, 0xc000000, 0x6000000⟩ ∧
    Tight (fiat_25519_carry_scmul_121666 ⟨0xc000000, 0x6000000, 0xc000000, 0x6000000,
      0xc000000, 0x6000000, 0xc000000, 0x6000000, 0xc000000, 0x6000000⟩) ∧
    eval (fiat_25519_carry_scmul_121666 ⟨0xc000000, 0x6000000, 0xc000000, 0x6000000,
      0xc000000, 0x6000000, 0xc000000, 0x6000000, 0xc000000, 0x6000000⟩) % p =
    (121666 * eval ⟨0xc000000, 0x6000000, 0xc000000, 0x6000000, 0xc000000, 0x6000000,
      0xc000000, 0x6000000, 0xc000000, 0x6000000⟩) % p :=
  ⟨by decide, fiat_25519_carry_scmul_121666_correct _ (by decide)⟩

/-- C16: for tight `a`, `b` and every index `i` in `0..9` the linear operators are exact limb
by limb, as integers: `add(a,b)[i] = a[i] + b[i]`, `sub(a,b)[i] = c[i] + a[i] - b[i]` and
`opp(a)[i] = c[i] - a[i]` with `c = bias`; the right-hand sides are non-negative and below
`2^32`, so nothing wraps or underflows. -/
theorem fiat_25519_linear_exact (a b : fiat_25519_tight_field_element)
    (ha : Tight a) (hb : Tight b) (i : Nat) (hi : i < 10) :
    (fiat_25519_add a b).get i = a.get i + b.get i ∧
    ((fiat_25519_sub a b).get i : Int) = (bias.get i : Int) + (a.get i : Int) - (b.get i : Int) ∧
    ((fiat_25519_opp a).get i : Int) = (bias.get i : Int) - (a.get i : Int) ∧
    a.get i + b.get i < 2 ^ 32 ∧ bias.get i + a.get i < 2 ^ 32 ∧
    b.get i ≤ bias.get i + a.get i ∧ a.get i ≤ bias.get i := by
  rw [add_exact a b ha hb, sub_exact a b ha hb, opp_exact a ha]
  obtain ⟨h0, h1, h2, h3, h4, h5, h6, h7, h8, h9⟩ := ha
  obtain ⟨g0, g1, g2, g3, g4, g5, g6, g7, g8, g9⟩ := hb
  interval_cases i <;> simp only [Limbs.get, bias, true_and] <;> omega

theorem fiat_25519_linear_exact_witness :
    Tight tight_max ∧ Tight ⟨5, 4, 3, 2, 1, 0, 7, 8, 9, 10⟩ ∧ 9 < 10 ∧
    (fiat_25519_add tight_max ⟨5, 4, 3, 2, 1, 0, 7, 8, 9, 10⟩).get 9 =
      tight_max.get 9 + (Limbs.mk 5 4 3 2 1 0 7 8 9 10).get 9 :=
  ⟨by decide, by decide, by decide,
    (fiat_25519_linear_exact tight_max ⟨5, 4, 3, 2, 1, 0, 7, 8, 9, 10⟩ (by decide) (by decide)
      9 (by decide)).1⟩

/-- C17: the bias of `sub` and `opp` is worth `2 * p`: for tight `a`, `b`,
`eval (sub a b) = eval a - eval b + 2 p` and `eval (opp a) = 2 p - eval a` over the integers,
and `eval bias = 2 * p`. -/
theorem fiat_25519_bias_multiple_of_p (a b : fiat_25519_tight_field_element)
    (ha : Tight a) (hb : Tight b) :
    (eval (fiat_25519_sub a b) : Int) = (eval a : Int) - (eval b : Int) + 2 * (p : Int) ∧
    (eval (fiat_25519_opp a) : Int) = 2 * (p : Int) - (eval a : Int) ∧
    eval bias = 2 * p ∧ p = 2 ^ 255 - 19 := by
  have h1 := eval_sub a b ha hb
  have h2 := eval_opp a ha
  refine ⟨by omega, by omega, by decide, rfl⟩

theorem fiat_25519_bias_multiple_of_p_witness :
    Tight zero_limbs ∧ Tight tight_max ∧
    (eval (fiat_25519_sub zero_limbs tight_max) : Int) =
      (eval zero_limbs : Int) - (eval tight_max : Int) + 2 * (p : Int) :=
  ⟨by decide, by decide, (fiat_25519_bias_multiple_of_p _ _ (by decide) (by decide)).1⟩

/-- C18: for tight `a`, `b` each of `add a b`, `sub a b` and `opp a` meets the loose bounds
the header declares: even limbs at most `0xc000000`, odd limbs at most `0x6000000`. -/
theorem fiat_25519_linear_loose (a b : fiat_25519_tight_field_element)
    (ha : Tight a) (hb : Tight b) :
    Loose (fiat_25519_add a b) ∧ Loose (fiat_25519_sub a b) ∧ Loose (fiat_25519_opp a) :=
  ⟨add_loose a b ha hb, sub_loose a b ha hb, opp_loose a ha⟩

theorem fiat_25519_linear_loose_witness :
    Tight tight_max ∧ Tight zero_limbs ∧
    Loose (fiat_25519_add tight_max zero_limbs) ∧ Loose (fiat_25519_sub tight_max zero_limbs) ∧
    Loose (fiat_25519_opp tight_max) :=
  ⟨by decide, by decide, fiat_25519_linear_loose _ _ (by decide) (by decide)⟩

/-- C19, as stated, fails for `sub`: with `a` on the tight bounds and `b = 0`, limb 0 of
`sub a b` is `0xbffffda`, above `2^27`, and limb 1 is `0x5fffffe`, above `2^26`. -/
theorem fiat_25519_sub_exceeds_twice_tight :
    Tight tight_max ∧ Tight zero_limbs ∧
    (fiat_25519_sub tight_max zero_limbs).v0 = 0xbffffda ∧
    (fiat_25519_sub tight_max zero_limbs).v1 = 0x5fffffe ∧
    ¬ TwiceTight (fiat_25519_sub tight_max zero_limbs) := by
  decide

/-- C19, amended: for tight `a`, `b` every limb of `add a b` and of `opp a` is at most twice
the tight bound of its position (`2^27` even, `2^26` odd); the limbs of `sub a b` are at most
three times that bound (`0xc000000` even, `0x6000000` odd, the loose bounds of the header). -/
theorem fiat_25519_linear_bounds (a b : fiat_25519_tight_field_element)
    (ha : Tight a) (hb : Tight b) :
    TwiceTight (fiat_25519_add a b) ∧ TwiceTight (fiat_25519_opp a) ∧
    Loose (fiat_25519_sub a b) ∧ 0xc000000 = 3 * 2 ^ 26 ∧ 0x6000000 = 3 * 2 ^ 25 := by
  refine ⟨?_, ?_, sub_loose a b ha hb, by decide, by decide⟩
  · rw [add_exact a b ha hb]
    simp only [Tight, TwiceTight] at *
    omega
  · rw [opp_exact a ha]
    simp only [Tight, TwiceTight] at *
    omega

theorem fiat_25519_linear_bounds_witness :
    Tight tight_max ∧ Tight zero_limbs ∧
    TwiceTight (fiat_25519_add tight_max zero_limbs) ∧ TwiceTight (fiat_25519_opp tight_max) ∧
    Loose (fiat_25519_sub tight_max zero_limbs) :=
  ⟨by decide, by decide,
    (fiat_25519_linear_bounds tight_max zero_limbs (by decide) (by decide)).1,
    (fiat_25519_linear_bounds tight_max zero_limbs (by decide) (by decide)).2.1,
    (fiat_25519_linear_bounds tight_max zero_limbs (by decide) (by decide)).2.2.1⟩

/-- C20: for 32-bit words `u`, `v`, `fiat_25519_cmovznz_u32` returns `u` on predicate 0 and
`v` on predicate 1. -/
theorem fiat_25519_cmovznz_u32_correct (u v : Nat) (hu : u < 2 ^ 32) (hv : v < 2 ^ 32) :
    fiat_25519_cmovznz_u32 0 u v = u ∧ fiat_25519_cmovznz_u32 1 u v = v := by
  rw [cmovznz_u32_spec 0 u v hu hv, cmovznz_u32_spec 1 u v hu hv]
  exact ⟨if_pos rfl, if_neg (by decide)⟩

theorem fiat_25519_cmovznz_u32_correct_witness :
    0xdeadbeef < 2 ^ 32 ∧ 0x12345678 < 2 ^ 32 ∧
    fiat_25519_cmovznz_u32 0 0xdeadbeef 0x12345678 = 0xdeadbeef ∧
    fiat_25519_cmovznz_u32 1 0xdeadbeef 0x12345678 = 0x12345678 :=
  ⟨by decide, by decide, fiat_25519_cmovznz_u32_correct _ _ (by decide) (by decide)⟩

/-! ## Multi-limb select and relax -/

/-- On 32-bit words `fiat_25519_selectznz` returns its first vector on predicate 0 and its
second on any other predicate. -/
theorem selectznz_spec (c : Nat) (u v : Limbs) (hu : Words32 u) (hv : Words32 v) :
    fiat_25519_selectznz c u v = if c = 0 then u else v := by
  obtain ⟨h0, h1, h2, h3, h4, h5, h6, h7, h8, h9⟩ := hu
  obtain ⟨g0, g1, g2, g3, g4, g5, g6, g7, g8, g9⟩ := hv
  simp only [fiat_25519_selectznz, cmovznz_u32_spec c _ _ h0 g0, cmovznz_u32_spec c _ _ h1 g1,
    cmovznz_u32_spec c _ _ h2 g2, cmovznz_u32_spec c _ _ h3 g3, cmovznz_u32_spec c _ _ h4 g4,
    cmovznz_u32_spec c _ _ h5 g5, cmovznz_u32_spec c _ _ h6 g6, cmovznz_u32_spec c _ _ h7 g7,
    cmovznz_u32_spec c _ _ h8 g8, cmovznz_u32_spec c _ _ h9 g9]
  by_cases hc : c = 0
  · simp only [hc, if_true]
  · simp only [hc, if_false]

theorem relax_eq (a : Limbs) : fiat_25519_relax a = a := rfl

theorem loose_of_tight (a : Limbs) (h : Tight a) : Loose a := by
  simp only [Tight, Loose] at *
  omega

/-! ## Squaring against the product, and commutativity -/

/-- The accumulators of the square are those of the product of `a` with itself. -/
theorem square_acc_eq_mul_acc (a : Limbs) : square_acc a = mul_acc a a := by
  simp only [square_acc, mul_acc, Limbs.mk.injEq]
  refine ⟨?_, ?_, ?_, ?_, ?_, ?_, ?_, ?_, ?_, ?_⟩ <;> ring

/-- The accumulators of the product do not depend on the order of the operands. -/
theorem mul_acc_comm (a b : Limbs) : mul_acc a b = mul_acc b a := by
  simp only [mul_acc, Limbs.mk.injEq]
  refine ⟨?_, ?_, ?_, ?_, ?_, ?_, ?_, ?_, ?_, ?_⟩ <;> ring

/-! ## The multiple of `p` removed by `carry` -/

/-- The first pass of the chain on quotients and remainders named one by one: the remainders
and the top carry recompose the value. -/
theorem chain_first_core (t0 t1 t2 t3 t4 t5 t6 t7 t8 t9 s1 s2 s3 s4 s5 s6 s7 s8 s9 : Nat)
    (c0 c1 c2 c3 c4 c5 c6 c7 c8 c9 r0 r1 r2 r3 r4 r5 r6 r7 r8 r9 : Nat)
    (e0 : 2 ^ 26 * c0 + r0 = t0) (e1 : 2 ^ 25 * c1 + r1 = s1) (e2 : 2 ^ 26 * c2 + r2 = s2)
    (e3 : 2 ^ 25 * c3 + r3 = s3) (e4 : 2 ^ 26 * c4 + r4 = s4) (e5 : 2 ^ 25 * c5 + r5 = s5)
    (e6 : 2 ^ 26 * c6 + r6 = s6) (e7 : 2 ^ 25 * c7 + r7 = s7) (e8 : 2 ^ 26 * c8 + r8 = s8)
    (e9 : 2 ^ 25 * c9 + r9 = s9)
    (hs1 : s1 = c0 + t1) (hs2 : s2 = c1 + t2) (hs3 : s3 = c2 + t3) (hs4 : s4 = c3 + t4)
    (hs5 : s5 = c4 + t5) (hs6 : s6 = c5 + t6) (hs7 : s7 = c6 + t7) (hs8 : s8 = c7 + t8)
    (hs9 : s9 = c8 + t9) :
    (r0 + r1 * 2 ^ 26 + r2 * 2 ^ 51 + r3 * 2 ^ 77 + r4 * 2 ^ 102 + r5 * 2 ^ 128 +
      r6 * 2 ^ 153 + r7 * 2 ^ 179 + r8 * 2 ^ 204 + r9 * 2 ^ 230) + 2 ^ 255 * c9 =
    t0 + t1 * 2 ^ 26 + t2 * 2 ^ 51 + t3 * 2 ^ 77 + t4 * 2 ^ 102 + t5 * 2 ^ 128 +
      t6 * 2 ^ 153 + t7 * 2 ^ 179 + t8 * 2 ^ 204 + t9 * 2 ^ 230 := by
  zify at *
  linear_combination e0 + 2 ^ 26 * e1 + 2 ^ 51 * e2 + 2 ^ 77 * e3 + 2 ^ 102 * e4 + 2 ^ 128 * e5
    + 2 ^ 153 * e6 + 2 ^ 179 * e7 + 2 ^ 204 * e8 + 2 ^ 230 * e9 + 2 ^ 26 * hs1 + 2 ^ 51 * hs2
    + 2 ^ 77 * hs3 + 2 ^ 102 * hs4 + 2 ^ 128 * hs5 + 2 ^ 153 * hs6 + 2 ^ 179 * hs7
    + 2 ^ 204 * hs8 + 2 ^ 230 * hs9

/-- The top carry of the chain is the quotient of the value by `2^255`. -/
theorem chain_top_eq (t : Limbs) : chain_top t = eval t / 2 ^ 255 := by
  have m26 : ∀ x : Nat, x % 2 ^ 26 < 2 ^ 26 := fun x => Nat.mod_lt _ (by decide)
  have m25 : ∀ x : Nat, x % 2 ^ 25 < 2 ^ 25 := fun x => Nat.mod_lt _ (by decide)
  have key := chain_first_core t.v0 t.v1 t.v2 t.v3 t.v4 t.v5 t.v6 t.v7 t.v8 t.v9
    _ _ _ _ _ _ _ _ _ _ _ _ _ _ _ _ _ _ _ _ _ _ _ _ _ _ _ _ _
    (Nat.div_add_mod _ _) (Nat.div_add_mod _ _) (Nat.div_add_mod _ _) (Nat.div_add_mod _ _)
    (Nat.div_add_mod _ _) (Nat.div_add_mod _ _) (Nat.div_add_mod _ _) (Nat.div_add_mod _ _)
    (Nat.div_add_mod _ _) (Nat.div_add_mod _ _) rfl rfl rfl rfl rfl rfl rfl rfl rfl
  have hD := digits_lt _ _ _ _ _ _ _ _ _ _ (m26 t.v0) (m25 (t.v0 / 2 ^ 26 + t.v1))
    (m26 ((t.v0 / 2 ^ 26 + t.v1) / 2 ^ 25 + t.v2))
    (m25 (((t.v0 / 2 ^ 26 + t.v1) / 2 ^ 25 + t.v2) / 2 ^ 26 + t.v3))
    (m26 ((((t.v0 / 2 ^ 26 + t.v1) / 2 ^ 25 + t.v2) / 2 ^ 26 + t.v3) / 2 ^ 25 + t.v4))
    (m25 (((((t.v0 / 2 ^ 26 + t.v1) / 2 ^ 25 + t.v2) / 2 ^ 26 + t.v3) / 2 ^ 25 + t.v4) / 2 ^ 26
      + t.v5))
    (m26 ((((((t.v0 / 2 ^ 26 + t.v1) / 2 ^ 25 + t.v2) / 2 ^ 26 + t.v3) / 2 ^ 25 + t.v4) / 2 ^ 26
      + t.v5) / 2 ^ 25 + t.v6))
    (m25 (((((((t.v0 / 2 ^ 26 + t.v1) / 2 ^ 25 + t.v2) / 2 ^ 26 + t.v3) / 2 ^ 25 + t.v4) / 2 ^ 26
      + t.v5) / 2 ^ 25 + t.v6) / 2 ^ 26 + t.v7))
    (m26 ((((((((t.v0 / 2 ^ 26 + t.v1) / 2 ^ 25 + t.v2) / 2 ^ 26 + t.v3) / 2 ^ 25 + t.v4) / 2 ^ 26
      + t.v5) / 2 ^ 25 + t.v6) / 2 ^ 26 + t.v7) / 2 ^ 25 + t.v8))
    (m25 (((((((((t.v0 / 2 ^ 26 + t.v1) / 2 ^ 25 + t.v2) / 2 ^ 26 + t.v3) / 2 ^ 25 + t.v4) / 2 ^ 26
      + t.v5) / 2 ^ 25 + t.v6) / 2 ^ 26 + t.v7) / 2 ^ 25 + t.v8) / 2 ^ 26 + t.v9))
  simp only [chain_top, eval]
  rw [← key, Nat.add_mul_div_left _ _ (Nat.pow_pos (by decide)), Nat.div_eq_of_lt hD,
    Nat.zero_add]

theorem loose_lt (x : Limbs) (h : Loose x) : eval x < 4 * 2 ^ 255 := by
  simp only [Loose, eval] at *
  omega

/-- With the quotient and the value as atoms: what `carry` returns. -/
theorem carry_multiple_core (e k c : Nat) (hk : k = e / 2 ^ 255) (hc : c + (2 ^ 255 - 19) * k = e)
    (he : e < 4 * 2 ^ 255) : c = e % 2 ^ 255 + 19 * k ∧ k ≤ 3 := by
  omega

/-! ## The claims on the multi-limb select, relax, the reduction done by `carry`, two concrete
vectors, and the product -/

/-- C21: for limb vectors `u`, `v` of arbitrary 32-bit words, `fiat_25519_selectznz` returns
`u` on predicate 0 and `v` on predicate 1, limb for limb, and each limb of the result is the
single-word select `fiat_25519_cmovznz_u32` of the limbs at that index. -/
theorem fiat_25519_selectznz_correct (u v : Limbs) (hu : Words32 u) (hv : Words32 v) :
    fiat_25519_selectznz 0 u v = u ∧ fiat_25519_selectznz 1 u v = v ∧
    ∀ c i, i < 10 →
      (fiat_25519_selectznz c u v).get i = fiat_25519_cmovznz_u32 c (u.get i) (v.get i) := by
  rw [selectznz_spec 0 u v hu hv, selectznz_spec 1 u v hu hv]
  refine ⟨if_pos rfl, if_neg (by decide), ?_⟩
  intro c i hi
  interval_cases i <;> rfl

theorem fiat_25519_selectznz_correct_witness :
    Words32 ⟨0xffffffff, 0xdeadbeef, 0, 1, 0x80000000, 0x12345678, 0xc000001, 7, 0xfffffffe,
      0x6000000⟩ ∧
    Words32 ⟨0, 0xffffffff, 0xcafebabe, 2, 0x7fffffff, 0x87654321, 3, 0x4000000, 1,
      0xffffffff⟩ ∧
    fiat_25519_selectznz 0
      ⟨0xffffffff, 0xdeadbeef, 0, 1, 0x80000000, 0x12345678, 0xc000001, 7, 0xfffffffe, 0x6000000⟩
      ⟨0, 0xffffffff, 0xcafebabe, 2, 0x7fffffff, 0x87654321, 3, 0x4000000, 1, 0xffffffff⟩ =
      ⟨0xffffffff, 0xdeadbeef, 0, 1, 0x80000000, 0x12345678, 0xc000001, 7, 0xfffffffe,
        0x6000000⟩ ∧
    fiat_25519_selectznz 1
      ⟨0xffffffff, 0xdeadbeef, 0, 1, 0x80000000, 0x12345678, 0xc000001, 7, 0xfffffffe, 0x6000000⟩
      ⟨0, 0xffffffff, 0xcafebabe, 2, 0x7fffffff, 0x87654321, 3, 0x4000000, 1, 0xffffffff⟩ =
      ⟨0, 0xffffffff, 0xcafebabe, 2, 0x7fffffff, 0x87654321, 3, 0x4000000, 1, 0xffffffff⟩ :=
  ⟨by decide, by decide,
    (fiat_25519_selectznz_correct _ _ (by decide) (by decide)).1,
    (fiat_25519_selectznz_correct _ _ (by decide) (by decide)).2.1⟩

/-- C22: `fiat_25519_relax` is the identity on every 10-limb vector, and a tight element
satisfies the loose bounds, so that `fiat_25519_relax` maps tight elements to loose ones. -/
theorem fiat_25519_relax_identity (a : Limbs) :
    fiat_25519_relax a = a ∧ (Tight a → Loose a ∧ Loose (fiat_25519_relax a)) :=
  ⟨relax_eq a, fun h => ⟨loose_of_tight a h, loose_of_tight a h⟩⟩

theorem fiat_25519_relax_identity_witness :
    fiat_25519_relax tight_max = tight_max ∧ Tight tight_max ∧ Loose tight_max ∧
    Loose (fiat_25519_relax tight_max) :=
  ⟨(fiat_25519_relax_identity tight_max).1, by decide,
    (fiat_25519_relax_identity tight_max).2 (by decide)⟩

/-- C23: the output of `fiat_25519_carry` is reduced but not always canonical: for every
loose `x` its value is below `2 * p`, and on the loose limb vector of `p` itself the output
has value `p`, which is not below `p`. -/
theorem fiat_25519_carry_not_canonical :
    (∀ x : Limbs, Loose x → eval (fiat_25519_carry x) < 2 * p) ∧
    Loose p_limbs ∧ eval p_limbs = p ∧ p ≤ eval (fiat_25519_carry p_limbs) := by
  refine ⟨?_, by decide, by decide, by decide⟩
  intro x hx
  rw [carry_eq_chain x hx]
  obtain ⟨h0, h1, h2, h3, h4, h5, h6, h7, h8, h9⟩ := chain_tight x (acc63_of_loose x hx)
  exact tight_lt _ _ _ _ _ _ _ _ _ _ h0 h1 h2 h3 h4 h5 h6 h7 h8 h9

theorem fiat_25519_carry_not_canonical_witness :
    Loose loose_max ∧ eval (fiat_25519_carry loose_max) < 2 * p :=
  ⟨by decide, fiat_25519_carry_not_canonical.1 loose_max (by decide)⟩

set_option maxRecDepth 100000 in
/-- C24: with `a` the canonical limb vector of `p - 1` and `one = (1, 0, ..., 0)`,
`fiat_25519_to_bytes (fiat_25519_carry (fiat_25519_add a one))` is 32 zero bytes: the value
`p` serialises as 0. -/
theorem fiat_25519_p_serialises_to_zero :
    eval p_minus_one_limbs = p - 1 ∧ eval one_limbs = 1 ∧
    eval (fiat_25519_carry (fiat_25519_add p_minus_one_limbs one_limbs)) = p ∧
    fiat_25519_to_bytes (fiat_25519_carry (fiat_25519_add p_minus_one_limbs one_limbs)) =
      zero_bytes := by
  decide

/-- C25: `fiat_25519_carry_scmul_121666 (fiat_25519_relax (2, 0, ..., 0))` is the limb vector
`(243332, 0, ..., 0)`, which is tight and has the value `2 * 121666 mod p`. -/
theorem fiat_25519_carry_scmul_121666_two :
    fiat_25519_carry_scmul_121666 (fiat_25519_relax ⟨2, 0, 0, 0, 0, 0, 0, 0, 0, 0⟩) =
      ⟨243332, 0, 0, 0, 0, 0, 0, 0, 0, 0⟩ ∧
    Tight ⟨243332, 0, 0, 0, 0, 0, 0, 0, 0, 0⟩ ∧
    eval ⟨243332, 0, 0, 0, 0, 0, 0, 0, 0, 0⟩ = (2 * 121666) % p := by
  decide

/-- C27: for every loose `a`, `fiat_25519_carry_square a` and `fiat_25519_carry_mul a a` are
the same limb vector. -/
theorem fiat_25519_carry_square_eq_carry_mul (a : fiat_25519_loose_field_element)
    (ha : Loose a) : fiat_25519_carry_square a = fiat_25519_carry_mul a a := by
  rw [carry_square_eq_chain a ha, carry_mul_eq_chain a a ha ha, square_acc_eq_mul_acc]

theorem fiat_25519_carry_square_eq_carry_mul_witness :
    Loose loose_max ∧
    fiat_25519_carry_square loose_max = fiat_25519_carry_mul loose_max loose_max :=
  ⟨by decide, fiat_25519_carry_square_eq_carry_mul _ (by decide)⟩

/-- C28: for loose `a`, `b`, `fiat_25519_carry_mul a b` and `fiat_25519_carry_mul b a` are the
same limb vector. -/
theorem fiat_25519_carry_mul_comm (a b : fiat_25519_loose_field_element)
    (ha : Loose a) (hb : Loose b) : fiat_25519_carry_mul a b = fiat_25519_carry_mul b a := by
  rw [carry_mul_eq_chain a b ha hb, carry_mul_eq_chain b a hb ha, mul_acc_comm]

theorem fiat_25519_carry_mul_comm_witness :
    Loose loose_max ∧ Loose p_limbs ∧
    fiat_25519_carry_mul loose_max p_limbs = fiat_25519_carry_mul p_limbs loose_max :=
  ⟨by decide, by decide, fiat_25519_carry_mul_comm _ _ (by decide) (by decide)⟩

/-- Under the loose bounds the 32-bit pre-multiplications fit: any limb times 2 or 19, and an
odd limb times 38. -/
theorem premul_bound (b : Limbs) (hb : Loose b) (i : Nat) (hi : i < 10) :
    b.get i * 2 < 2 ^ 32 ∧ b.get i * 19 < 2 ^ 32 ∧ (i % 2 = 1 → b.get i * 38 < 2 ^ 32) := by
  obtain ⟨h0, h1, h2, h3, h4, h5, h6, h7, h8, h9⟩ := hb
  interval_cases i <;> simp only [Limbs.get] <;> omega

/-- C29: for loose `a`, `b` the machine arithmetic of `fiat_25519_carry_mul`,
`fiat_25519_carry_square` and `fiat_25519_carry_scmul_121666` neither wraps nor truncates.
Every limb times 2 or 19 and every odd limb times 38 is below `2^32`; the accumulators
computed with 32-bit and 64-bit wrap-around are those computed over unbounded naturals; each
accumulator is at most `2^63`, hence below `2^64`; and each function returns the carry chain
over unbounded naturals, without any cast, applied to these accumulators. -/
theorem fiat_25519_no_wrap (a b : fiat_25519_loose_field_element) (ha : Loose a)
    (hb : Loose b) :
    (∀ i, i < 10 →
      b.get i * 2 < 2 ^ 32 ∧ b.get i * 19 < 2 ^ 32 ∧ (i % 2 = 1 → b.get i * 38 < 2 ^ 32)) ∧
    mul_acc64 a b = mul_acc a b ∧ square_acc64 a = square_acc a ∧
    Acc63 (mul_acc a b) ∧ Acc63 (square_acc a) ∧ Acc63 (scmul_acc a) ∧
    fiat_25519_carry_mul a b = chain (mul_acc a b) ∧
    fiat_25519_carry_square a = chain (square_acc a) ∧
    fiat_25519_carry_scmul_121666 a = chain (scmul_acc a) :=
  ⟨premul_bound b hb, mul_acc64_eq a b ha hb, square_acc64_eq a ha, mul_acc_bound a b ha hb,
    square_acc_bound a ha, scmul_acc_bound a ha, carry_mul_eq_chain a b ha hb,
    carry_square_eq_chain a ha, carry_scmul_eq_chain a ha⟩

theorem fiat_25519_no_wrap_witness :
    Loose loose_max ∧
    (∀ i, i < 10 →
      loose_max.get i * 2 < 2 ^ 32 ∧ loose_max.get i * 19 < 2 ^ 32 ∧
      (i % 2 = 1 → loose_max.get i * 38 < 2 ^ 32)) ∧
    mul_acc64 loose_max loose_max = mul_acc loose_max loose_max ∧
    square_acc64 loose_max = square_acc loose_max ∧
    Acc63 (mul_acc loose_max loose_max) ∧ Acc63 (square_acc loose_max) ∧
    Acc63 (scmul_acc loose_max) ∧
    fiat_25519_carry_mul loose_max loose_max = chain (mul_acc loose_max loose_max) ∧
    fiat_25519_carry_square loose_max = chain (square_acc loose_max) ∧
    fiat_25519_carry_scmul_121666 loose_max = chain (scmul_acc loose_max) :=
  ⟨by decide, fiat_25519_no_wrap loose_max loose_max (by decide) (by decide)⟩

/-- C30: `fiat_25519_carry` removes an exact multiple of `p`: for loose `x` and
`k = eval x / 2^255` (rounded down), the value of the output is `eval x mod 2^255 + 19 * k`,
which is `eval x - k * p`, and `k` is at most 3. -/
theorem fiat_25519_carry_multiple_of_p (x : fiat_25519_loose_field_element) (hx : Loose x) :
    eval (fiat_25519_carry x) = eval x % 2 ^ 255 + 19 * (eval x / 2 ^ 255) ∧
    (eval (fiat_25519_carry x) : Int) = (eval x : Int) - ((eval x / 2 ^ 255 : Nat) : Int) * p ∧
    eval x / 2 ^ 255 ≤ 3 := by
  rw [carry_eq_chain x hx]
  have hc := chain_eval x
  rw [chain_top_eq, p_val] at hc
  have hl := loose_lt x hx
  obtain ⟨h1, h2⟩ := carry_multiple_core (eval x) (eval x / 2 ^ 255) (eval (chain x)) rfl hc hl
  refine ⟨h1, ?_, h2⟩
  rw [p_val]
  omega

theorem fiat_25519_carry_multiple_of_p_witness :
    Loose loose_max ∧
    eval (fiat_25519_carry loose_max) =
      eval loose_max % 2 ^ 255 + 19 * (eval loose_max / 2 ^ 255) ∧
    (eval (fiat_25519_carry loose_max) : Int) =
      (eval loose_max : Int) - ((eval loose_max / 2 ^ 255 : Nat) : Int) * p ∧
    eval loose_max / 2 ^ 255 ≤ 3 :=
  ⟨by decide, fiat_25519_carry_multiple_of_p loose_max (by decide)⟩

/-! ## Positional digits -/

/-- Peeling the lowest digit of radix `R` off a number. -/
theorem digit_first (n m d R : Nat) (h : n = d + R * m) (hd : d < R) :
    n % R = d ∧ n / R = m := by
  have hR : 0 < R := by omega
  subst h
  exact ⟨by rw [Nat.add_mul_mod_self_left, Nat.mod_eq_of_lt hd],
    by rw [Nat.add_mul_div_left _ _ hR, Nat.div_eq_of_lt hd, Nat.zero_add]⟩

/-- Peeling the digit of weight `W` and radix `R` off a number whose part above `W` is known;
`V` is the next weight. -/
theorem digit_step (n m d W R V : Nat) (hV : V = W * R) (h : n / W = d + R * m) (hd : d < R) :
    n / W % R = d ∧ n / V = m := by
  subst hV
  rw [← Nat.div_div_eq_div_mul]
  exact digit_first _ _ _ _ h hd

/-- A byte array lists the base-256 digits of the integer it holds. -/
theorem toList_eq_le_bytes (b : Bytes32) (h : IsBytes b) : b.toList = le_bytes (bytes_eval b) := by
  obtain ⟨h0, h1, h2, h3, h4, h5, h6, h7, h8, h9, h10, h11, h12, h13, h14, h15, h16, h17, h18,
    h19, h20, h21, h22, h23, h24, h25, h26, h27, h28, h29, h30, h31⟩ := (isBytes_iff b).mp h
  have e : bytes_eval b = b.b0 + 256 * (b.b1 + 256 * (b.b2 + 256 * (b.b3 + 256 * (b.b4 + 256 *
      (b.b5 + 256 * (b.b6 + 256 * (b.b7 + 256 * (b.b8 + 256 * (b.b9 + 256 * (b.b10 + 256 * (b.b11 +
      256 * (b.b12 + 256 * (b.b13 + 256 * (b.b14 + 256 * (b.b15 + 256 * (b.b16 + 256 * (b.b17 + 256
      * (b.b18 + 256 * (b.b19 + 256 * (b.b20 + 256 * (b.b21 + 256 * (b.b22 + 256 * (b.b23 + 256 *
      (b.b24 + 256 * (b.b25 + 256 * (b.b26 + 256 * (b.b27 + 256 * (b.b28 + 256 * (b.b29 + 256 *
      (b.b30 + 256 * (b.b31))))))))))))))))))))))))))))))) := by
    simp only [bytes_eval]
    ring
  simp only [Bytes32.toList, le_bytes, range32, List.map_cons, List.map_nil, List.cons.injEq,
    and_true]
  generalize bytes_eval b = n at e ⊢
  obtain ⟨g0, s1⟩ := digit_step n _ _ (2 ^ (8 * 0)) 256 (2 ^ (8 * 1)) (by decide)
    ((Nat.div_one n).trans e) (Nat.lt_succ_of_le h0)
  obtain ⟨g1, s2⟩ := digit_step n _ _ (2 ^ (8 * 1)) 256 (2 ^ (8 * 2)) (by decide) s1
    (Nat.lt_succ_of_le h1)
  obtain ⟨g2, s3⟩ := digit_step n _ _ (2 ^ (8 * 2)) 256 (2 ^ (8 * 3)) (by decide) s2
    (Nat.lt_succ_of_le h2)
  obtain ⟨g3, s4⟩ := digit_step n _ _ (2 ^ (8 * 3)) 256 (2 ^ (8 * 4)) (by decide) s3
    (Nat.lt_succ_of_le h3)
  obtain ⟨g4, s5⟩ := digit_step n _ _ (2 ^ (8 * 4)) 256 (2 ^ (8 * 5)) (by decide) s4
    (Nat.lt_succ_of_le h4)
  obtain ⟨g5, s6⟩ := digit_step n _ _ (2 ^ (8 * 5)) 256 (2 ^ (8 * 6)) (by decide) s5
    (Nat.lt_succ_of_le h5)
  obtain ⟨g6, s7⟩ := digit_step n _ _ (2 ^ (8 * 6)) 256 (2 ^ (8 * 7)) (by decide) s6
    (Nat.lt_succ_of_le h6)
  obtain ⟨g7, s8⟩ := digit_step n _ _ (2 ^ (8 * 7)) 256 (2 ^ (8 * 8)) (by decide) s7
    (Nat.lt_succ_of_le h7)
  obtain ⟨g8, s9⟩ := digit_step n _ _ (2 ^ (8 * 8)) 256 (2 ^ (8 * 9)) (by decide) s8
    (Nat.lt_succ_of_le h8)
  obtain ⟨g9, s10⟩ := digit_step n _ _ (2 ^ (8 * 9)) 256 (2 ^ (8 * 10)) (by decide) s9
    (Nat.lt_succ_of_le h9)
  obtain ⟨g10, s11⟩ := digit_step n _ _ (2 ^ (8 * 10)) 256 (2 ^ (8 * 11)) (by decide) s10
    (Nat.lt_succ_of_le h10)
  obtain ⟨g11, s12⟩ := digit_step n _ _ (2 ^ (8 * 11)) 256 (2 ^ (8 * 12)) (by decide) s11
    (Nat.lt_succ_of_le h11)
  obtain ⟨g12, s13⟩ := digit_step n _ _ (2 ^ (8 * 12)) 256 (2 ^ (8 * 13)) (by decide) s12
    (Nat.lt_succ_of_le h12)
  obtain ⟨g13, s14⟩ := digit_step n _ _ (2 ^ (8 * 13)) 256 (2 ^ (8 * 14)) (by decide) s13
    (Nat.lt_succ_of_le h13)
  obtain ⟨g14, s15⟩ := digit_step n _ _ (2 ^ (8 * 14)) 256 (2 ^ (8 * 15)) (by decide) s14
    (Nat.lt_succ_of_le h14)
  obtain ⟨g15, s16⟩ := digit_step n _ _ (2 ^ (8 * 15)) 256 (2 ^ (8 * 16)) (by decide) s15
    (Nat.lt_succ_of_le h15)
  obtain ⟨g16, s17⟩ := digit_step n _ _ (2 ^ (8 * 16)) 256 (2 ^ (8 * 17)) (by decide) s16
    (Nat.lt_succ_of_le h16)
  obtain ⟨g17, s18⟩ := digit_step n _ _ (2 ^ (8 * 17)) 256 (2 ^ (8 * 18)) (by decide) s17
    (Nat.lt_succ_of_le h17)
  obtain ⟨g18, s19⟩ := digit_step n _ _ (2 ^ (8 * 18)) 256 (2 ^ (8 * 19)) (by decide) s18
    (Nat.lt_succ_of_le h18)
  obtain ⟨g19, s20⟩ := digit_step n _ _ (2 ^ (8 * 19)) 256 (2 ^ (8 * 20)) (by decide) s19
    (Nat.lt_succ_of_le h19)
  obtain ⟨g20, s21⟩ := digit_step n _ _ (2 ^ (8 * 20)) 256 (2 ^ (8 * 21)) (by decide) s20
    (Nat.lt_succ_of_le h20)
  obtain ⟨g21, s22⟩ := digit_step n _ _ (2 ^ (8 * 21)) 256 (2 ^ (8 * 22)) (by decide) s21
    (Nat.lt_succ_of_le h21)
  obtain ⟨g22, s23⟩ := digit_step n _ _ (2 ^ (8 * 22)) 256 (2 ^ (8 * 23)) (by decide) s22
    (Nat.lt_succ_of_le h22)
  obtain ⟨g23, s24⟩ := digit_step n _ _ (2 ^ (8 * 23)) 256 (2 ^ (8 * 24)) (by decide) s23
    (Nat.lt_succ_of_le h23)
  obtain ⟨g24, s25⟩ := digit_step n _ _ (2 ^ (8 * 24)) 256 (2 ^ (8 * 25)) (by decide) s24
    (Nat.lt_succ_of_le h24)
  obtain ⟨g25, s26⟩ := digit_step n _ _ (2 ^ (8 * 25)) 256 (2 ^ (8 * 26)) (by decide) s25
    (Nat.lt_succ_of_le h25)
  obtain ⟨g26, s27⟩ := digit_step n _ _ (2 ^ (8 * 26)) 256 (2 ^ (8 * 27)) (by decide) s26
    (Nat.lt_succ_of_le h26)
  obtain ⟨g27, s28⟩ := digit_step n _ _ (2 ^ (8 * 27)) 256 (2 ^ (8 * 28)) (by decide) s27
    (Nat.lt_succ_of_le h27)
  obtain ⟨g28, s29⟩ := digit_step n _ _ (2 ^ (8 * 28)) 256 (2 ^ (8 * 29)) (by decide) s28
    (Nat.lt_succ_of_le h28)
  obtain ⟨g29, s30⟩ := digit_step n _ _ (2 ^ (8 * 29)) 256 (2 ^ (8 * 30)) (by decide) s29
    (Nat.lt_succ_of_le h29)
  obtain ⟨g30, s31⟩ := digit_step n _ _ (2 ^ (8 * 30)) 256 (2 ^ (8 * 31)) (by decide) s30
    (Nat.lt_succ_of_le h30)
  have g31 : n / 2 ^ (8 * 31) % 256 = b.b31 := by
    rw [s31]
    exact Nat.mod_eq_of_lt (Nat.lt_succ_of_le h31)
  exact ⟨g0.symm, g1.symm, g2.symm, g3.symm, g4.symm, g5.symm, g6.symm, g7.symm, g8.symm,
    g9.symm, g10.symm, g11.symm, g12.symm, g13.symm, g14.symm, g15.symm, g16.symm, g17.symm,
    g18.symm, g19.symm, g20.symm, g21.symm, g22.symm, g23.symm, g24.symm, g25.symm, g26.symm,
    g27.symm, g28.symm, g29.symm, g30.symm, g31.symm⟩

/-- A limb vector whose limbs 0..8 are below their radix lists the digits of its value, the
top limb holding everything from bit 230 on. -/
theorem limbs_eq_digits_unmasked (x : Limbs) (h0 : x.v0 < 2 ^ 26) (h1 : x.v1 < 2 ^ 25)
    (h2 : x.v2 < 2 ^ 26) (h3 : x.v3 < 2 ^ 25) (h4 : x.v4 < 2 ^ 26) (h5 : x.v5 < 2 ^ 25)
    (h6 : x.v6 < 2 ^ 26) (h7 : x.v7 < 2 ^ 25) (h8 : x.v8 < 2 ^ 26) :
    x = digits_unmasked (eval x) := by
  have e : eval x = x.v0 + 2 ^ 26 * (x.v1 + 2 ^ 25 * (x.v2 + 2 ^ 26 * (x.v3 + 2 ^ 25 * (x.v4 +
      2 ^ 26 * (x.v5 + 2 ^ 25 * (x.v6 + 2 ^ 26 * (x.v7 + 2 ^ 25 * (x.v8 + 2 ^ 26 * x.v9))))))))
      := by
    simp only [eval]
    ring
  generalize eval x = n at e ⊢
  obtain ⟨g0, s1⟩ := digit_first n _ _ (2 ^ 26) e h0
  obtain ⟨g1, s2⟩ := digit_step n _ _ (2 ^ 26) (2 ^ 25) (2 ^ 51) (by decide) s1 h1
  obtain ⟨g2, s3⟩ := digit_step n _ _ (2 ^ 51) (2 ^ 26) (2 ^ 77) (by decide) s2 h2
  obtain ⟨g3, s4⟩ := digit_step n _ _ (2 ^ 77) (2 ^ 25) (2 ^ 102) (by decide) s3 h3
  obtain ⟨g4, s5⟩ := digit_step n _ _ (2 ^ 102) (2 ^ 26) (2 ^ 128) (by decide) s4 h4
  obtain ⟨g5, s6⟩ := digit_step n _ _ (2 ^ 128) (2 ^ 25) (2 ^ 153) (by decide) s5 h5
  obtain ⟨g6, s7⟩ := digit_step n _ _ (2 ^ 153) (2 ^ 26) (2 ^ 179) (by decide) s6 h6
  obtain ⟨g7, s8⟩ := digit_step n _ _ (2 ^ 179) (2 ^ 25) (2 ^ 204) (by decide) s7 h7
  obtain ⟨g8, s9⟩ := digit_step n _ _ (2 ^ 204) (2 ^ 26) (2 ^ 230) (by decide) s8 h8
  obtain ⟨a0, a1, a2, a3, a4, a5, a6, a7, a8, a9⟩ := x
  simp only [digits_unmasked, Limbs.mk.injEq]
  exact ⟨g0.symm, g1.symm, g2.symm, g3.symm, g4.symm, g5.symm, g6.symm, g7.symm, g8.symm,
    s9.symm⟩

/-- Whatever byte 31 is, limbs 0..8 of the decoder without wrap-around are below their
radix. -/
theorem from_bytes_ideal_low_digits (b : Bytes32) (h : IsBytes b) :
    (from_bytes_ideal b).v0 < 2 ^ 26 ∧ (from_bytes_ideal b).v1 < 2 ^ 25 ∧
    (from_bytes_ideal b).v2 < 2 ^ 26 ∧ (from_bytes_ideal b).v3 < 2 ^ 25 ∧
    (from_bytes_ideal b).v4 < 2 ^ 26 ∧ (from_bytes_ideal b).v5 < 2 ^ 25 ∧
    (from_bytes_ideal b).v6 < 2 ^ 26 ∧ (from_bytes_ideal b).v7 < 2 ^ 25 ∧
    (from_bytes_ideal b).v8 < 2 ^ 26 := by
  obtain ⟨h0, h1, h2, h3, h4, h5, h6, h7, h8, h9, h10, h11, h12, h13, h14, h15, h16, h17, h18,
    h19, h20, h21, h22, h23, h24, h25, h26, h27, h28, h29, h30, h31⟩ := (isBytes_iff b).mp h
  have m26 : ∀ x : Nat, x % 2 ^ 26 < 2 ^ 26 := fun x => Nat.mod_lt _ (by decide)
  have m25 : ∀ x : Nat, x % 2 ^ 25 < 2 ^ 25 := fun x => Nat.mod_lt _ (by decide)
  simp only [from_bytes_ideal]
  refine ⟨m26 _, m25 _, m26 _, m25 _, ?_, m25 _, m26 _, m25 _, m26 _⟩
  apply lt_of_bound
  case h =>
    repeat (first
      | with_reducible assumption
      | with_reducible apply Nat.add_le_add
      | with_reducible apply Nat.mul_le_mul
      | with_reducible apply Nat.div_le_div_right
      | exact Nat.le_refl _)
  case hB => decide

/-- On bytes, whatever byte 31 is, the decoder returns the unmasked digits of the integer. -/
theorem from_bytes_eq_digits (b : Bytes32) (h : IsBytes b) :
    fiat_25519_from_bytes b = digits_unmasked (bytes_eval b) := by
  obtain ⟨h0, h1, h2, h3, h4, h5, h6, h7, h8⟩ := from_bytes_ideal_low_digits b h
  rw [from_bytes_eq_ideal b h]
  have key := limbs_eq_digits_unmasked (from_bytes_ideal b) h0 h1 h2 h3 h4 h5 h6 h7 h8
  rw [from_bytes_ideal_eval] at key
  exact key

/-- An integer held in 32 bytes reaches `2^255` exactly when bit 7 of byte 31 is set. -/
theorem top_bit_iff (b : Bytes32) (h : IsBytes b) : 2 ^ 255 ≤ bytes_eval b ↔ 0x80 ≤ b.b31 := by
  obtain ⟨h0, h1, h2, h3, h4, h5, h6, h7, h8, h9, h10, h11, h12, h13, h14, h15, h16, h17, h18,
    h19, h20, h21, h22, h23, h24, h25, h26, h27, h28, h29, h30, h31⟩ := (isBytes_iff b).mp h
  simp only [bytes_eval]
  omega

/-- The two outputs of a borrow step, from the equation that links them. -/
theorem borrow_core (c x y o1 o2 W : Nat) (e : o1 + c + y = x + W * o2) (h1 : o1 < W)
    (h2 : o2 ≤ 1) :
    (o1 : Int) = ((x : Int) - c - y) % W ∧ o2 = if x < c + y then 1 else 0 := by
  have hW : (0 : Int) < W := by omega
  rcases Nat.le_one_iff_eq_zero_or_eq_one.mp h2 with h | h
  · subst h
    refine ⟨?_, ?_⟩
    · rw [Int.emod_eq_of_lt (by omega) (by omega)]
      omega
    · rw [if_neg (by omega)]
  · subst h
    refine ⟨?_, ?_⟩
    · have e2 : (x : Int) - c - y = (o1 : Int) + W * (-1) := by omega
      rw [e2, Int.add_mul_emod_self_left, Int.emod_eq_of_lt (by omega) (by omega)]
    · rw [if_pos (by omega)]

/-! ## The claims on repeated carry, decoding followed by encoding, the unmasked top limb, the
select on any predicate, and the borrow primitives -/

/-- C31: `fiat_25519_carry` is not idempotent.  On the loose element
`(0x3ffffff, 0x1ffffff, 0x3ffffff, 0, 0, 0, 0, 0, 0, 0x2000000)` it returns a tight vector
whose limb 2 is `2^26`; a second application moves that limb on into limb 3 and so returns a
different vector. -/
theorem fiat_25519_carry_not_idempotent :
    Loose carry_twice_input ∧
    fiat_25519_carry carry_twice_input = ⟨18, 0, 2 ^ 26, 0, 0, 0, 0, 0, 0, 0⟩ ∧
    Tight (fiat_25519_carry carry_twice_input) ∧
    fiat_25519_carry (fiat_25519_carry carry_twice_input) = ⟨18, 0, 0, 1, 0, 0, 0, 0, 0, 0⟩ ∧
    fiat_25519_carry (fiat_25519_carry carry_twice_input) ≠
      fiat_25519_carry carry_twice_input := by
  decide

/-- C32: encoding undoes decoding on canonical input: for 32 bytes `b` whose little-endian
integer is below `p`, `fiat_25519_to_bytes (fiat_25519_from_bytes b) = b` byte for byte. -/
theorem fiat_25519_to_bytes_from_bytes (b : Bytes32) (hb : IsBytes b) (hp : bytes_eval b < p) :
    fiat_25519_to_bytes (fiat_25519_from_bytes b) = b := by
  have h31 : b.b31 ≤ 0x7f := by
    have h1 := (top_bit_iff b hb).mpr
    have h2 := p_lt
    omega
  have ht : Tight (fiat_25519_from_bytes b) := by
    apply tight_of_digits
    rw [from_bytes_eq_ideal b hb]
    exact from_bytes_ideal_digits b hb h31
  apply toList_injective
  rw [to_bytes_le_bytes _ ht, from_bytes_eval b hb, Nat.mod_eq_of_lt hp]
  exact (toList_eq_le_bytes b hb).symm

theorem fiat_25519_to_bytes_from_bytes_witness :
    IsBytes p_minus_one_bytes ∧ bytes_eval p_minus_one_bytes < p ∧
    fiat_25519_to_bytes (fiat_25519_from_bytes p_minus_one_bytes) = p_minus_one_bytes :=
  ⟨by decide, by decide, fiat_25519_to_bytes_from_bytes _ (by decide) (by decide)⟩

/-- C33: `fiat_25519_from_bytes` does not mask limb 9.  For any 32 bytes `b`, with `n` their
little-endian integer below `2^256`: the value of the output is `n`, limbs 0..8 are the radix
digits of `n` and limb 9 is `n / 2^230` rounded down, which is at least `2^25` exactly when
the top bit of byte 31 is set. -/
theorem fiat_25519_from_bytes_no_mask (b : Bytes32) (hb : IsBytes b) :
    eval (fiat_25519_from_bytes b) = bytes_eval b ∧
    fiat_25519_from_bytes b = digits_unmasked (bytes_eval b) ∧
    (fiat_25519_from_bytes b).v9 = bytes_eval b / 2 ^ 230 ∧
    (2 ^ 25 ≤ (fiat_25519_from_bytes b).v9 ↔ 0x80 ≤ b.b31) := by
  refine ⟨from_bytes_eval b hb, from_bytes_eq_digits b hb, ?_, ?_⟩
  · rw [from_bytes_eq_digits b hb]
    rfl
  · rw [from_bytes_eq_digits b hb, ← top_bit_iff b hb]
    show 2 ^ 25 ≤ bytes_eval b / 2 ^ 230 ↔ _
    rw [Nat.le_div_iff_mul_le (Nat.pow_pos (by decide))]
    exact Iff.rfl

theorem fiat_25519_from_bytes_no_mask_witness :
    IsBytes all_ff_bytes ∧
    eval (fiat_25519_from_bytes all_ff_bytes) = bytes_eval all_ff_bytes ∧
    fiat_25519_from_bytes all_ff_bytes = digits_unmasked (bytes_eval all_ff_bytes) ∧
    (fiat_25519_from_bytes all_ff_bytes).v9 = bytes_eval all_ff_bytes / 2 ^ 230 ∧
    (2 ^ 25 ≤ (fiat_25519_from_bytes all_ff_bytes).v9 ↔ 0x80 ≤ all_ff_bytes.b31) :=
  ⟨by decide, fiat_25519_from_bytes_no_mask all_ff_bytes (by decide)⟩

/-- C34: `fiat_25519_cmovznz_u32` and `fiat_25519_selectznz` treat every non-zero predicate
like 1: for any predicate value `c`, in particular any of `0..255`, and 32-bit words `u`, `v`
or limb vectors `a`, `b` of 32-bit words, the result is the first operand if `c = 0` and the
second otherwise. -/
theorem fiat_25519_select_any_predicate (c u v : Nat) (a b : Limbs) (hu : u < 2 ^ 32)
    (hv : v < 2 ^ 32) (ha : Words32 a) (hb : Words32 b) :
    fiat_25519_cmovznz_u32 c u v = (if c = 0 then u else v) ∧
    fiat_25519_selectznz c a b = (if c = 0 then a else b) :=
  ⟨cmovznz_u32_spec c u v hu hv, selectznz_spec c a b ha hb⟩

theorem fiat_25519_select_any_predicate_witness :
    0xdeadbeef < 2 ^ 32 ∧ 0x12345678 < 2 ^ 32 ∧ Words32 loose_max ∧ Words32 p_limbs ∧
    fiat_25519_cmovznz_u32 255 0xdeadbeef 0x12345678 =
      (if 255 = 0 then 0xdeadbeef else 0x12345678) ∧
    fiat_25519_selectznz 255 loose_max p_limbs = (if 255 = 0 then loose_max else p_limbs) :=
  ⟨by decide, by decide, by decide, by decide,
    fiat_25519_select_any_predicate 255 _ _ _ _ (by decide) (by decide) (by decide)
      (by decide)⟩

/-- C35: for borrow-in `c` in `0..1` and `x`, `y` below `2^w`, with `w = 26` and `w = 25`,
`fiat_25519_subborrowx_u26` and `fiat_25519_subborrowx_u25` return
`out1 = (x - c - y) mod 2^w`, which lies in `[0, 2^w)`, and the borrow-out `out2 = 1` if
`x < c + y` and `0` otherwise. -/
theorem fiat_25519_subborrowx_correct (c x y : Nat) (hc : c ≤ 1) :
    (x < 2 ^ 26 → y < 2 ^ 26 →
      ((fiat_25519_subborrowx_u26 c x y).1 : Int) = ((x : Int) - c - y) % 2 ^ 26 ∧
      (fiat_25519_subborrowx_u26 c x y).1 < 2 ^ 26 ∧
      (fiat_25519_subborrowx_u26 c x y).2 = if x < c + y then 1 else 0) ∧
    (x < 2 ^ 25 → y < 2 ^ 25 →
      ((fiat_25519_subborrowx_u25 c x y).1 : Int) = ((x : Int) - c - y) % 2 ^ 25 ∧
      (fiat_25519_subborrowx_u25 c x y).1 < 2 ^ 25 ∧
      (fiat_25519_subborrowx_u25 c x y).2 = if x < c + y then 1 else 0) := by
  constructor
  · intro hx hy
    obtain ⟨e, h1, h2⟩ := subborrowx_u26_spec c x y hc hy (by omega)
    obtain ⟨g1, g2⟩ := borrow_core c x y _ _ (2 ^ 26) e h1 h2
    exact ⟨by exact_mod_cast g1, h1, g2⟩
  · intro hx hy
    obtain ⟨e, h1, h2⟩ := subborrowx_u25_spec c x y hc hy (by omega)
    obtain ⟨g1, g2⟩ := borrow_core c x y _ _ (2 ^ 25) e h1 h2
    exact ⟨by exact_mod_cast g1, h1, g2⟩

theorem fiat_25519_subborrowx_correct_witness :
    (1 : Nat) ≤ 1 ∧ (0 : Nat) < 2 ^ 25 ∧ 0x1ffffff < 2 ^ 25 ∧
    (((fiat_25519_subborrowx_u26 1 0 0x1ffffff).1 : Int) =
        (((0 : Nat) : Int) - (1 : Nat) - (0x1ffffff : Nat)) % 2 ^ 26 ∧
      (fiat_25519_subborrowx_u26 1 0 0x1ffffff).1 < 2 ^ 26 ∧
      (fiat_25519_subborrowx_u26 1 0 0x1ffffff).2 = if 0 < 1 + 0x1ffffff then 1 else 0) ∧
    (((fiat_25519_subborrowx_u25 1 0 0x1ffffff).1 : Int) =
        (((0 : Nat) : Int) - (1 : Nat) - (0x1ffffff : Nat)) % 2 ^ 25 ∧
      (fiat_25519_subborrowx_u25 1 0 0x1ffffff).1 < 2 ^ 25 ∧
      (fiat_25519_subborrowx_u25 1 0 0x1ffffff).2 = if 0 < 1 + 0x1ffffff then 1 else 0) :=
  ⟨by decide, by decide, by decide,
    (fiat_25519_subborrowx_correct 1 0 0x1ffffff (by decide)).1 (by decide) (by decide),
    (fiat_25519_subborrowx_correct 1 0 0x1ffffff (by decide)).2 (by decide) (by decide)⟩

end Fiat25519
